import Mathlib

/-!
# Bounding-volume fitting of the SRE rendering engine

A shallow embedding of `bounds.cpp` and `sre_bounds.h`.  `float` values are
modelled by an arbitrary linearly ordered field `F` (exact arithmetic); the
square root of the C library is passed to the definitions as the function
`sqrtf`, and the theorems instantiate `F` with the real numbers and `sqrtf`
with `Real.sqrt`.  Integers of the program (`nu_vertices`, loop counters) are
natural numbers.
-/

namespace SRE

/-! ## Linear algebra primitives

The vector and matrix classes come from the external linear algebra library, whose
headers are not among the sources; they are given their standard definitions here. -/

/-- Three-component vector; `Point3D` of the program is the same record. -/
structure Vector3D (F : Type) where
  x : F
  y : F
  z : F
deriving DecidableEq, Repr

/-- Points and vectors share one representation. -/
abbrev Point3D (F : Type) := Vector3D F

section Algebra

variable {F : Type} [LinearOrderedField F]

/-- Componentwise sum, `operator +`. -/
def Vector3D.add (a b : Vector3D F) : Vector3D F := ⟨a.x + b.x, a.y + b.y, a.z + b.z⟩

/-- Componentwise difference, `operator -`. -/
def Vector3D.sub (a b : Vector3D F) : Vector3D F := ⟨a.x - b.x, a.y - b.y, a.z - b.z⟩

/-- Product with a scalar, `operator *` (either operand order). -/
def Vector3D.scale (t : F) (a : Vector3D F) : Vector3D F := ⟨t * a.x, t * a.y, t * a.z⟩

/-- Quotient by a scalar, `operator /`. -/
def Vector3D.divScalar (a : Vector3D F) (t : F) : Vector3D F := ⟨a.x / t, a.y / t, a.z / t⟩

instance : Add (Vector3D F) := ⟨Vector3D.add⟩
instance : Sub (Vector3D F) := ⟨Vector3D.sub⟩

/-- Modelled from the spec: `Dot` of the external linear algebra library (absent from the
sources), the inner product of two vectors. -/
def Dot (a b : Vector3D F) : F := a.x * b.x + a.y * b.y + a.z * b.z

/-- Modelled from the spec: `SquaredMag` of the external linear algebra library (absent
from the sources), the squared length of a vector. -/
def SquaredMag (a : Vector3D F) : F := a.x * a.x + a.y * a.y + a.z * a.z

/-- Modelled from the spec: `Magnitude` of the external linear algebra library (absent from
the sources), the square root of the squared length. -/
def Magnitude (sqrtf : F → F) (a : Vector3D F) : F := sqrtf (SquaredMag a)

/-- Modelled from the spec: `Vector3D::Normalize` of the external linear algebra library
(absent from the sources), "normalize the three returned eigenvectors to unit length":
division by the length. -/
def Vector3D.Normalize (sqrtf : F → F) (a : Vector3D F) : Vector3D F :=
  a.divScalar (Magnitude sqrtf a)

/-- Square of a number, `sqrf` (sre_bounds.h). -/
def sqrf (x : F) : F := x * x

end Algebra

/-- Smaller of two values, `minf` (sre_bounds.h): `x` when `x < y`, else `y`. -/
def minf {α : Type} [LT α] [DecidableRel (fun a b : α => a < b)] (x y : α) : α :=
  if x < y then x else y

/-- Larger of two values, `maxf` (sre_bounds.h): `y` when `y > x`, else `x`. -/
def maxf {α : Type} [LT α] [DecidableRel (fun a b : α => a < b)] (x y : α) : α :=
  if x < y then y else x

/-! ## Floats extended with the two infinities -/

/-- A value of `F` or one of the two infinities that seed the AABB computation. -/
inductive ExtFloat (F : Type) where
  | negInf : ExtFloat F
  | fin : F → ExtFloat F
  | posInf : ExtFloat F
deriving DecidableEq, Repr

/-- Strict order of the extended values. -/
def ExtFloat.lt {F : Type} [LT F] : ExtFloat F → ExtFloat F → Prop
  | .negInf, .negInf => False
  | .negInf, _ => True
  | .fin a, .fin b => a < b
  | .fin _, .posInf => True
  | .fin _, .negInf => False
  | .posInf, _ => False

instance {F : Type} [LT F] : LT (ExtFloat F) := ⟨ExtFloat.lt⟩

instance {F : Type} [LT F] [DecidableRel (fun a b : F => a < b)] :
    DecidableRel (fun a b : ExtFloat F => a < b) := fun a b =>
  match a, b with
  | .negInf, .negInf => isFalse (fun h => h)
  | .negInf, .fin _ => isTrue trivial
  | .negInf, .posInf => isTrue trivial
  | .fin x, .fin y => (inferInstance : Decidable (x < y))
  | .fin _, .posInf => isTrue trivial
  | .fin _, .negInf => isFalse (fun h => h)
  | .posInf, .negInf => isFalse (fun h => h)
  | .posInf, .fin _ => isFalse (fun h => h)
  | .posInf, .posInf => isFalse (fun h => h)

/-- The constant `POSITIVE_INFINITY_FLOAT`. -/
def POSITIVE_INFINITY_FLOAT {F : Type} : ExtFloat F := .posInf

/-- The constant `NEGATIVE_INFINITY_FLOAT`. -/
def NEGATIVE_INFINITY_FLOAT {F : Type} : ExtFloat F := .negInf

/-- A finite point read as a vector of extended values. -/
def Vector3D.toExt {F : Type} (v : Vector3D F) : Vector3D (ExtFloat F) :=
  ⟨.fin v.x, .fin v.y, .fin v.z⟩

/-! ## Bounding volume records -/

/-- Axis-aligned box `sreBoundingVolumeAABB`. -/
structure sreBoundingVolumeAABB (α : Type) where
  dim_min : Vector3D α
  dim_max : Vector3D α
deriving DecidableEq, Repr

/-- Sphere `sreBoundingVolumeSphere`. -/
structure sreBoundingVolumeSphere (F : Type) where
  center : Point3D F
  radius : F
deriving DecidableEq, Repr

/-- One principal component `srePCAComponent`: a direction and the extent along it. -/
structure srePCAComponent (F : Type) where
  vector : Vector3D F
  size : F
deriving DecidableEq, Repr

/-- The array `srePCAComponent _PCA[3]`. -/
structure PCAArray (F : Type) where
  c0 : srePCAComponent F
  c1 : srePCAComponent F
  c2 : srePCAComponent F
deriving DecidableEq, Repr

/-- Array access `_PCA[i]`. -/
def PCAArray.get {F : Type} (p : PCAArray F) (i : Fin 3) : srePCAComponent F :=
  match i with
  | 0 => p.c0
  | 1 => p.c1
  | 2 => p.c2

/-! ## AABB of a vertex array -/

/-- Extension of a box by a point, `UpdateAABB(AABB, P)` (sre_bounds.h). -/
def UpdateAABB {F : Type} [LT F] [DecidableRel (fun a b : F => a < b)]
    (AABB : sreBoundingVolumeAABB (ExtFloat F)) (P : Point3D F) :
    sreBoundingVolumeAABB (ExtFloat F) :=
  { dim_min := ⟨minf AABB.dim_min.x (.fin P.x), minf AABB.dim_min.y (.fin P.y),
                minf AABB.dim_min.z (.fin P.z)⟩
    dim_max := ⟨maxf AABB.dim_max.x (.fin P.x), maxf AABB.dim_max.y (.fin P.y),
                maxf AABB.dim_max.z (.fin P.z)⟩ }

/-- The method `sreBaseModel::CalculateAABB`: the box is seeded with
(+∞, -∞) and extended by every vertex in turn. -/
def CalculateAABB {F : Type} [LT F] [DecidableRel (fun a b : F => a < b)]
    (vertex : List (Point3D F)) : sreBoundingVolumeAABB (ExtFloat F) :=
  vertex.foldl UpdateAABB
    { dim_min := ⟨POSITIVE_INFINITY_FLOAT, POSITIVE_INFINITY_FLOAT, POSITIVE_INFINITY_FLOAT⟩
      dim_max := ⟨NEGATIVE_INFINITY_FLOAT, NEGATIVE_INFINITY_FLOAT, NEGATIVE_INFINITY_FLOAT⟩ }

/-! ## Bounding sphere fitted along the first principal axis -/

section Sphere

variable {F : Type} [LinearOrderedField F]

/-- Running state of the index search: index and dot product of the current
minimum and of the current maximum. -/
structure MinMaxIndex (F : Type) where
  i_min : Nat
  d_min : F
  i_max : Nat
  d_max : F

/-- One iteration of the index search at index `i` with dot product `d`. -/
def MinMaxIndex.step (s : MinMaxIndex F) (i : Nat) (d : F) : MinMaxIndex F :=
  let s1 := if d < s.d_min then { s with i_min := i, d_min := d } else s
  if s1.d_max < d then { s1 with i_max := i, d_max := d } else s1

/-- Loop of the index search over the vertices from index `i` on. -/
def MinMaxIndex.run (C : Vector3D F) : List (Vector3D F) → Nat → MinMaxIndex F → MinMaxIndex F
  | [], _, s => s
  | v :: rest, i, s => MinMaxIndex.run C rest (i + 1) (s.step i (Dot v C))

/-- Modelled from the spec: `dstGetIndicesWithMinAndMaxDotProductNx1` belongs to the
external data-set library and is absent from the sources.  It finds "the two vertices
with minimum and maximum projection onto axis 0" and returns their indices
`(i_Pmin, i_Pmax)`; among equal projections the earliest index is kept. -/
def dstGetIndicesWithMinAndMaxDotProductNx1 (vertex : List (Vector3D F)) (C : Vector3D F) :
    Nat × Nat :=
  match vertex with
  | [] => (0, 0)
  | v :: rest =>
    let s := MinMaxIndex.run C rest 1 ⟨0, Dot v C, 0, Dot v C⟩
    (s.i_min, s.i_max)

/-- Array read `vertex[i]`. -/
def vertexAt (vertex : List (Point3D F)) (i : Nat) : Point3D F :=
  vertex.getD i ⟨0, 0, 0⟩

/-- Loop state of the sphere fit: the current centre and squared radius. -/
structure SphereFit (F : Type) where
  center : Point3D F
  r_squared : F
deriving DecidableEq, Repr

/-- Body of the loop of `CalculatePCABoundingSphere` for the vertex `P`: when `P`
lies outside, the sphere is replaced by the one through `P` that is tangent to the
previous sphere at the opposite point `G`. -/
def SphereFit.grow (sqrtf : F → F) (s : SphereFit F) (P : Point3D F) : SphereFit F :=
  let d_squared := SquaredMag (P - s.center)
  if d_squared > s.r_squared then
    let G := s.center -
      (Vector3D.scale (sqrtf s.r_squared) (P - s.center)).divScalar
        (Magnitude sqrtf (P - s.center))
    let center := Vector3D.scale (1 / 2) (G + P)
    { center := center, r_squared := SquaredMag (P - center) }
  else s

/-- The method `sreBaseModel::CalculatePCABoundingSphere`.  The members `position` and
`vertex` of the model name the same vertex array. -/
def CalculatePCABoundingSphere (sqrtf : F → F) (vertex : List (Point3D F))
    (_PCA : PCAArray F) : sreBoundingVolumeSphere F :=
  let idx := dstGetIndicesWithMinAndMaxDotProductNx1 vertex _PCA.c0.vector
  let i_Pmin := idx.1
  let i_Pmax := idx.2
  let center := Vector3D.scale (1 / 2) (vertexAt vertex i_Pmin + vertexAt vertex i_Pmax)
  let r_squared := SquaredMag (vertexAt vertex i_Pmin - center)
  let s := vertex.foldl (SphereFit.grow sqrtf) { center := center, r_squared := r_squared }
  { center := s.center, radius := sqrtf s.r_squared }

end Sphere

/-! ## Jacobi eigenvalue iteration (`CalculateEigensystem`) -/

/-- A 3×3 matrix `Matrix3D`; the field `mIJ` is the entry `m(I,J)` in row `I`, column `J`. -/
structure Matrix3D (F : Type) where
  m00 : F
  m01 : F
  m02 : F
  m10 : F
  m11 : F
  m12 : F
  m20 : F
  m21 : F
  m22 : F
deriving DecidableEq, Repr

section Eigen

variable {F : Type} [LinearOrderedField F]

/-- Result of `Matrix3D::SetIdentity`. -/
def Matrix3D.identity : Matrix3D F := ⟨1, 0, 0, 0, 1, 0, 0, 0, 1⟩

/-- Row `i` of a matrix, `Matrix3D::GetRow`. -/
def Matrix3D.GetRow (m : Matrix3D F) (i : Fin 3) : Vector3D F :=
  match i with
  | 0 => ⟨m.m00, m.m01, m.m02⟩
  | 1 => ⟨m.m10, m.m11, m.m12⟩
  | 2 => ⟨m.m20, m.m21, m.m22⟩

/-- Column `j` of a matrix. -/
def Matrix3D.GetColumn (m : Matrix3D F) (j : Fin 3) : Vector3D F :=
  match j with
  | 0 => ⟨m.m00, m.m10, m.m20⟩
  | 1 => ⟨m.m01, m.m11, m.m21⟩
  | 2 => ⟨m.m02, m.m12, m.m22⟩

/-- Transposed matrix. -/
def Matrix3D.transpose (m : Matrix3D F) : Matrix3D F :=
  ⟨m.m00, m.m10, m.m20, m.m01, m.m11, m.m21, m.m02, m.m12, m.m22⟩

/-- Matrix product, `operator *`. -/
def Matrix3D.mul (a b : Matrix3D F) : Matrix3D F :=
  ⟨Dot (a.GetRow 0) (b.GetColumn 0), Dot (a.GetRow 0) (b.GetColumn 1),
   Dot (a.GetRow 0) (b.GetColumn 2),
   Dot (a.GetRow 1) (b.GetColumn 0), Dot (a.GetRow 1) (b.GetColumn 1),
   Dot (a.GetRow 1) (b.GetColumn 2),
   Dot (a.GetRow 2) (b.GetColumn 0), Dot (a.GetRow 2) (b.GetColumn 1),
   Dot (a.GetRow 2) (b.GetColumn 2)⟩

/-- A matrix with equal entries across the diagonal. -/
def Matrix3D.IsSymmetric (m : Matrix3D F) : Prop :=
  m.m10 = m.m01 ∧ m.m20 = m.m02 ∧ m.m21 = m.m12

/-- The constant `epsilon = 1.0e-10F` of the convergence test. -/
def epsilon : F := 1 / 10000000000

/-- The constant `maxSweeps`. -/
def maxSweeps : Nat := 32

/-- The local variables of `CalculateEigensystem`: the six working entries of the
symmetric matrix and the accumulated rotation `r`. -/
structure EigenState (F : Type) where
  m11 : F
  m12 : F
  m13 : F
  m22 : F
  m23 : F
  m33 : F
  r : Matrix3D F
deriving DecidableEq, Repr

/-- The tangent `t` of the rotation angle computed from `u`, including the fallback
`0.5F / u` taken when `u2 + 1` compares equal to `u2`. -/
def rotationT (sqrtf : F → F) (u : F) : F :=
  let u2 := u * u
  let u2p1 := u2 + 1
  if u2p1 ≠ u2 then (if u < 0 then -1 else 1) * (sqrtf u2p1 - |u|) else (1 / 2) / u

/-- The cosine `c = 1.0F / sqrtf(t * t + 1.0F)`. -/
def rotationC (sqrtf : F → F) (t : F) : F := 1 / sqrtf (t * t + 1)

/-- Block "Annihilate (1,2) entry". -/
def EigenState.annihilate12 (sqrtf : F → F) (e : EigenState F) : EigenState F :=
  if e.m12 ≠ 0 then
    let u := (e.m22 - e.m11) * (1 / 2) / e.m12
    let t := rotationT sqrtf u
    let c := rotationC sqrtf t
    let s := c * t
    { m11 := e.m11 - t * e.m12
      m22 := e.m22 + t * e.m12
      m12 := 0
      m13 := c * e.m13 - s * e.m23
      m23 := s * e.m13 + c * e.m23
      m33 := e.m33
      r := ⟨c * e.r.m00 - s * e.r.m01, s * e.r.m00 + c * e.r.m01, e.r.m02,
            c * e.r.m10 - s * e.r.m11, s * e.r.m10 + c * e.r.m11, e.r.m12,
            c * e.r.m20 - s * e.r.m21, s * e.r.m20 + c * e.r.m21, e.r.m22⟩ }
  else e

/-- Block "Annihilate (1,3) entry". -/
def EigenState.annihilate13 (sqrtf : F → F) (e : EigenState F) : EigenState F :=
  if e.m13 ≠ 0 then
    let u := (e.m33 - e.m11) * (1 / 2) / e.m13
    let t := rotationT sqrtf u
    let c := rotationC sqrtf t
    let s := c * t
    { m11 := e.m11 - t * e.m13
      m33 := e.m33 + t * e.m13
      m13 := 0
      m12 := c * e.m12 - s * e.m23
      m23 := s * e.m12 + c * e.m23
      m22 := e.m22
      r := ⟨c * e.r.m00 - s * e.r.m02, e.r.m01, s * e.r.m00 + c * e.r.m02,
            c * e.r.m10 - s * e.r.m12, e.r.m11, s * e.r.m10 + c * e.r.m12,
            c * e.r.m20 - s * e.r.m22, e.r.m21, s * e.r.m20 + c * e.r.m22⟩ }
  else e

/-- Block "Annihilate (2,3) entry". -/
def EigenState.annihilate23 (sqrtf : F → F) (e : EigenState F) : EigenState F :=
  if e.m23 ≠ 0 then
    let u := (e.m33 - e.m22) * (1 / 2) / e.m23
    let t := rotationT sqrtf u
    let c := rotationC sqrtf t
    let s := c * t
    { m22 := e.m22 - t * e.m23
      m33 := e.m33 + t * e.m23
      m23 := 0
      m12 := c * e.m12 - s * e.m13
      m13 := s * e.m12 + c * e.m13
      m11 := e.m11
      r := ⟨e.r.m00, c * e.r.m01 - s * e.r.m02, s * e.r.m01 + c * e.r.m02,
            e.r.m10, c * e.r.m11 - s * e.r.m12, s * e.r.m11 + c * e.r.m12,
            e.r.m20, c * e.r.m21 - s * e.r.m22, s * e.r.m21 + c * e.r.m22⟩ }
  else e

/-- The exit test of the sweep loop: all three off-diagonal entries are below `epsilon`. -/
def EigenState.offDiagonalSmall (e : EigenState F) : Bool :=
  decide (|e.m12| < epsilon) && decide (|e.m13| < epsilon) && decide (|e.m23| < epsilon)

/-- One sweep: the three annihilation blocks in program order. -/
def EigenState.sweep (sqrtf : F → F) (e : EigenState F) : EigenState F :=
  (((e.annihilate12 sqrtf).annihilate13 sqrtf).annihilate23 sqrtf)

/-- The loop `for (a = 0; a < maxSweeps; a++)` with `n` iterations left.  The result
holds the state at loop exit and whether the loop was left by the `break`. -/
def eigenLoop (sqrtf : F → F) : Nat → EigenState F → EigenState F × Bool
  | 0, e => (e, false)
  | n + 1, e => if e.offDiagonalSmall then (e, true) else eigenLoop sqrtf n (e.sweep sqrtf)

/-- Values of the local variables before the loop. -/
def EigenState.init (m : Matrix3D F) : EigenState F :=
  { m11 := m.m00, m12 := m.m01, m13 := m.m02, m22 := m.m11, m23 := m.m12, m33 := m.m22,
    r := Matrix3D.identity }

/-- The state of `CalculateEigensystem` on leaving the loop. -/
def eigenFinalState (sqrtf : F → F) (m : Matrix3D F) : EigenState F :=
  (eigenLoop sqrtf maxSweeps (EigenState.init m)).1

/-- The loop of `CalculateEigensystem` was left through its convergence test. -/
def eigenConverged (sqrtf : F → F) (m : Matrix3D F) : Bool :=
  (eigenLoop sqrtf maxSweeps (EigenState.init m)).2

/-- Outputs of `CalculateEigensystem`: the array `lambda` and the matrix `r`. -/
structure Eigensystem (F : Type) where
  lambda0 : F
  lambda1 : F
  lambda2 : F
  r : Matrix3D F
deriving DecidableEq, Repr

/-- The function `CalculateEigensystem`. -/
def CalculateEigensystem (sqrtf : F → F) (m : Matrix3D F) : Eigensystem F :=
  let e := eigenFinalState sqrtf m
  { lambda0 := e.m11, lambda1 := e.m22, lambda2 := e.m33, r := e.r }

/-- The symmetric matrix with the given diagonal and off-diagonal entries. -/
def Matrix3D.symmetric (d0 d1 d2 o01 o02 o12 : F) : Matrix3D F :=
  ⟨d0, o01, o02, o01, d1, o12, o02, o12, d2⟩

/-- Orthogonality of a matrix: rows of unit length and mutually perpendicular, and the
same for the columns. -/
def Matrix3D.IsOrthogonal (r : Matrix3D F) : Prop :=
  (∀ i j : Fin 3, Dot (r.GetRow i) (r.GetRow j) = if i = j then 1 else 0) ∧
  (∀ i j : Fin 3, Dot (r.GetColumn i) (r.GetColumn j) = if i = j then 1 else 0)

end Eigen

/-! ## Principal components of a vertex array -/

section PCA

variable {F : Type} [LinearOrderedField F]

/-- The loop `m += position[i]` starting from the zero point. -/
def sumPositions (position : List (Point3D F)) : Point3D F :=
  position.foldl (fun m p => m + p) ⟨0, 0, 0⟩

/-- The factor `1 / nu_vertices`: a quotient of two `int` values, converted to `float`
afterwards. -/
def inverseCount (nu_vertices : Nat) : F := ((1 / nu_vertices : Nat) : F)

/-- The point `m` of `CalculatePrincipalComponents` after `m *= 1 / nu_vertices`. -/
def averagePosition (position : List (Point3D F)) : Point3D F :=
  Vector3D.scale (inverseCount position.length) (sumPositions position)

/-- The six accumulators `C11 … C23`. -/
structure Covariance (F : Type) where
  C11 : F
  C22 : F
  C33 : F
  C12 : F
  C13 : F
  C23 : F
deriving DecidableEq, Repr

/-- Body of the accumulation loop for one vertex. -/
def Covariance.accumulate (m : Point3D F) (c : Covariance F) (p : Point3D F) : Covariance F :=
  { C11 := c.C11 + sqrf (p.x - m.x)
    C22 := c.C22 + sqrf (p.y - m.y)
    C33 := c.C33 + sqrf (p.z - m.z)
    C12 := c.C12 + (p.x - m.x) * (p.y - m.y)
    C13 := c.C13 + (p.x - m.x) * (p.z - m.z)
    C23 := c.C23 + (p.y - m.y) * (p.z - m.z) }

/-- The accumulators after the loop and the six statements `Cjk *= 1 / nu_vertices`. -/
def covarianceEntries (position : List (Point3D F)) : Covariance F :=
  let m := averagePosition position
  let c := position.foldl (Covariance.accumulate m) ⟨0, 0, 0, 0, 0, 0⟩
  let k : F := inverseCount position.length
  { C11 := c.C11 * k, C22 := c.C22 * k, C33 := c.C33 * k,
    C12 := c.C12 * k, C13 := c.C13 * k, C23 := c.C23 * k }

/-- The matrix `C` handed to `CalculateEigensystem`:
`C.Set(C11, C12, C13, C12, C22, C23, C13, C23, C33)`. -/
def covarianceMatrix (position : List (Point3D F)) : Matrix3D F :=
  let c := covarianceEntries position
  ⟨c.C11, c.C12, c.C13, c.C12, c.C22, c.C23, c.C13, c.C23, c.C33⟩

/-- Modelled from the spec: `dstCalculateMinAndMaxDotProductNx1` belongs to the external
data-set library and is absent from the sources.  It returns "the minimum and maximum dot
product of all vertices with that axis" as the pair `(min, max)`; in this model an empty
array gives `(0, 0)`. -/
def dstCalculateMinAndMaxDotProductNx1 (vertex : List (Vector3D F)) (C : Vector3D F) : F × F :=
  match vertex with
  | [] => (0, 0)
  | v :: rest =>
    rest.foldl (fun acc w => (minf acc.1 (Dot w C), maxf acc.2 (Dot w C))) (Dot v C, Dot v C)

/-- Modelled from the spec: `dstCalculateMinAndMaxDotProductNx3` (external data-set
library, absent from the sources) does the same "three axes at once"; the result lists
the three `(min, max)` pairs in axis order. -/
def dstCalculateMinAndMaxDotProductNx3 (vertex : List (Vector3D F))
    (C0 C1 C2 : Vector3D F) : (F × F) × (F × F) × (F × F) :=
  (dstCalculateMinAndMaxDotProductNx1 vertex C0,
   dstCalculateMinAndMaxDotProductNx1 vertex C1,
   dstCalculateMinAndMaxDotProductNx1 vertex C2)

/-- The three normalised rows of the eigenvector matrix, the directions before sorting. -/
def principalDirections (sqrtf : F → F) (position : List (Point3D F)) :
    Vector3D F × Vector3D F × Vector3D F :=
  let r := (CalculateEigensystem sqrtf (covarianceMatrix position)).r
  ((r.GetRow 0).Normalize sqrtf, (r.GetRow 1).Normalize sqrtf, (r.GetRow 2).Normalize sqrtf)

/-- The `{vector, size}` pairs after the extent loop, before sorting. -/
def unsortedComponents (sqrtf : F → F) (position : List (Point3D F)) : PCAArray F :=
  let d := principalDirections sqrtf position
  let mm := dstCalculateMinAndMaxDotProductNx3 position d.1 d.2.1 d.2.2
  { c0 := ⟨d.1, mm.1.2 - mm.1.1⟩
    c1 := ⟨d.2.1, mm.2.1.2 - mm.2.1.1⟩
    c2 := ⟨d.2.2, mm.2.2.2 - mm.2.2.1⟩ }

/-- The point `center` after the extent loop:
`center += (max_dot_product[i] + min_dot_product[i]) * 0.5f * _PCA[i].vector`. -/
def pcaCenter (sqrtf : F → F) (position : List (Point3D F)) : Point3D F :=
  let d := principalDirections sqrtf position
  let mm := dstCalculateMinAndMaxDotProductNx3 position d.1 d.2.1 d.2.2
  let c0 : Point3D F := ⟨0, 0, 0⟩
  let c1 := c0 + Vector3D.scale ((mm.1.2 + mm.1.1) * (1 / 2)) d.1
  let c2 := c1 + Vector3D.scale ((mm.2.1.2 + mm.2.1.1) * (1 / 2)) d.2.1
  c2 + Vector3D.scale ((mm.2.2.2 + mm.2.2.1) * (1 / 2)) d.2.2

/-- The block `if (_PCA[0].size < _PCA[1].size)` exchanging sizes and vectors. -/
def PCAArray.swap01 (p : PCAArray F) : PCAArray F :=
  if p.c0.size < p.c1.size then
    { c0 := ⟨p.c1.vector, p.c1.size⟩, c1 := ⟨p.c0.vector, p.c0.size⟩, c2 := p.c2 }
  else p

/-- The block `if (_PCA[1].size < _PCA[2].size)` exchanging sizes and vectors. -/
def PCAArray.swap12 (p : PCAArray F) : PCAArray F :=
  if p.c1.size < p.c2.size then
    { c0 := p.c0, c1 := ⟨p.c2.vector, p.c2.size⟩, c2 := ⟨p.c1.vector, p.c1.size⟩ }
  else p

/-- The three compare-and-swap blocks that end `CalculatePrincipalComponents`. -/
def PCAArray.sortDecreasing (p : PCAArray F) : PCAArray F :=
  ((p.swap01).swap12).swap01

/-- The method `sreBaseModel::CalculatePrincipalComponents`: the sorted components
`_PCA` and the point `center`. -/
def CalculatePrincipalComponents (sqrtf : F → F) (position : List (Point3D F)) :
    PCAArray F × Point3D F :=
  ((unsortedComponents sqrtf position).sortDecreasing, pcaCenter sqrtf position)

end PCA

/-! ## Intersection tests (`sre_bounds.h`) -/

section IntersectionTests

variable {F : Type} [LinearOrderedField F]

/-- The test `Intersects(AABB1, AABB2)` between two axis-aligned boxes. -/
def Intersects_AABB_AABB (AABB1 AABB2 : sreBoundingVolumeAABB F) : Bool :=
  if AABB1.dim_min.x ≥ AABB2.dim_max.x ∨ AABB1.dim_max.x ≤ AABB2.dim_min.x ∨
      AABB1.dim_min.y ≥ AABB2.dim_max.y ∨ AABB1.dim_max.y ≤ AABB2.dim_min.y ∨
      AABB1.dim_min.z ≥ AABB2.dim_max.z ∨ AABB1.dim_max.z ≤ AABB2.dim_min.z then
    false
  else true

/-- The test `Intersects(P, AABB)` of a point against an axis-aligned box. -/
def Intersects_Point_AABB (P : Point3D F) (AABB : sreBoundingVolumeAABB F) : Bool :=
  decide (P.x ≥ AABB.dim_min.x) && decide (P.y ≥ AABB.dim_min.y) &&
    decide (P.z ≥ AABB.dim_min.z) && decide (P.x ≤ AABB.dim_max.x) &&
    decide (P.y ≤ AABB.dim_max.y) && decide (P.z ≤ AABB.dim_max.z)

/-- The test `Intersects(sphere1, sphere2)` between two spheres. -/
def Intersects_Sphere_Sphere (sphere1 sphere2 : sreBoundingVolumeSphere F) : Bool :=
  let dist_squared := SquaredMag (sphere1.center - sphere2.center)
  if dist_squared ≥ sqrf (sphere1.radius + sphere2.radius) then false else true

/-- The test `Intersects(P, sphere)` of a point against a sphere. -/
def Intersects_Point_Sphere (P : Point3D F) (sphere : sreBoundingVolumeSphere F) : Bool :=
  if SquaredMag (P - sphere.center) ≥ sqrf sphere.radius then false else true

end IntersectionTests

/-! ## Special bounding volumes: ellipsoid and cylinder -/

/-- Ellipsoid `sreBoundingVolumeEllipsoid`: the centre and the three vectors
`PCA[0].vector`, `PCA[1].vector`, `PCA[2].vector` whose lengths are the semi-axes. -/
structure sreBoundingVolumeEllipsoid (F : Type) where
  center : Point3D F
  PCA0 : Vector3D F
  PCA1 : Vector3D F
  PCA2 : Vector3D F
deriving DecidableEq, Repr

/-- Cylinder `sreBoundingVolumeCylinder`; the cached axis coefficients written by
`CalculateAxisCoefficients` are left out. -/
structure sreBoundingVolumeCylinder (F : Type) where
  center : Point3D F
  length : F
  axis : Vector3D F
  radius : F
deriving DecidableEq, Repr

/-- Capsule `sreBoundingVolumeCapsule`. -/
structure sreBoundingVolumeCapsule (F : Type) where
  radius : F
  length : F
  radius_y : F
  radius_z : F
deriving DecidableEq, Repr

/-- The tagged record `sreBoundingVolume`: the `type` field and the shape it points to;
`undefined` stands for a record that was never assigned. -/
inductive sreBoundingVolume (F : Type) where
  | undefined : sreBoundingVolume F
  | ellipsoid : sreBoundingVolumeEllipsoid F → sreBoundingVolume F
  | cylinder : sreBoundingVolumeCylinder F → sreBoundingVolume F
  | capsule : sreBoundingVolumeCapsule F → sreBoundingVolume F
deriving DecidableEq, Repr

section SpecialShapes

variable {F : Type} [LinearOrderedField F]

/-- Modelled from the spec: the product `M * v` of a matrix and a point, from the external
linear algebra library (absent from the sources). -/
def Matrix3D.mulVec (m : Matrix3D F) (v : Vector3D F) : Vector3D F :=
  ⟨Dot (m.GetRow 0) v, Dot (m.GetRow 1) v, Dot (m.GetRow 2) v⟩

/-- The method `sreBaseModel::CalculatePCABoundingEllipsoid`. -/
def CalculatePCABoundingEllipsoid (sqrtf : F → F) (vertex : List (Point3D F))
    (_PCA : PCAArray F) : sreBoundingVolumeEllipsoid F :=
  let M_RST : Matrix3D F :=
    ⟨_PCA.c0.vector.x, _PCA.c1.vector.x, _PCA.c2.vector.x,
     _PCA.c0.vector.y, _PCA.c1.vector.y, _PCA.c2.vector.y,
     _PCA.c0.vector.z, _PCA.c1.vector.z, _PCA.c2.vector.z⟩
  let M_scale : Matrix3D F :=
    ⟨1 / _PCA.c0.size, 0, 0, 0, 1 / _PCA.c1.size, 0, 0, 0, 1 / _PCA.c2.size⟩
  let M := M_RST.mul (M_scale.mul M_RST.transpose)
  let scaled_vertex := vertex.map (fun v => M.mulVec v)
  let scaled_sphere := CalculatePCABoundingSphere sqrtf scaled_vertex _PCA
  let M_unscale : Matrix3D F :=
    ⟨_PCA.c0.size, 0, 0, 0, _PCA.c1.size, 0, 0, 0, _PCA.c2.size⟩
  let M2 := M_RST.mul (M_unscale.mul M_RST.transpose)
  { center := M2.mulVec scaled_sphere.center
    PCA0 := Vector3D.scale scaled_sphere.radius (Vector3D.scale _PCA.c0.size _PCA.c0.vector)
    PCA1 := Vector3D.scale scaled_sphere.radius (Vector3D.scale _PCA.c1.size _PCA.c1.vector)
    PCA2 := Vector3D.scale scaled_sphere.radius (Vector3D.scale _PCA.c2.size _PCA.c2.vector) }

/-- The method `sreBaseModel::CalculatePCABoundingCylinder`.  The circle is fitted to the
projections `H` by the same loop as the sphere; the centre stored last is the midpoint of
the projections onto the axis, times the axis. -/
def CalculatePCABoundingCylinder (sqrtf : F → F) (vertex : List (Point3D F))
    (_PCA : PCAArray F) : sreBoundingVolumeCylinder F :=
  let H := vertex.map (fun v => v - Vector3D.scale (Dot v _PCA.c0.vector) _PCA.c0.vector)
  let idx := dstGetIndicesWithMinAndMaxDotProductNx1 H _PCA.c1.vector
  let i_Hmin := idx.1
  let i_Hmax := idx.2
  let center := Vector3D.scale (1 / 2) (vertexAt H i_Hmin + vertexAt H i_Hmax)
  let r_squared := SquaredMag (vertexAt H i_Hmin - center)
  let s := H.foldl (SphereFit.grow sqrtf) { center := center, r_squared := r_squared }
  let mm := dstCalculateMinAndMaxDotProductNx1 vertex _PCA.c0.vector
  { center := Vector3D.scale ((mm.1 + mm.2) * (1 / 2)) _PCA.c0.vector
    length := _PCA.c0.size
    axis := _PCA.c0.vector
    radius := sqrtf s.r_squared }

end SpecialShapes

/-! ## Selection of the bounding volumes (`sreModel::CalculateBounds`) -/

/-- Modelled from the spec: the flag constants are declared in `sre.h`, which is absent
from the sources; `bounds_flags` is "a bitmask of preference flags", so each constant is
given a single bit of its own. -/
def SRE_BOUNDS_PREFER_SPHERE : Nat := 1

/-- Modelled from the spec: see `SRE_BOUNDS_PREFER_SPHERE`. -/
def SRE_BOUNDS_PREFER_BOX : Nat := 2

/-- Modelled from the spec: see `SRE_BOUNDS_PREFER_SPHERE`. -/
def SRE_BOUNDS_PREFER_BOX_LINE_SEGMENT : Nat := 4

/-- Modelled from the spec: see `SRE_BOUNDS_PREFER_SPHERE`. -/
def SRE_BOUNDS_PREFER_AABB : Nat := 8

/-- Modelled from the spec: see `SRE_BOUNDS_PREFER_SPHERE`. -/
def SRE_BOUNDS_PREFER_SPECIAL : Nat := 16

/-- Modelled from the spec: see `SRE_BOUNDS_PREFER_SPHERE`. -/
def SRE_BOUNDS_SPECIAL_SRE_COLLISION_SHAPE : Nat := 32

/-- The fields of `sreModel` that the bounds code reads and writes; `lod_model` lists the
vertex arrays of the LOD levels. -/
structure sreModel (F : Type) where
  lod_model : List (List (Point3D F))
  PCA : PCAArray F
  box_center : Point3D F
  sphere : sreBoundingVolumeSphere F
  AABB : sreBoundingVolumeAABB (ExtFloat F)
  bounds_flags : Nat
  bv_special : sreBoundingVolume F
  special_collision_shape : Option (sreBoundingVolume F)

section Bounds

variable {F : Type} [LinearOrderedField F]

/-- The float held by a finite extended value.  `CalculateAABB` leaves an infinite corner
only for an empty array, on which `CalculatePrincipalComponents` has divided by zero
before; the infinities are read as `0` here. -/
def ExtFloat.value (x : ExtFloat F) : F :=
  match x with
  | .fin a => a
  | _ => 0

/-- The constant `EPSILON` of `bounds.cpp`. -/
def EPSILON : F := 1 / 100000

/-- The constant `EPSILON2` of `bounds.cpp`. -/
def EPSILON2 : F := 1 / 10000

/-- The expression `4.0f / 3.0f * M_PI * r * r * r`. -/
def sphereVolume (M_PI r : F) : F := 4 / 3 * M_PI * r * r * r

/-- The sphere written by `CalculateBoundingSphere`. -/
def fittedSphere (sqrtf : F → F) (vertex : List (Point3D F)) : sreBoundingVolumeSphere F :=
  CalculatePCABoundingSphere sqrtf vertex (CalculatePrincipalComponents sqrtf vertex).1

/-- The local `volume_box`. -/
def volume_box (sqrtf : F → F) (vertex : List (Point3D F)) : F :=
  (CalculatePrincipalComponents sqrtf vertex).1.c0.size
    * (CalculatePrincipalComponents sqrtf vertex).1.c1.size
    * (CalculatePrincipalComponents sqrtf vertex).1.c2.size

/-- The local `sphere_box_radius`, half the diagonal of the box. -/
def sphere_box_radius (sqrtf : F → F) (vertex : List (Point3D F)) : F :=
  sqrtf (sqrf ((CalculatePrincipalComponents sqrtf vertex).1.c0.size * (1 / 2))
    + sqrf ((CalculatePrincipalComponents sqrtf vertex).1.c1.size * (1 / 2))
    + sqrf ((CalculatePrincipalComponents sqrtf vertex).1.c2.size * (1 / 2)))

/-- Both conditions `volume_sphere > volume_box` and `sphere_box_radius < sphere.radius`
hold, so the sphere is overwritten. -/
def sphereReplaced (sqrtf : F → F) (M_PI : F) (vertex : List (Point3D F)) : Bool :=
  decide (sphereVolume M_PI (fittedSphere sqrtf vertex).radius > volume_box sqrtf vertex) &&
    decide (sphere_box_radius sqrtf vertex < (fittedSphere sqrtf vertex).radius)

/-- The member `sphere` after the replacement block. -/
def boundingSphere (sqrtf : F → F) (M_PI : F) (vertex : List (Point3D F)) :
    sreBoundingVolumeSphere F :=
  if sphereReplaced sqrtf M_PI vertex then
    { center := (CalculatePrincipalComponents sqrtf vertex).2
      radius := sphere_box_radius sqrtf vertex }
  else fittedSphere sqrtf vertex

/-- The local `volume_sphere` after the replacement block. -/
def volume_sphere (sqrtf : F → F) (M_PI : F) (vertex : List (Point3D F)) : F :=
  if sphereReplaced sqrtf M_PI vertex then
    sphereVolume M_PI (boundingSphere sqrtf M_PI vertex).radius
  else sphereVolume M_PI (fittedSphere sqrtf vertex).radius

/-- The value assigned to `bounds_flags` by the box-or-sphere decision. -/
def basicFlags (sqrtf : F → F) (M_PI : F) (vertex : List (Point3D F)) : Nat :=
  if volume_box sqrtf vertex < volume_sphere sqrtf M_PI vertex then
    if (CalculatePrincipalComponents sqrtf vertex).1.c0.size
        ≥ 4 * (CalculatePrincipalComponents sqrtf vertex).1.c1.size then
      SRE_BOUNDS_PREFER_BOX_LINE_SEGMENT
    else SRE_BOUNDS_PREFER_BOX
  else SRE_BOUNDS_PREFER_SPHERE

/-- The local `best_volume` after the box-or-sphere decision. -/
def best_volume (sqrtf : F → F) (M_PI : F) (vertex : List (Point3D F)) : F :=
  if volume_box sqrtf vertex < volume_sphere sqrtf M_PI vertex then volume_box sqrtf vertex
  else volume_sphere sqrtf M_PI vertex

/-- The local `ellipsoid`, present when the block guarded by `PCA[2].size > EPSILON` is
entered and `CalculateBoundingEllipsoid` is called. -/
def fittedEllipsoid (sqrtf : F → F) (vertex : List (Point3D F)) :
    Option (sreBoundingVolumeEllipsoid F) :=
  if (CalculatePrincipalComponents sqrtf vertex).1.c2.size > EPSILON then
    some (CalculatePCABoundingEllipsoid sqrtf vertex (CalculatePrincipalComponents sqrtf vertex).1)
  else none

/-- The local `cylinder`, present when the block guarded by `PCA[2].size > EPSILON` is
entered and `CalculateBoundingCylinder` is called. -/
def fittedCylinder (sqrtf : F → F) (vertex : List (Point3D F)) :
    Option (sreBoundingVolumeCylinder F) :=
  if (CalculatePrincipalComponents sqrtf vertex).1.c2.size > EPSILON then
    some (CalculatePCABoundingCylinder sqrtf vertex (CalculatePrincipalComponents sqrtf vertex).1)
  else none

/-- The local `volume_ellipsoid`. -/
def volume_ellipsoid (sqrtf : F → F) (M_PI : F) (e : sreBoundingVolumeEllipsoid F) : F :=
  4 / 3 * M_PI * Magnitude sqrtf e.PCA0 * Magnitude sqrtf e.PCA1 * Magnitude sqrtf e.PCA2

/-- The local `volume_cylinder`. -/
def volume_cylinder (M_PI : F) (c : sreBoundingVolumeCylinder F) : F :=
  M_PI * sqrf c.radius * c.length

/-- The special shape stored by the block guarded by `PCA[2].size > EPSILON`, if any:
the ellipsoid when the first condition holds, else the cylinder when the second holds. -/
def specialSelection (sqrtf : F → F) (M_PI : F) (vertex : List (Point3D F)) :
    Option (sreBoundingVolume F) :=
  if (CalculatePrincipalComponents sqrtf vertex).1.c2.size > EPSILON then
    let ellipsoid :=
      CalculatePCABoundingEllipsoid sqrtf vertex (CalculatePrincipalComponents sqrtf vertex).1
    let cylinder :=
      CalculatePCABoundingCylinder sqrtf vertex (CalculatePrincipalComponents sqrtf vertex).1
    if volume_ellipsoid sqrtf M_PI ellipsoid < 99 / 100 * best_volume sqrtf M_PI vertex ∧
        best_volume sqrtf M_PI vertex - volume_ellipsoid sqrtf M_PI ellipsoid > EPSILON2 ∧
        volume_ellipsoid sqrtf M_PI ellipsoid ≤ volume_cylinder M_PI cylinder then
      some (.ellipsoid ellipsoid)
    else if volume_cylinder M_PI cylinder < 99 / 100 * best_volume sqrtf M_PI vertex ∧
        best_volume sqrtf M_PI vertex - volume_cylinder M_PI cylinder > EPSILON2 then
      some (.cylinder cylinder)
    else none
  else none

/-- The local `AABB_volume`. -/
def AABB_volume (AABB : sreBoundingVolumeAABB (ExtFloat F)) : F :=
  (AABB.dim_max.x.value - AABB.dim_min.x.value) * (AABB.dim_max.y.value - AABB.dim_min.y.value)
    * (AABB.dim_max.z.value - AABB.dim_min.z.value)

/-- The value of `bounds_flags` when `CalculateBounds` returns: the basic value, then
`|= SRE_BOUNDS_PREFER_SPECIAL` when a special shape was stored, then
`|= SRE_BOUNDS_PREFER_AABB` when `0.99f * AABB_volume <= volume_box`. -/
def boundsFlags (sqrtf : F → F) (M_PI : F) (vertex : List (Point3D F)) : Nat :=
  let flags1 := basicFlags sqrtf M_PI vertex
  let flags2 :=
    if (specialSelection sqrtf M_PI vertex).isSome then flags1 ||| SRE_BOUNDS_PREFER_SPECIAL
    else flags1
  if 99 / 100 * AABB_volume (CalculateAABB vertex) ≤ volume_box sqrtf vertex then
    flags2 ||| SRE_BOUNDS_PREFER_AABB
  else flags2

/-- The method `sreModel::CalculateBounds`; `M_PI` is the constant of `math.h`.  LOD
level 0 supplies the vertices; `bv_special` keeps its previous value unless a special
shape is stored. -/
def CalculateBounds (sqrtf : F → F) (M_PI : F) (m : sreModel F) : sreModel F :=
  let vertex := m.lod_model.headD []
  { m with
    PCA := (CalculatePrincipalComponents sqrtf vertex).1
    box_center := (CalculatePrincipalComponents sqrtf vertex).2
    sphere := boundingSphere sqrtf M_PI vertex
    AABB := CalculateAABB vertex
    bounds_flags := boundsFlags sqrtf M_PI vertex
    bv_special :=
      match specialSelection sqrtf M_PI vertex with
      | some s => s
      | none => m.bv_special }

end Bounds

/-! ## Setters and queries of `sreModel` -/

/-- Union of two boxes, `UpdateAABB(AABB1, AABB2)` (sre_bounds.h). -/
def UpdateAABB_AABB {α : Type} [LT α] [DecidableRel (fun a b : α => a < b)]
    (AABB1 AABB2 : sreBoundingVolumeAABB α) : sreBoundingVolumeAABB α :=
  { dim_min := ⟨minf AABB1.dim_min.x AABB2.dim_min.x, minf AABB1.dim_min.y AABB2.dim_min.y,
                minf AABB1.dim_min.z AABB2.dim_min.z⟩
    dim_max := ⟨maxf AABB1.dim_max.x AABB2.dim_max.x, maxf AABB1.dim_max.y AABB2.dim_max.y,
                maxf AABB1.dim_max.z AABB2.dim_max.z⟩ }

section ModelOperations

variable {F : Type} [LinearOrderedField F]

/-- Largest of three values, `max3f(x, y, z)` (sre_bounds.h). -/
def max3f (x y z : F) : F :=
  let m := x
  let m1 := if y > m then y else m
  if z > m1 then z else m1

/-- The method `sreModel::GetMaxExtents`: the box `*AABB_out` and the value
`*max_dim_out`.  Level 0 seeds the box and the levels `1 … nu_lod_levels - 1` are merged
into it. -/
def GetMaxExtents (m : sreModel F) : sreBoundingVolumeAABB (ExtFloat F) × F :=
  let aabb := (m.lod_model.drop 1).foldl
    (fun aabb lod => UpdateAABB_AABB aabb (CalculateAABB lod))
    (CalculateAABB (m.lod_model.headD []))
  let max_dim := max3f (aabb.dim_max.x.value - aabb.dim_min.x.value)
    (aabb.dim_max.y.value - aabb.dim_min.y.value)
    (aabb.dim_max.z.value - aabb.dim_min.z.value)
  (aabb, max_dim)

/-- The method `sreModel::SetOBBWithAABBBounds`. -/
def SetOBBWithAABBBounds (m : sreModel F) (_AABB : sreBoundingVolumeAABB F) : sreModel F :=
  { m with
    PCA :=
      { c0 := ⟨⟨1, 0, 0⟩, _AABB.dim_max.x - _AABB.dim_min.x⟩
        c1 := ⟨⟨0, 1, 0⟩, _AABB.dim_max.y - _AABB.dim_min.y⟩
        c2 := ⟨⟨0, 0, 1⟩, _AABB.dim_max.z - _AABB.dim_min.z⟩ }
    box_center :=
      ⟨(_AABB.dim_max.x + _AABB.dim_min.x) * (1 / 2),
       (_AABB.dim_max.y + _AABB.dim_min.y) * (1 / 2),
       (_AABB.dim_max.z + _AABB.dim_min.z) * (1 / 2)⟩
    bounds_flags := SRE_BOUNDS_PREFER_BOX }

/-- The method `sreModel::SetBoundingCollisionShapeCapsule`. -/
def SetBoundingCollisionShapeCapsule (m : sreModel F) (capsule : sreBoundingVolumeCapsule F) :
    sreModel F :=
  { m with
    special_collision_shape := some (.capsule capsule)
    bounds_flags := m.bounds_flags ||| SRE_BOUNDS_SPECIAL_SRE_COLLISION_SHAPE }

end ModelOperations

/-! ## The fallible operations made explicit

The same code with each division returning `none` on a zero divisor, used to state that
no such division is executed. -/

section CheckedArithmetic

variable {F : Type} [LinearOrderedField F]

/-- The quotient `a / b`, undefined for a zero divisor. -/
def checkedDiv (a b : F) : Option F := if b = 0 then none else some (a / b)

/-- The quotient of a vector by a scalar, undefined for a zero divisor. -/
def Vector3D.checkedDivScalar (a : Vector3D F) (t : F) : Option (Vector3D F) :=
  if t = 0 then none else some (a.divScalar t)

/-- The call `sqrtf(x)` of `CalculateEigensystem`, flagged when the argument is below 1. -/
def checkedSqrt (sqrtf : F → F) (x : F) : Option F := if 1 ≤ x then some (sqrtf x) else none

/-- The tangent `t` as in `rotationT`, with the square root and the division of the
fallback `0.5F / u` checked. -/
def rotationT_checked (sqrtf : F → F) (u : F) : Option F :=
  let u2 := u * u
  let u2p1 := u2 + 1
  if u2p1 ≠ u2 then
    (checkedSqrt sqrtf u2p1).map (fun q => (if u < 0 then -1 else 1) * (q - |u|))
  else checkedDiv (1 / 2) u

/-- The cosine `c = 1.0F / sqrtf(t * t + 1.0F)` with both operations checked. -/
def rotationC_checked (sqrtf : F → F) (t : F) : Option F :=
  (checkedSqrt sqrtf (t * t + 1)).bind (fun q => checkedDiv 1 q)

/-- Block "Annihilate (1,2) entry" with its operations checked. -/
def EigenState.annihilate12_checked (sqrtf : F → F) (e : EigenState F) :
    Option (EigenState F) :=
  if e.m12 ≠ 0 then
    (checkedDiv ((e.m22 - e.m11) * (1 / 2)) e.m12).bind fun u =>
    (rotationT_checked sqrtf u).bind fun t =>
    (rotationC_checked sqrtf t).bind fun c =>
      let s := c * t
      some
        { m11 := e.m11 - t * e.m12
          m22 := e.m22 + t * e.m12
          m12 := 0
          m13 := c * e.m13 - s * e.m23
          m23 := s * e.m13 + c * e.m23
          m33 := e.m33
          r := ⟨c * e.r.m00 - s * e.r.m01, s * e.r.m00 + c * e.r.m01, e.r.m02,
                c * e.r.m10 - s * e.r.m11, s * e.r.m10 + c * e.r.m11, e.r.m12,
                c * e.r.m20 - s * e.r.m21, s * e.r.m20 + c * e.r.m21, e.r.m22⟩ }
  else some e

/-- Block "Annihilate (1,3) entry" with its operations checked. -/
def EigenState.annihilate13_checked (sqrtf : F → F) (e : EigenState F) :
    Option (EigenState F) :=
  if e.m13 ≠ 0 then
    (checkedDiv ((e.m33 - e.m11) * (1 / 2)) e.m13).bind fun u =>
    (rotationT_checked sqrtf u).bind fun t =>
    (rotationC_checked sqrtf t).bind fun c =>
      let s := c * t
      some
        { m11 := e.m11 - t * e.m13
          m33 := e.m33 + t * e.m13
          m13 := 0
          m12 := c * e.m12 - s * e.m23
          m23 := s * e.m12 + c * e.m23
          m22 := e.m22
          r := ⟨c * e.r.m00 - s * e.r.m02, e.r.m01, s * e.r.m00 + c * e.r.m02,
                c * e.r.m10 - s * e.r.m12, e.r.m11, s * e.r.m10 + c * e.r.m12,
                c * e.r.m20 - s * e.r.m22, e.r.m21, s * e.r.m20 + c * e.r.m22⟩ }
  else some e

/-- Block "Annihilate (2,3) entry" with its operations checked. -/
def EigenState.annihilate23_checked (sqrtf : F → F) (e : EigenState F) :
    Option (EigenState F) :=
  if e.m23 ≠ 0 then
    (checkedDiv ((e.m33 - e.m22) * (1 / 2)) e.m23).bind fun u =>
    (rotationT_checked sqrtf u).bind fun t =>
    (rotationC_checked sqrtf t).bind fun c =>
      let s := c * t
      some
        { m22 := e.m22 - t * e.m23
          m33 := e.m33 + t * e.m23
          m23 := 0
          m12 := c * e.m12 - s * e.m13
          m13 := s * e.m12 + c * e.m13
          m11 := e.m11
          r := ⟨e.r.m00, c * e.r.m01 - s * e.r.m02, s * e.r.m01 + c * e.r.m02,
                e.r.m10, c * e.r.m11 - s * e.r.m12, s * e.r.m11 + c * e.r.m12,
                e.r.m20, c * e.r.m21 - s * e.r.m22, s * e.r.m21 + c * e.r.m22⟩ }
  else some e

/-- One sweep with its operations checked. -/
def EigenState.sweep_checked (sqrtf : F → F) (e : EigenState F) : Option (EigenState F) :=
  ((e.annihilate12_checked sqrtf).bind fun e1 => e1.annihilate13_checked sqrtf).bind
    fun e2 => e2.annihilate23_checked sqrtf

/-- The sweep loop with its operations checked. -/
def eigenLoop_checked (sqrtf : F → F) : Nat → EigenState F → Option (EigenState F × Bool)
  | 0, e => some (e, false)
  | n + 1, e =>
    if e.offDiagonalSmall then some (e, true)
    else (e.sweep_checked sqrtf).bind fun e1 => eigenLoop_checked sqrtf n e1

/-- The function `CalculateEigensystem` with its operations checked. -/
def CalculateEigensystem_checked (sqrtf : F → F) (m : Matrix3D F) : Option (Eigensystem F) :=
  (eigenLoop_checked sqrtf maxSweeps (EigenState.init m)).map fun p =>
    { lambda0 := p.1.m11, lambda1 := p.1.m22, lambda2 := p.1.m33, r := p.1.r }

/-- Body of the loop of the sphere and circle fits with the division by
`Magnitude(P - center)` checked. -/
def SphereFit.grow_checked (sqrtf : F → F) (s : SphereFit F) (P : Point3D F) :
    Option (SphereFit F) :=
  let d_squared := SquaredMag (P - s.center)
  if d_squared > s.r_squared then
    ((Vector3D.scale (sqrtf s.r_squared) (P - s.center)).checkedDivScalar
        (Magnitude sqrtf (P - s.center))).map fun q =>
      let G := s.center - q
      let center := Vector3D.scale (1 / 2) (G + P)
      { center := center, r_squared := SquaredMag (P - center) }
  else some s

/-- The loop of the sphere and circle fits with the division checked. -/
def SphereFit.run_checked (sqrtf : F → F) : List (Point3D F) → SphereFit F →
    Option (SphereFit F)
  | [], s => some s
  | P :: rest, s => (s.grow_checked sqrtf P).bind fun s1 => SphereFit.run_checked sqrtf rest s1

/-- The method `sreBaseModel::CalculatePCABoundingSphere` with the division checked. -/
def CalculatePCABoundingSphere_checked (sqrtf : F → F) (vertex : List (Point3D F))
    (_PCA : PCAArray F) : Option (sreBoundingVolumeSphere F) :=
  let idx := dstGetIndicesWithMinAndMaxDotProductNx1 vertex _PCA.c0.vector
  let i_Pmin := idx.1
  let i_Pmax := idx.2
  let center := Vector3D.scale (1 / 2) (vertexAt vertex i_Pmin + vertexAt vertex i_Pmax)
  let r_squared := SquaredMag (vertexAt vertex i_Pmin - center)
  (SphereFit.run_checked sqrtf vertex { center := center, r_squared := r_squared }).map fun s =>
    { center := s.center, radius := sqrtf s.r_squared }

/-- The method `sreBaseModel::CalculatePCABoundingEllipsoid` with the three divisions by
the sizes and the division of the sphere fit checked. -/
def CalculatePCABoundingEllipsoid_checked (sqrtf : F → F) (vertex : List (Point3D F))
    (_PCA : PCAArray F) : Option (sreBoundingVolumeEllipsoid F) :=
  let M_RST : Matrix3D F :=
    ⟨_PCA.c0.vector.x, _PCA.c1.vector.x, _PCA.c2.vector.x,
     _PCA.c0.vector.y, _PCA.c1.vector.y, _PCA.c2.vector.y,
     _PCA.c0.vector.z, _PCA.c1.vector.z, _PCA.c2.vector.z⟩
  (checkedDiv 1 _PCA.c0.size).bind fun k0 =>
  (checkedDiv 1 _PCA.c1.size).bind fun k1 =>
  (checkedDiv 1 _PCA.c2.size).bind fun k2 =>
    let M_scale : Matrix3D F := ⟨k0, 0, 0, 0, k1, 0, 0, 0, k2⟩
    let M := M_RST.mul (M_scale.mul M_RST.transpose)
    let scaled_vertex := vertex.map (fun v => M.mulVec v)
    (CalculatePCABoundingSphere_checked sqrtf scaled_vertex _PCA).map fun scaled_sphere =>
      let M_unscale : Matrix3D F :=
        ⟨_PCA.c0.size, 0, 0, 0, _PCA.c1.size, 0, 0, 0, _PCA.c2.size⟩
      let M2 := M_RST.mul (M_unscale.mul M_RST.transpose)
      { center := M2.mulVec scaled_sphere.center
        PCA0 := Vector3D.scale scaled_sphere.radius (Vector3D.scale _PCA.c0.size _PCA.c0.vector)
        PCA1 := Vector3D.scale scaled_sphere.radius (Vector3D.scale _PCA.c1.size _PCA.c1.vector)
        PCA2 := Vector3D.scale scaled_sphere.radius
          (Vector3D.scale _PCA.c2.size _PCA.c2.vector) }

/-- The method `sreBaseModel::CalculatePCABoundingCylinder` with the division of the
circle fit checked. -/
def CalculatePCABoundingCylinder_checked (sqrtf : F → F) (vertex : List (Point3D F))
    (_PCA : PCAArray F) : Option (sreBoundingVolumeCylinder F) :=
  let H := vertex.map (fun v => v - Vector3D.scale (Dot v _PCA.c0.vector) _PCA.c0.vector)
  let idx := dstGetIndicesWithMinAndMaxDotProductNx1 H _PCA.c1.vector
  let i_Hmin := idx.1
  let i_Hmax := idx.2
  let center := Vector3D.scale (1 / 2) (vertexAt H i_Hmin + vertexAt H i_Hmax)
  let r_squared := SquaredMag (vertexAt H i_Hmin - center)
  (SphereFit.run_checked sqrtf H { center := center, r_squared := r_squared }).map fun s =>
    let mm := dstCalculateMinAndMaxDotProductNx1 vertex _PCA.c0.vector
    { center := Vector3D.scale ((mm.1 + mm.2) * (1 / 2)) _PCA.c0.vector
      length := _PCA.c0.size
      axis := _PCA.c0.vector
      radius := sqrtf s.r_squared }

end CheckedArithmetic

/-! ## Physics glue (`bullet.cpp`) -/

/-- Modelled from the spec: the constants `SRE_OBJECT_NO_PHYSICS`,
`SRE_OBJECT_DYNAMIC_POSITION` (bits of `sreObject::flags`) and `SRE_COLLISION_SHAPE_STATIC`
(a collision shape type) are declared in `sre.h`, which is absent from the sources; they
are left as parameters. -/
structure PhysicsConstants where
  SRE_OBJECT_NO_PHYSICS : Nat
  SRE_OBJECT_DYNAMIC_POSITION : Nat
  SRE_COLLISION_SHAPE_STATIC : Int

/-- The fields of a scene object read by the two loops of `InitializePhysics` when they
write and test the two flag arrays: `flags` and the collision shape types of its model
(`so->model->collision_shape_static`, `so->model->collision_shape_dynamic`). -/
structure sreObject where
  flags : Nat
  collision_shape_static : Int
  collision_shape_dynamic : Int

/-- The branch taken for one object by the second loop of `InitializePhysics`. -/
inductive PhysicsBranch where
  | skipped : PhysicsBranch
  | staticAbsolute : PhysicsBranch
  | staticLocal : PhysicsBranch
  | dynamicBody : PhysicsBranch
  | fatalError : PhysicsBranch
deriving DecidableEq, Repr

/-- Iteration `i` of the first loop of `InitializePhysics` as far as it writes
`collision_shape_is_static[i]` and `collision_shape_is_absolute[i]`; `entry` holds the two
values before the iteration (the arrays come from `alloca` and start with arbitrary
content).  The cache lookup and the construction of the shape, which follow in the same
iteration, write neither array. -/
def firstPassEntry (K : PhysicsConstants) (so : sreObject) (entry : Bool × Bool) :
    Bool × Bool :=
  if so.flags &&& K.SRE_OBJECT_NO_PHYSICS ≠ 0 then entry
  else
    let collision_shape_type :=
      if so.flags &&& K.SRE_OBJECT_DYNAMIC_POSITION ≠ 0 then so.collision_shape_dynamic
      else so.collision_shape_static
    let collision_shape_is_static := false
    let collision_shape_is_absolute := false
    if collision_shape_type = K.SRE_COLLISION_SHAPE_STATIC then (true, true)
    else
      let collision_shape_is_static :=
        if ¬ (so.flags &&& K.SRE_OBJECT_DYNAMIC_POSITION ≠ 0) then true
        else collision_shape_is_static
      (collision_shape_is_static, collision_shape_is_absolute)

/-- Iteration `i` of the second loop of `InitializePhysics`: the branch selected by
`entry = (collision_shape_is_static[i], collision_shape_is_absolute[i])`. -/
def secondPassBranch (K : PhysicsConstants) (so : sreObject) (entry : Bool × Bool) :
    PhysicsBranch :=
  if so.flags &&& K.SRE_OBJECT_NO_PHYSICS ≠ 0 then .skipped
  else if entry.1 && entry.2 then .staticAbsolute
  else if !entry.2 then
    if entry.1 then .staticLocal else .dynamicBody
  else .fatalError

/-- The method `sreBulletPhysicsApplication::InitializePhysics`, reduced to the branches
its second loop takes: the first loop fills the two arrays, whose initial content is
`prior`, then the second loop reads them. -/
def InitializePhysics (K : PhysicsConstants) (object : List sreObject)
    (prior : List (Bool × Bool)) : List PhysicsBranch :=
  let arrays := List.zipWith (firstPassEntry K) object prior
  List.zipWith (secondPassBranch K) object arrays

/-- Conversion of an integer value to the 32-bit `int`: a value outside
`-2^31 … 2^31 - 1` wraps modulo `2^32` (two's complement). -/
def toInt32 (z : Int) : Int := (z + 2147483648) % 4294967296 - 2147483648

/-- The function `BulletStep`: the arguments `(dt, substeps)` passed to
`stepSimulation`.  `lrint` under `FE_DOWNWARD` rounds down and returns a 64-bit `long`, to
which 1 is added; the assignment to `int substeps` narrows the sum to 32 bits.  The result
is `none` when the sum does not fit `long`, where C leaves the value unspecified. -/
def BulletStep {F : Type} [LinearOrderedField F] [FloorRing F] (dt : F) : Option (F × Int) :=
  let substeps : Int := 5
  if dt ≥ (substeps : F) / 60 then
    let sum : Int := ⌊dt / ((1 : F) / 60)⌋ + 1
    if -9223372036854775808 ≤ sum ∧ sum < 9223372036854775808 then
      let substeps : Int := toInt32 sum
      some (dt, substeps)
    else none
  else some (dt, substeps)

/-! ## Reference notions used to state the properties -/

section Reference

variable {F : Type} [LinearOrderedField F]

/-- The value `m` is the least dot product of a vertex with the direction `a`. -/
def IsMinDot (vertex : List (Vector3D F)) (a : Vector3D F) (m : F) : Prop :=
  (∀ v ∈ vertex, m ≤ Dot v a) ∧ ∃ v ∈ vertex, Dot v a = m

/-- The value `m` is the greatest dot product of a vertex with the direction `a`. -/
def IsMaxDot (vertex : List (Vector3D F)) (a : Vector3D F) (m : F) : Prop :=
  (∀ v ∈ vertex, Dot v a ≤ m) ∧ ∃ v ∈ vertex, Dot v a = m

/-- The point `lo` is the componentwise minimum of the vertices. -/
def IsComponentwiseMin (vertex : List (Point3D F)) (lo : Point3D F) : Prop :=
  (∀ v ∈ vertex, lo.x ≤ v.x ∧ lo.y ≤ v.y ∧ lo.z ≤ v.z) ∧
  (∃ v ∈ vertex, v.x = lo.x) ∧ (∃ v ∈ vertex, v.y = lo.y) ∧ (∃ v ∈ vertex, v.z = lo.z)

/-- The point `hi` is the componentwise maximum of the vertices. -/
def IsComponentwiseMax (vertex : List (Point3D F)) (hi : Point3D F) : Prop :=
  (∀ v ∈ vertex, v.x ≤ hi.x ∧ v.y ≤ hi.y ∧ v.z ≤ hi.z) ∧
  (∃ v ∈ vertex, v.x = hi.x) ∧ (∃ v ∈ vertex, v.y = hi.y) ∧ (∃ v ∈ vertex, v.z = hi.z)

/-- The mean of the vertices as the specification words it: `(1/n)·Σ position[i]`, with
the quotient taken in the field. -/
def meanPosition (position : List (Point3D F)) : Point3D F :=
  Vector3D.scale (1 / (position.length : F)) (sumPositions position)

/-- The covariance entry `(1/n)·Σ (position[i] - m)_j · (position[i] - m)_k` of the
specification for the coordinate functions `cj`, `ck` and the mean `m`. -/
def covarianceEntry (position : List (Point3D F)) (cj ck : Point3D F → F) : F :=
  let m := meanPosition position
  (1 / (position.length : F)) * (position.map (fun p => (cj p - cj m) * (ck p - ck m))).sum

/-- The plane rotation that a "(1,2)" block multiplies into `r` from the right. -/
def rotation12 (c s : F) : Matrix3D F := ⟨c, s, 0, -s, c, 0, 0, 0, 1⟩

/-- The plane rotation that a "(1,3)" block multiplies into `r` from the right. -/
def rotation13 (c s : F) : Matrix3D F := ⟨c, 0, s, 0, 1, 0, -s, 0, c⟩

/-- The plane rotation that a "(2,3)" block multiplies into `r` from the right. -/
def rotation23 (c s : F) : Matrix3D F := ⟨1, 0, 0, 0, c, s, 0, -s, c⟩

/-- The symmetric matrix held in the working variables `m11 … m33`. -/
def EigenState.workingMatrix (e : EigenState F) : Matrix3D F :=
  Matrix3D.symmetric e.m11 e.m22 e.m33 e.m12 e.m13 e.m23

/-- Loop invariant of `CalculateEigensystem` for the input `M`: `r` is orthogonal and
`rᵀ·M·r` is the matrix held in the working variables. -/
def EigenState.Invariant (M : Matrix3D F) (e : EigenState F) : Prop :=
  e.r.IsOrthogonal ∧ e.r.transpose.mul (M.mul e.r) = e.workingMatrix

/-- Three vectors of unit length that are mutually perpendicular. -/
def Orthonormal3 (a b c : Vector3D F) : Prop :=
  Dot a a = 1 ∧ Dot b b = 1 ∧ Dot c c = 1 ∧ Dot a b = 0 ∧ Dot a c = 0 ∧ Dot b c = 0

/-- A model whose LOD level 0 holds the given vertices and whose bounds were never
computed, used as a sample input. -/
def modelOf (vertex : List (Point3D F)) : sreModel F :=
  { lod_model := [vertex]
    PCA := ⟨⟨⟨0, 0, 0⟩, 0⟩, ⟨⟨0, 0, 0⟩, 0⟩, ⟨⟨0, 0, 0⟩, 0⟩⟩
    box_center := ⟨0, 0, 0⟩
    sphere := ⟨⟨0, 0, 0⟩, 0⟩
    AABB := ⟨⟨.fin 0, .fin 0, .fin 0⟩, ⟨.fin 0, .fin 0, .fin 0⟩⟩
    bounds_flags := 0
    bv_special := .undefined
    special_collision_shape := none }

/-- A sample rod: eight vertices at `x = ±4` whose cross-section has the four points
`(±1, 0)` and `(0, ±1)`. -/
def rodVertices : List (Point3D F) :=
  [⟨4, 1, 0⟩, ⟨4, -1, 0⟩, ⟨-4, 1, 0⟩, ⟨-4, -1, 0⟩,
   ⟨4, 0, 1⟩, ⟨4, 0, -1⟩, ⟨-4, 0, 1⟩, ⟨-4, 0, -1⟩]

/-- The matrix whose columns are the three given vectors. -/
def Matrix3D.ofColumns (a b c : Vector3D F) : Matrix3D F :=
  ⟨a.x, b.x, c.x, a.y, b.y, c.y, a.z, b.z, c.z⟩

/-- The diagonal matrix with the given entries. -/
def Matrix3D.diagonal (d0 d1 d2 : F) : Matrix3D F :=
  ⟨d0, 0, 0, 0, d1, 0, 0, 0, d2⟩

/-- The same matrix as a matrix of the mathematical library. -/
def Matrix3D.toMatrix (m : Matrix3D F) : Matrix (Fin 3) (Fin 3) F :=
  fun i j =>
    match j with
    | 0 => (m.GetRow i).x
    | 1 => (m.GetRow i).y
    | 2 => (m.GetRow i).z

/-- Squared distance of the point `v` from the line through the cylinder's centre with
the direction of its (unit) axis. -/
def sreBoundingVolumeCylinder.distanceToAxisSquared (c : sreBoundingVolumeCylinder F)
    (v : Point3D F) : F :=
  SquaredMag ((v - c.center) - Vector3D.scale (Dot (v - c.center) c.axis) c.axis)

/-- The matrix `M = R·diag(1/e_0, 1/e_1, 1/e_2)·transpose(R)` of the specification, where
`R` has the directions as columns and `e_i` are the sizes. -/
def PCAArray.scalingMatrix (p : PCAArray F) : Matrix3D F :=
  (Matrix3D.ofColumns p.c0.vector p.c1.vector p.c2.vector).mul
    ((Matrix3D.diagonal (1 / p.c0.size) (1 / p.c1.size) (1 / p.c2.size)).mul
      (Matrix3D.ofColumns p.c0.vector p.c1.vector p.c2.vector).transpose)

/-- The matrix `U = R·diag(e_0, e_1, e_2)·transpose(R)` of the specification. -/
def PCAArray.unscalingMatrix (p : PCAArray F) : Matrix3D F :=
  (Matrix3D.ofColumns p.c0.vector p.c1.vector p.c2.vector).mul
    ((Matrix3D.diagonal p.c0.size p.c1.size p.c2.size).mul
      (Matrix3D.ofColumns p.c0.vector p.c1.vector p.c2.vector).transpose)

/-- The volume of the ellipsoid that `CalculateBounds` fits to the vertices. -/
def fittedEllipsoidVolume (sqrtf : F → F) (M_PI : F) (vertex : List (Point3D F)) : F :=
  volume_ellipsoid sqrtf M_PI
    (CalculatePCABoundingEllipsoid sqrtf vertex (CalculatePrincipalComponents sqrtf vertex).1)

/-- The volume of the cylinder that `CalculateBounds` fits to the vertices. -/
def fittedCylinderVolume (sqrtf : F → F) (M_PI : F) (vertex : List (Point3D F)) : F :=
  volume_cylinder M_PI
    (CalculatePCABoundingCylinder sqrtf vertex (CalculatePrincipalComponents sqrtf vertex).1)

/-- The sample rod moved by 10 along the y axis. -/
def shiftedRodVertices : List (Point3D F) :=
  [⟨4, 11, 0⟩, ⟨4, 9, 0⟩, ⟨-4, 11, 0⟩, ⟨-4, 9, 0⟩,
   ⟨4, 10, 1⟩, ⟨4, 10, -1⟩, ⟨-4, 10, 1⟩, ⟨-4, 10, -1⟩]

/-- The eight corners `(±1, ±1, ±1)` of the cube of the specification's first example. -/
def cubeVertices : List (Point3D F) :=
  [⟨1, 1, 1⟩, ⟨1, 1, -1⟩, ⟨1, -1, 1⟩, ⟨1, -1, -1⟩,
   ⟨-1, 1, 1⟩, ⟨-1, 1, -1⟩, ⟨-1, -1, 1⟩, ⟨-1, -1, -1⟩]

end Reference

/-! ## Elementary facts about vectors -/

section VectorLemmas

variable {F : Type} [LinearOrderedField F]

@[simp] theorem Vector3D.add_x (a b : Vector3D F) : (a + b).x = a.x + b.x := rfl
@[simp] theorem Vector3D.add_y (a b : Vector3D F) : (a + b).y = a.y + b.y := rfl
@[simp] theorem Vector3D.add_z (a b : Vector3D F) : (a + b).z = a.z + b.z := rfl
@[simp] theorem Vector3D.sub_x (a b : Vector3D F) : (a - b).x = a.x - b.x := rfl
@[simp] theorem Vector3D.sub_y (a b : Vector3D F) : (a - b).y = a.y - b.y := rfl
@[simp] theorem Vector3D.sub_z (a b : Vector3D F) : (a - b).z = a.z - b.z := rfl
@[simp] theorem Vector3D.scale_x (t : F) (a : Vector3D F) : (Vector3D.scale t a).x = t * a.x := rfl
@[simp] theorem Vector3D.scale_y (t : F) (a : Vector3D F) : (Vector3D.scale t a).y = t * a.y := rfl
@[simp] theorem Vector3D.scale_z (t : F) (a : Vector3D F) : (Vector3D.scale t a).z = t * a.z := rfl
@[simp] theorem Vector3D.divScalar_x (a : Vector3D F) (t : F) : (a.divScalar t).x = a.x / t := rfl
@[simp] theorem Vector3D.divScalar_y (a : Vector3D F) (t : F) : (a.divScalar t).y = a.y / t := rfl
@[simp] theorem Vector3D.divScalar_z (a : Vector3D F) (t : F) : (a.divScalar t).z = a.z / t := rfl

theorem Vector3D.ext_iff3 (a b : Vector3D F) : a = b ↔ a.x = b.x ∧ a.y = b.y ∧ a.z = b.z := by
  cases a; cases b; simp

theorem SquaredMag_nonneg (a : Vector3D F) : 0 ≤ SquaredMag a := by
  unfold SquaredMag
  nlinarith [mul_self_nonneg a.x, mul_self_nonneg a.y, mul_self_nonneg a.z]

/-- Cauchy–Schwarz for three components. -/
theorem Dot_sq_le (a b : Vector3D F) : Dot a b ^ 2 ≤ SquaredMag a * SquaredMag b := by
  unfold Dot SquaredMag
  nlinarith [sq_nonneg (a.x * b.y - a.y * b.x), sq_nonneg (a.x * b.z - a.z * b.x),
    sq_nonneg (a.y * b.z - a.z * b.y)]

theorem minf_eq_min (x y : F) : minf x y = min x y := by
  unfold minf
  split_ifs with h
  · exact (min_eq_left h.le).symm
  · exact (min_eq_right (not_lt.mp h)).symm

theorem maxf_eq_max (x y : F) : maxf x y = max x y := by
  unfold maxf
  split_ifs with h
  · exact (max_eq_right h.le).symm
  · exact (max_eq_left (not_lt.mp h)).symm

end VectorLemmas

/-! ## The sphere fit encloses the vertices -/

section SphereLemmas

/-- Geometric core of a growth step, with `u = v - c`, `w = P - c` and `k = r/d`: a
point within `k·|w|` of the old centre is within the new radius of the new centre. -/
theorem grow_core (u w : Vector3D ℝ) (k : ℝ) (hk0 : 0 ≤ k) (hk1 : k ≤ 1)
    (hu : SquaredMag u ≤ k ^ 2 * SquaredMag w) :
    SquaredMag (u - Vector3D.scale ((1 - k) / 2) w)
      ≤ SquaredMag (w - Vector3D.scale ((1 - k) / 2) w) := by
  have hw := SquaredMag_nonneg w
  have hcs := Dot_sq_le u w
  have hbound : -(Dot u w) ≤ k * SquaredMag w := by
    have h1 : Dot u w ^ 2 ≤ (k * SquaredMag w) ^ 2 := by
      calc Dot u w ^ 2 ≤ SquaredMag u * SquaredMag w := hcs
        _ ≤ (k ^ 2 * SquaredMag w) * SquaredMag w := mul_le_mul_of_nonneg_right hu hw
        _ = (k * SquaredMag w) ^ 2 := by ring
    have h2 := abs_le_of_sq_le_sq' h1 (mul_nonneg hk0 hw)
    linarith [h2.1]
  have e1 : SquaredMag (u - Vector3D.scale ((1 - k) / 2) w)
      = SquaredMag u - (1 - k) * Dot u w + ((1 - k) / 2) ^ 2 * SquaredMag w := by
    simp only [SquaredMag, Dot, Vector3D.sub_x, Vector3D.sub_y, Vector3D.sub_z,
      Vector3D.scale_x, Vector3D.scale_y, Vector3D.scale_z]
    ring
  have e2 : SquaredMag (w - Vector3D.scale ((1 - k) / 2) w)
      = (1 - (1 - k) / 2) ^ 2 * SquaredMag w := by
    simp only [SquaredMag, Vector3D.sub_x, Vector3D.sub_y, Vector3D.sub_z,
      Vector3D.scale_x, Vector3D.scale_y, Vector3D.scale_z]
    ring
  rw [e1, e2]
  have h3 : (1 - k) * (-(Dot u w)) ≤ (1 - k) * (k * SquaredMag w) :=
    mul_le_mul_of_nonneg_left hbound (by linarith)
  nlinarith [h3, hu]

/-- In the growing branch the new centre is `c + ((1 - r/d)/2)·(P - c)`. -/
theorem grow_center_eq (c P : Point3D ℝ) (r d : ℝ) (hd : d ≠ 0) (v : Point3D ℝ) :
    v - Vector3D.scale (1 / 2) ((c - (Vector3D.scale r (P - c)).divScalar d) + P)
      = (v - c) - Vector3D.scale ((1 - r / d) / 2) (P - c) := by
  rw [Vector3D.ext_iff3]
  simp only [Vector3D.sub_x, Vector3D.sub_y, Vector3D.sub_z, Vector3D.add_x, Vector3D.add_y,
    Vector3D.add_z, Vector3D.scale_x, Vector3D.scale_y, Vector3D.scale_z,
    Vector3D.divScalar_x, Vector3D.divScalar_y, Vector3D.divScalar_z]
  refine ⟨?_, ?_, ?_⟩ <;> · field_simp; ring

/-- A growth step keeps every point of the previous sphere and takes in the new vertex. -/
theorem SphereFit.grow_spec (s : SphereFit ℝ) (P : Point3D ℝ) (h0 : 0 ≤ s.r_squared) :
    0 ≤ (s.grow Real.sqrt P).r_squared ∧
    SquaredMag (P - (s.grow Real.sqrt P).center) ≤ (s.grow Real.sqrt P).r_squared ∧
    ∀ v : Point3D ℝ, SquaredMag (v - s.center) ≤ s.r_squared →
      SquaredMag (v - (s.grow Real.sqrt P).center) ≤ (s.grow Real.sqrt P).r_squared := by
  unfold SphereFit.grow
  by_cases hgt : SquaredMag (P - s.center) > s.r_squared
  · simp only [hgt, if_true, Magnitude]
    have hdpos : 0 < SquaredMag (P - s.center) := lt_of_le_of_lt h0 hgt
    have hd : 0 < Real.sqrt (SquaredMag (P - s.center)) := Real.sqrt_pos.mpr hdpos
    have hr : 0 ≤ Real.sqrt s.r_squared := Real.sqrt_nonneg _
    have hdd : Real.sqrt (SquaredMag (P - s.center)) ^ 2 = SquaredMag (P - s.center) :=
      Real.sq_sqrt hdpos.le
    have hrr : Real.sqrt s.r_squared ^ 2 = s.r_squared := Real.sq_sqrt h0
    have hrd : Real.sqrt s.r_squared ≤ Real.sqrt (SquaredMag (P - s.center)) :=
      Real.sqrt_le_sqrt hgt.le
    have hk0 : 0 ≤ Real.sqrt s.r_squared / Real.sqrt (SquaredMag (P - s.center)) :=
      div_nonneg hr hd.le
    have hk1 : Real.sqrt s.r_squared / Real.sqrt (SquaredMag (P - s.center)) ≤ 1 :=
      (div_le_one hd).mpr hrd
    have hkk : (Real.sqrt s.r_squared / Real.sqrt (SquaredMag (P - s.center))) ^ 2
        * SquaredMag (P - s.center) = s.r_squared := by
      rw [div_pow, hrr, hdd]
      field_simp
    refine ⟨SquaredMag_nonneg _, le_refl _, ?_⟩
    intro v hv
    rw [grow_center_eq s.center P _ _ hd.ne' v, grow_center_eq s.center P _ _ hd.ne' P]
    exact grow_core _ _ _ hk0 hk1 (by rw [hkk]; exact hv)
  · simp only [hgt, if_false]
    exact ⟨h0, not_lt.mp hgt, fun v hv => hv⟩

/-- Loop invariant of the sphere fit: after the pass the sphere still holds whatever
the starting sphere held, and it holds every vertex of the pass. -/
theorem SphereFit.foldl_spec (vertex : List (Point3D ℝ)) :
    ∀ s : SphereFit ℝ, 0 ≤ s.r_squared →
      0 ≤ (vertex.foldl (SphereFit.grow Real.sqrt) s).r_squared ∧
      (∀ v : Point3D ℝ, SquaredMag (v - s.center) ≤ s.r_squared →
        SquaredMag (v - (vertex.foldl (SphereFit.grow Real.sqrt) s).center)
          ≤ (vertex.foldl (SphereFit.grow Real.sqrt) s).r_squared) ∧
      (∀ v ∈ vertex,
        SquaredMag (v - (vertex.foldl (SphereFit.grow Real.sqrt) s).center)
          ≤ (vertex.foldl (SphereFit.grow Real.sqrt) s).r_squared) := by
  induction vertex with
  | nil =>
    intro s h0
    exact ⟨h0, fun v hv => hv, fun v hv => absurd hv (List.not_mem_nil v)⟩
  | cons P rest ih =>
    intro s h0
    obtain ⟨g0, gP, gold⟩ := SphereFit.grow_spec s P h0
    obtain ⟨i0, iold, imem⟩ := ih (s.grow Real.sqrt P) g0
    simp only [List.foldl_cons]
    refine ⟨i0, fun v hv => iold v (gold v hv), ?_⟩
    intro v hv
    rcases List.mem_cons.mp hv with rfl | hrest
    · exact iold _ gP
    · exact imem v hrest

/-- Every vertex is within the fitted radius of the fitted centre, for any seed axis. -/
theorem sphere_encloses (vertex : List (Point3D ℝ)) (_PCA : PCAArray ℝ) :
    ∀ v ∈ vertex,
      Magnitude Real.sqrt (v - (CalculatePCABoundingSphere Real.sqrt vertex _PCA).center)
        ≤ (CalculatePCABoundingSphere Real.sqrt vertex _PCA).radius := by
  intro v hv
  unfold CalculatePCABoundingSphere Magnitude
  simp only
  exact Real.sqrt_le_sqrt ((SphereFit.foldl_spec vertex _ (SquaredMag_nonneg _)).2.2 v hv)

end SphereLemmas

/-- Claim C1: for a non-empty vertex sequence, in exact real arithmetic, the sphere
returned by `CalculatePCABoundingSphere` contains every vertex, `|v - center| ≤ radius`;
this holds for every seed axis `_PCA[0].vector`, in particular for every unit one. -/
theorem CalculatePCABoundingSphere_contains_vertices (vertex : List (Point3D ℝ))
    (_PCA : PCAArray ℝ) (hne : vertex ≠ []) (hunit : SquaredMag _PCA.c0.vector = 1) :
    ∀ v ∈ vertex,
      Magnitude Real.sqrt (v - (CalculatePCABoundingSphere Real.sqrt vertex _PCA).center)
        ≤ (CalculatePCABoundingSphere Real.sqrt vertex _PCA).radius := by
  intro v hv
  unfold CalculatePCABoundingSphere Magnitude
  simp only
  refine Real.sqrt_le_sqrt ?_
  exact (SphereFit.foldl_spec vertex _ (SquaredMag_nonneg _)).2.2 v hv

/-- Witness for C1: two vertices on the x axis with the seed axis `(1, 0, 0)`; the
vertex `(2, 0, 0)` lies in the fitted sphere. -/
theorem CalculatePCABoundingSphere_contains_vertices_witness :
    Magnitude Real.sqrt ((⟨2, 0, 0⟩ : Point3D ℝ) - (CalculatePCABoundingSphere Real.sqrt
          [⟨0, 0, 0⟩, ⟨2, 0, 0⟩] ⟨⟨⟨1, 0, 0⟩, 2⟩, ⟨⟨0, 1, 0⟩, 0⟩, ⟨⟨0, 0, 1⟩, 0⟩⟩).center)
        ≤ (CalculatePCABoundingSphere Real.sqrt
          [⟨0, 0, 0⟩, ⟨2, 0, 0⟩] ⟨⟨⟨1, 0, 0⟩, 2⟩, ⟨⟨0, 1, 0⟩, 0⟩, ⟨⟨0, 0, 1⟩, 0⟩⟩).radius :=
  CalculatePCABoundingSphere_contains_vertices [⟨0, 0, 0⟩, ⟨2, 0, 0⟩]
    ⟨⟨⟨1, 0, 0⟩, 2⟩, ⟨⟨0, 1, 0⟩, 0⟩, ⟨⟨0, 0, 1⟩, 0⟩⟩ (List.cons_ne_nil _ _)
    (by simp [SquaredMag]) ⟨2, 0, 0⟩ (by simp)

/-! ## The AABB is the componentwise minimum and maximum -/

section AABBLemmas

variable {F : Type} [LinearOrderedField F]

theorem minf_fin_fin (a b : F) :
    minf (ExtFloat.fin a) (ExtFloat.fin b) = ExtFloat.fin (min a b) := by
  unfold minf
  by_cases h : a < b
  · rw [if_pos (show ExtFloat.fin a < ExtFloat.fin b from h), min_eq_left h.le]
  · rw [if_neg (show ¬ ExtFloat.fin a < ExtFloat.fin b from h), min_eq_right (not_lt.mp h)]

theorem maxf_fin_fin (a b : F) :
    maxf (ExtFloat.fin a) (ExtFloat.fin b) = ExtFloat.fin (max a b) := by
  unfold maxf
  by_cases h : a < b
  · rw [if_pos (show ExtFloat.fin a < ExtFloat.fin b from h), max_eq_right h.le]
  · rw [if_neg (show ¬ ExtFloat.fin a < ExtFloat.fin b from h), max_eq_left (not_lt.mp h)]

theorem minf_posInf_fin (b : F) : minf (ExtFloat.posInf) (ExtFloat.fin b) = ExtFloat.fin b := by
  unfold minf
  rw [if_neg (show ¬ (ExtFloat.posInf : ExtFloat F) < ExtFloat.fin b from fun h => h)]

theorem maxf_negInf_fin (b : F) : maxf (ExtFloat.negInf) (ExtFloat.fin b) = ExtFloat.fin b := by
  unfold maxf
  rw [if_pos (show (ExtFloat.negInf : ExtFloat F) < ExtFloat.fin b from trivial)]

/-- The first vertex replaces both infinite corners. -/
theorem UpdateAABB_seed (v : Point3D F) :
    UpdateAABB
      { dim_min := ⟨POSITIVE_INFINITY_FLOAT, POSITIVE_INFINITY_FLOAT, POSITIVE_INFINITY_FLOAT⟩
        dim_max := ⟨NEGATIVE_INFINITY_FLOAT, NEGATIVE_INFINITY_FLOAT, NEGATIVE_INFINITY_FLOAT⟩ } v
      = ⟨v.toExt, v.toExt⟩ := by
  simp only [UpdateAABB, POSITIVE_INFINITY_FLOAT, NEGATIVE_INFINITY_FLOAT, minf_posInf_fin,
    maxf_negInf_fin, Vector3D.toExt]

/-- On a finite box the extension takes componentwise minima and maxima. -/
theorem UpdateAABB_finite (lo hi v : Point3D F) :
    UpdateAABB ⟨lo.toExt, hi.toExt⟩ v
      = ⟨(⟨min lo.x v.x, min lo.y v.y, min lo.z v.z⟩ : Point3D F).toExt,
         (⟨max hi.x v.x, max hi.y v.y, max hi.z v.z⟩ : Point3D F).toExt⟩ := by
  simp only [UpdateAABB, Vector3D.toExt, minf_fin_fin, maxf_fin_fin]

theorem IsComponentwiseMin_snoc {seen : List (Point3D F)} {lo : Point3D F}
    (h : IsComponentwiseMin seen lo) (v : Point3D F) :
    IsComponentwiseMin (seen ++ [v]) ⟨min lo.x v.x, min lo.y v.y, min lo.z v.z⟩ := by
  obtain ⟨hb, ⟨ux, hux, ex⟩, ⟨uy, huy, ey⟩, ⟨uz, huz, ez⟩⟩ := h
  refine ⟨?_, ?_, ?_, ?_⟩
  · intro u hu
    rcases List.mem_append.mp hu with hs | hs
    · obtain ⟨h1, h2, h3⟩ := hb u hs
      exact ⟨le_trans (min_le_left _ _) h1, le_trans (min_le_left _ _) h2,
        le_trans (min_le_left _ _) h3⟩
    · rw [List.mem_singleton] at hs
      subst hs
      exact ⟨min_le_right _ _, min_le_right _ _, min_le_right _ _⟩
  · rcases min_choice lo.x v.x with hc | hc
    · exact ⟨ux, List.mem_append_left _ hux, by rw [ex]; exact hc.symm⟩
    · exact ⟨v, List.mem_append_right _ (List.mem_singleton_self v), hc.symm⟩
  · rcases min_choice lo.y v.y with hc | hc
    · exact ⟨uy, List.mem_append_left _ huy, by rw [ey]; exact hc.symm⟩
    · exact ⟨v, List.mem_append_right _ (List.mem_singleton_self v), hc.symm⟩
  · rcases min_choice lo.z v.z with hc | hc
    · exact ⟨uz, List.mem_append_left _ huz, by rw [ez]; exact hc.symm⟩
    · exact ⟨v, List.mem_append_right _ (List.mem_singleton_self v), hc.symm⟩

theorem IsComponentwiseMax_snoc {seen : List (Point3D F)} {hi : Point3D F}
    (h : IsComponentwiseMax seen hi) (v : Point3D F) :
    IsComponentwiseMax (seen ++ [v]) ⟨max hi.x v.x, max hi.y v.y, max hi.z v.z⟩ := by
  obtain ⟨hb, ⟨ux, hux, ex⟩, ⟨uy, huy, ey⟩, ⟨uz, huz, ez⟩⟩ := h
  refine ⟨?_, ?_, ?_, ?_⟩
  · intro u hu
    rcases List.mem_append.mp hu with hs | hs
    · obtain ⟨h1, h2, h3⟩ := hb u hs
      exact ⟨le_trans h1 (le_max_left _ _), le_trans h2 (le_max_left _ _),
        le_trans h3 (le_max_left _ _)⟩
    · rw [List.mem_singleton] at hs
      subst hs
      exact ⟨le_max_right _ _, le_max_right _ _, le_max_right _ _⟩
  · rcases max_choice hi.x v.x with hc | hc
    · exact ⟨ux, List.mem_append_left _ hux, by rw [ex]; exact hc.symm⟩
    · exact ⟨v, List.mem_append_right _ (List.mem_singleton_self v), hc.symm⟩
  · rcases max_choice hi.y v.y with hc | hc
    · exact ⟨uy, List.mem_append_left _ huy, by rw [ey]; exact hc.symm⟩
    · exact ⟨v, List.mem_append_right _ (List.mem_singleton_self v), hc.symm⟩
  · rcases max_choice hi.z v.z with hc | hc
    · exact ⟨uz, List.mem_append_left _ huz, by rw [ez]; exact hc.symm⟩
    · exact ⟨v, List.mem_append_right _ (List.mem_singleton_self v), hc.symm⟩

/-- Loop invariant of `CalculateAABB` once the box is finite: the corners are the
componentwise extremes of the vertices seen so far. -/
theorem UpdateAABB_foldl (rest : List (Point3D F)) :
    ∀ (seen : List (Point3D F)) (lo hi : Point3D F),
      IsComponentwiseMin seen lo → IsComponentwiseMax seen hi →
      ∃ lo1 hi1 : Point3D F,
        rest.foldl UpdateAABB ⟨lo.toExt, hi.toExt⟩ = ⟨lo1.toExt, hi1.toExt⟩ ∧
        IsComponentwiseMin (seen ++ rest) lo1 ∧ IsComponentwiseMax (seen ++ rest) hi1 := by
  induction rest with
  | nil =>
    intro seen lo hi hlo hhi
    exact ⟨lo, hi, rfl, by simpa using hlo, by simpa using hhi⟩
  | cons v rest ih =>
    intro seen lo hi hlo hhi
    obtain ⟨lo1, hi1, e, h1, h2⟩ := ih (seen ++ [v]) _ _ (IsComponentwiseMin_snoc hlo v) (IsComponentwiseMax_snoc hhi v)
    refine ⟨lo1, hi1, ?_, ?_, ?_⟩
    · rw [List.foldl_cons, UpdateAABB_finite]
      exact e
    · simpa using h1
    · simpa using h2

/-- The box computed for a non-empty array has finite corners, which are the
componentwise minimum and maximum of the vertices. -/
theorem CalculateAABB_spec (vertex : List (Point3D F)) (hne : vertex ≠ []) :
    ∃ lo hi : Point3D F, CalculateAABB vertex = ⟨lo.toExt, hi.toExt⟩ ∧
      IsComponentwiseMin vertex lo ∧ IsComponentwiseMax vertex hi := by
  cases vertex with
  | nil => exact absurd rfl hne
  | cons v rest =>
    have hmin : IsComponentwiseMin [v] v :=
      ⟨fun u hu => by rw [List.mem_singleton] at hu; subst hu; exact ⟨le_rfl, le_rfl, le_rfl⟩,
       ⟨v, List.mem_singleton_self v, rfl⟩, ⟨v, List.mem_singleton_self v, rfl⟩,
       ⟨v, List.mem_singleton_self v, rfl⟩⟩
    have hmax : IsComponentwiseMax [v] v :=
      ⟨fun u hu => by rw [List.mem_singleton] at hu; subst hu; exact ⟨le_rfl, le_rfl, le_rfl⟩,
       ⟨v, List.mem_singleton_self v, rfl⟩, ⟨v, List.mem_singleton_self v, rfl⟩,
       ⟨v, List.mem_singleton_self v, rfl⟩⟩
    obtain ⟨lo, hi, e, h1, h2⟩ := UpdateAABB_foldl rest [v] v v hmin hmax
    refine ⟨lo, hi, ?_, by simpa using h1, by simpa using h2⟩
    unfold CalculateAABB
    rw [List.foldl_cons, UpdateAABB_seed]
    exact e

/-- The componentwise minimum of a list is unique. -/
theorem IsComponentwiseMin_unique {vertex : List (Point3D F)} {a b : Point3D F}
    (ha : IsComponentwiseMin vertex a) (hb : IsComponentwiseMin vertex b) : a = b := by
  obtain ⟨la, ⟨ax, hax, eax⟩, ⟨ay, hay, eay⟩, ⟨az, haz, eaz⟩⟩ := ha
  obtain ⟨lb, ⟨bx, hbx, ebx⟩, ⟨b_y, hby, eby⟩, ⟨bz, hbz, ebz⟩⟩ := hb
  rw [Vector3D.ext_iff3]
  refine ⟨le_antisymm ?_ ?_, le_antisymm ?_ ?_, le_antisymm ?_ ?_⟩
  · rw [← ebx]; exact (la bx hbx).1
  · rw [← eax]; exact (lb ax hax).1
  · rw [← eby]; exact (la b_y hby).2.1
  · rw [← eay]; exact (lb ay hay).2.1
  · rw [← ebz]; exact (la bz hbz).2.2
  · rw [← eaz]; exact (lb az haz).2.2

/-- The componentwise maximum of a list is unique. -/
theorem IsComponentwiseMax_unique {vertex : List (Point3D F)} {a b : Point3D F}
    (ha : IsComponentwiseMax vertex a) (hb : IsComponentwiseMax vertex b) : a = b := by
  obtain ⟨la, ⟨ax, hax, eax⟩, ⟨ay, hay, eay⟩, ⟨az, haz, eaz⟩⟩ := ha
  obtain ⟨lb, ⟨bx, hbx, ebx⟩, ⟨b_y, hby, eby⟩, ⟨bz, hbz, ebz⟩⟩ := hb
  rw [Vector3D.ext_iff3]
  refine ⟨le_antisymm ?_ ?_, le_antisymm ?_ ?_, le_antisymm ?_ ?_⟩
  · rw [← eax]; exact (lb ax hax).1
  · rw [← ebx]; exact (la bx hbx).1
  · rw [← eay]; exact (lb ay hay).2.1
  · rw [← eby]; exact (la b_y hby).2.1
  · rw [← eaz]; exact (lb az haz).2.2
  · rw [← ebz]; exact (la bz hbz).2.2

end AABBLemmas

/-- Claim C2: for a non-empty vertex sequence `CalculateAABB` returns finite corners,
`dim_min` the componentwise minimum and `dim_max` the componentwise maximum of the
vertices; hence every vertex lies between them componentwise and `dim_min ≤ dim_max`. -/
theorem CalculateAABB_is_componentwise_min_max {F : Type} [LinearOrderedField F]
    (vertex : List (Point3D F)) (hne : vertex ≠ []) :
    ∃ lo hi : Point3D F, CalculateAABB vertex = ⟨lo.toExt, hi.toExt⟩ ∧
      IsComponentwiseMin vertex lo ∧ IsComponentwiseMax vertex hi ∧
      (∀ v ∈ vertex, (lo.x ≤ v.x ∧ v.x ≤ hi.x) ∧ (lo.y ≤ v.y ∧ v.y ≤ hi.y) ∧
        (lo.z ≤ v.z ∧ v.z ≤ hi.z)) ∧
      lo.x ≤ hi.x ∧ lo.y ≤ hi.y ∧ lo.z ≤ hi.z := by
  obtain ⟨lo, hi, e, hlo, hhi⟩ := CalculateAABB_spec vertex hne
  have hall : ∀ v ∈ vertex, (lo.x ≤ v.x ∧ v.x ≤ hi.x) ∧ (lo.y ≤ v.y ∧ v.y ≤ hi.y) ∧
      (lo.z ≤ v.z ∧ v.z ≤ hi.z) := fun v hv =>
    ⟨⟨(hlo.1 v hv).1, (hhi.1 v hv).1⟩, ⟨(hlo.1 v hv).2.1, (hhi.1 v hv).2.1⟩,
      ⟨(hlo.1 v hv).2.2, (hhi.1 v hv).2.2⟩⟩
  obtain ⟨v0, hv0⟩ := List.exists_mem_of_ne_nil vertex hne
  obtain ⟨hx, hy, hz⟩ := hall v0 hv0
  exact ⟨lo, hi, e, hlo, hhi, hall, le_trans hx.1 hx.2, le_trans hy.1 hy.2,
    le_trans hz.1 hz.2⟩

/-- Witness for C2: a two-vertex array over the rationals. -/
theorem CalculateAABB_is_componentwise_min_max_witness :
    ∃ lo hi : Point3D ℚ,
      CalculateAABB ([⟨0, 5, 2⟩, ⟨3, 1, 2⟩] : List (Point3D ℚ)) = ⟨lo.toExt, hi.toExt⟩ ∧
      IsComponentwiseMin [⟨0, 5, 2⟩, ⟨3, 1, 2⟩] lo ∧
      IsComponentwiseMax [⟨0, 5, 2⟩, ⟨3, 1, 2⟩] hi ∧
      (∀ v ∈ ([⟨0, 5, 2⟩, ⟨3, 1, 2⟩] : List (Point3D ℚ)),
        (lo.x ≤ v.x ∧ v.x ≤ hi.x) ∧ (lo.y ≤ v.y ∧ v.y ≤ hi.y) ∧ (lo.z ≤ v.z ∧ v.z ≤ hi.z)) ∧
      lo.x ≤ hi.x ∧ lo.y ≤ hi.y ∧ lo.z ≤ hi.z :=
  CalculateAABB_is_componentwise_min_max [⟨0, 5, 2⟩, ⟨3, 1, 2⟩] (List.cons_ne_nil _ _)

/-! ## Extents along a direction and the final sort -/

section ExtentLemmas

variable {F : Type} [LinearOrderedField F]

theorem IsMinDot_snoc {seen : List (Vector3D F)} {a : Vector3D F} {m : F}
    (h : IsMinDot seen a m) (w : Vector3D F) : IsMinDot (seen ++ [w]) a (minf m (Dot w a)) := by
  obtain ⟨hb, u, hu, eu⟩ := h
  rw [minf_eq_min]
  refine ⟨?_, ?_⟩
  · intro v hv
    rcases List.mem_append.mp hv with hs | hs
    · exact le_trans (min_le_left _ _) (hb v hs)
    · rw [List.mem_singleton] at hs
      subst hs
      exact min_le_right _ _
  · rcases min_choice m (Dot w a) with hc | hc
    · exact ⟨u, List.mem_append_left _ hu, by rw [eu]; exact hc.symm⟩
    · exact ⟨w, List.mem_append_right _ (List.mem_singleton_self w), hc.symm⟩

theorem IsMaxDot_snoc {seen : List (Vector3D F)} {a : Vector3D F} {m : F}
    (h : IsMaxDot seen a m) (w : Vector3D F) : IsMaxDot (seen ++ [w]) a (maxf m (Dot w a)) := by
  obtain ⟨hb, u, hu, eu⟩ := h
  rw [maxf_eq_max]
  refine ⟨?_, ?_⟩
  · intro v hv
    rcases List.mem_append.mp hv with hs | hs
    · exact le_trans (hb v hs) (le_max_left _ _)
    · rw [List.mem_singleton] at hs
      subst hs
      exact le_max_right _ _
  · rcases max_choice m (Dot w a) with hc | hc
    · exact ⟨u, List.mem_append_left _ hu, by rw [eu]; exact hc.symm⟩
    · exact ⟨w, List.mem_append_right _ (List.mem_singleton_self w), hc.symm⟩

/-- Loop invariant of the min/max search along one direction. -/
theorem minMaxDot_foldl (a : Vector3D F) (rest : List (Vector3D F)) :
    ∀ (seen : List (Vector3D F)) (acc : F × F),
      IsMinDot seen a acc.1 → IsMaxDot seen a acc.2 →
      IsMinDot (seen ++ rest) a
        (rest.foldl (fun acc w => (minf acc.1 (Dot w a), maxf acc.2 (Dot w a))) acc).1 ∧
      IsMaxDot (seen ++ rest) a
        (rest.foldl (fun acc w => (minf acc.1 (Dot w a), maxf acc.2 (Dot w a))) acc).2 := by
  induction rest with
  | nil =>
    intro seen acc h1 h2
    exact ⟨by simpa using h1, by simpa using h2⟩
  | cons w rest ih =>
    intro seen acc h1 h2
    have := ih (seen ++ [w]) (minf acc.1 (Dot w a), maxf acc.2 (Dot w a))
      (IsMinDot_snoc h1 w) (IsMaxDot_snoc h2 w)
    simpa using this

/-- For a non-empty array the modelled library routine returns the least and the greatest
dot product. -/
theorem dstCalculateMinAndMaxDotProductNx1_spec (vertex : List (Vector3D F)) (a : Vector3D F)
    (hne : vertex ≠ []) :
    IsMinDot vertex a (dstCalculateMinAndMaxDotProductNx1 vertex a).1 ∧
    IsMaxDot vertex a (dstCalculateMinAndMaxDotProductNx1 vertex a).2 := by
  cases vertex with
  | nil => exact absurd rfl hne
  | cons v rest =>
    have h1 : IsMinDot [v] a (Dot v a) :=
      ⟨fun u hu => by rw [List.mem_singleton] at hu; subst hu; exact le_rfl,
       v, List.mem_singleton_self v, rfl⟩
    have h2 : IsMaxDot [v] a (Dot v a) :=
      ⟨fun u hu => by rw [List.mem_singleton] at hu; subst hu; exact le_rfl,
       v, List.mem_singleton_self v, rfl⟩
    have := minMaxDot_foldl a rest [v] (Dot v a, Dot v a) h1 h2
    simpa [dstCalculateMinAndMaxDotProductNx1] using this

theorem IsMinDot_unique {vertex : List (Vector3D F)} {a : Vector3D F} {m n : F}
    (hm : IsMinDot vertex a m) (hn : IsMinDot vertex a n) : m = n := by
  obtain ⟨bm, um, hum, em⟩ := hm
  obtain ⟨bn, un, hun, en⟩ := hn
  exact le_antisymm (by rw [← en]; exact bm un hun) (by rw [← em]; exact bn um hum)

theorem IsMaxDot_unique {vertex : List (Vector3D F)} {a : Vector3D F} {m n : F}
    (hm : IsMaxDot vertex a m) (hn : IsMaxDot vertex a n) : m = n := by
  obtain ⟨bm, um, hum, em⟩ := hm
  obtain ⟨bn, un, hun, en⟩ := hn
  exact le_antisymm (by rw [← em]; exact bn um hum) (by rw [← en]; exact bm un hun)

/-- The least dot product does not exceed the greatest. -/
theorem IsMinDot_le_max {vertex : List (Vector3D F)} {a : Vector3D F} {m n : F}
    (hm : IsMinDot vertex a m) (hn : IsMaxDot vertex a n) : m ≤ n := by
  obtain ⟨bm, um, hum, em⟩ := hm
  exact le_trans (bm um hum) (hn.1 um hum)

/-- The three compare-and-swap blocks return one of the six arrangements of the input. -/
theorem PCAArray.sortDecreasing_cases (p : PCAArray F) :
    p.sortDecreasing = ⟨p.c0, p.c1, p.c2⟩ ∨ p.sortDecreasing = ⟨p.c0, p.c2, p.c1⟩ ∨
    p.sortDecreasing = ⟨p.c1, p.c0, p.c2⟩ ∨ p.sortDecreasing = ⟨p.c1, p.c2, p.c0⟩ ∨
    p.sortDecreasing = ⟨p.c2, p.c0, p.c1⟩ ∨ p.sortDecreasing = ⟨p.c2, p.c1, p.c0⟩ := by
  unfold PCAArray.sortDecreasing PCAArray.swap01 PCAArray.swap12
  split_ifs <;> simp

/-- After the three blocks the sizes are in non-increasing order. -/
theorem PCAArray.sortDecreasing_sorted (p : PCAArray F) :
    p.sortDecreasing.c1.size ≤ p.sortDecreasing.c0.size ∧
    p.sortDecreasing.c2.size ≤ p.sortDecreasing.c1.size := by
  unfold PCAArray.sortDecreasing PCAArray.swap01 PCAArray.swap12
  split_ifs <;> simp_all <;> first | linarith | exact ⟨by linarith, by linarith⟩

/-- Every returned component is one of the components before the sort. -/
theorem PCAArray.sortDecreasing_get (p : PCAArray F) (i : Fin 3) :
    ∃ j : Fin 3, p.sortDecreasing.get i = p.get j := by
  rcases p.sortDecreasing_cases with h | h | h | h | h | h <;> rw [h] <;>
    fin_cases i <;> simp [PCAArray.get] <;> first | exact ⟨0, rfl⟩ | exact ⟨1, rfl⟩ | exact ⟨2, rfl⟩

/-- Before the sort every size is the spread of the dot products along its own vector. -/
theorem unsortedComponents_size (sqrtf : F → F) (position : List (Point3D F)) (j : Fin 3) :
    ((unsortedComponents sqrtf position).get j).size
      = (dstCalculateMinAndMaxDotProductNx1 position
          ((unsortedComponents sqrtf position).get j).vector).2
        - (dstCalculateMinAndMaxDotProductNx1 position
          ((unsortedComponents sqrtf position).get j).vector).1 := by
  fin_cases j <;> rfl

/-- The same after the sort, since sizes and vectors are exchanged together. -/
theorem sortedComponents_size (sqrtf : F → F) (position : List (Point3D F)) (i : Fin 3) :
    (((CalculatePrincipalComponents sqrtf position).1).get i).size
      = (dstCalculateMinAndMaxDotProductNx1 position
          (((CalculatePrincipalComponents sqrtf position).1).get i).vector).2
        - (dstCalculateMinAndMaxDotProductNx1 position
          (((CalculatePrincipalComponents sqrtf position).1).get i).vector).1 := by
  obtain ⟨j, hj⟩ := (unsortedComponents sqrtf position).sortDecreasing_get i
  unfold CalculatePrincipalComponents
  simp only [hj]
  exact unsortedComponents_size sqrtf position j

end ExtentLemmas

/-- Claim C3: for a non-empty vertex sequence the three sizes returned by
`CalculatePrincipalComponents` satisfy `size[0] ≥ size[1] ≥ size[2] ≥ 0`. -/
theorem CalculatePrincipalComponents_sizes_descending {F : Type} [LinearOrderedField F]
    (sqrtf : F → F) (position : List (Point3D F)) (hne : position ≠ []) :
    (CalculatePrincipalComponents sqrtf position).1.c0.size
        ≥ (CalculatePrincipalComponents sqrtf position).1.c1.size ∧
    (CalculatePrincipalComponents sqrtf position).1.c1.size
        ≥ (CalculatePrincipalComponents sqrtf position).1.c2.size ∧
    (CalculatePrincipalComponents sqrtf position).1.c2.size ≥ 0 := by
  have hs := (unsortedComponents sqrtf position).sortDecreasing_sorted
  refine ⟨hs.1, hs.2, ?_⟩
  have hsize := sortedComponents_size sqrtf position 2
  have hmm := dstCalculateMinAndMaxDotProductNx1_spec position
    (((CalculatePrincipalComponents sqrtf position).1).get 2).vector hne
  have hle := IsMinDot_le_max hmm.1 hmm.2
  have h2 : (CalculatePrincipalComponents sqrtf position).1.c2.size
      = (((CalculatePrincipalComponents sqrtf position).1).get 2).size := rfl
  rw [h2, hsize]
  exact sub_nonneg.mpr hle

/-- Witness for C3: two vertices over the reals. -/
theorem CalculatePrincipalComponents_sizes_descending_witness :
    (CalculatePrincipalComponents Real.sqrt [(⟨0, 0, 0⟩ : Point3D ℝ), ⟨0, 2, 0⟩]).1.c0.size
        ≥ (CalculatePrincipalComponents Real.sqrt
            [(⟨0, 0, 0⟩ : Point3D ℝ), ⟨0, 2, 0⟩]).1.c1.size ∧
    (CalculatePrincipalComponents Real.sqrt [(⟨0, 0, 0⟩ : Point3D ℝ), ⟨0, 2, 0⟩]).1.c1.size
        ≥ (CalculatePrincipalComponents Real.sqrt
            [(⟨0, 0, 0⟩ : Point3D ℝ), ⟨0, 2, 0⟩]).1.c2.size ∧
    (CalculatePrincipalComponents Real.sqrt [(⟨0, 0, 0⟩ : Point3D ℝ), ⟨0, 2, 0⟩]).1.c2.size
        ≥ 0 :=
  CalculatePrincipalComponents_sizes_descending Real.sqrt [⟨0, 0, 0⟩, ⟨0, 2, 0⟩]
    (List.cons_ne_nil _ _)

/-- Claim C7: the final sort moves `{vector, size}` pairs together.  For each `i` the
returned `size[i]` is the greatest minus the least dot product of a vertex with the
returned `vector[i]`, and the returned centre is the sum over the returned components of
`((max_i + min_i)/2)·vector[i]`, whatever the sort did. -/
theorem CalculatePrincipalComponents_pairs_kept {F : Type} [LinearOrderedField F]
    (sqrtf : F → F) (position : List (Point3D F)) (hne : position ≠ []) :
    ∃ mn mx : Fin 3 → F,
      (∀ i : Fin 3,
        IsMinDot position (((CalculatePrincipalComponents sqrtf position).1).get i).vector (mn i) ∧
        IsMaxDot position (((CalculatePrincipalComponents sqrtf position).1).get i).vector (mx i) ∧
        (((CalculatePrincipalComponents sqrtf position).1).get i).size = mx i - mn i) ∧
      (CalculatePrincipalComponents sqrtf position).2
        = Vector3D.scale ((mx 0 + mn 0) / 2)
            (((CalculatePrincipalComponents sqrtf position).1).get 0).vector
          + Vector3D.scale ((mx 1 + mn 1) / 2)
            (((CalculatePrincipalComponents sqrtf position).1).get 1).vector
          + Vector3D.scale ((mx 2 + mn 2) / 2)
            (((CalculatePrincipalComponents sqrtf position).1).get 2).vector := by
  refine ⟨fun i => (dstCalculateMinAndMaxDotProductNx1 position
      (((CalculatePrincipalComponents sqrtf position).1).get i).vector).1,
    fun i => (dstCalculateMinAndMaxDotProductNx1 position
      (((CalculatePrincipalComponents sqrtf position).1).get i).vector).2, ?_, ?_⟩
  · intro i
    have hmm := dstCalculateMinAndMaxDotProductNx1_spec position
      (((CalculatePrincipalComponents sqrtf position).1).get i).vector hne
    exact ⟨hmm.1, hmm.2, sortedComponents_size sqrtf position i⟩
  · have hc : (CalculatePrincipalComponents sqrtf position).1
        = (unsortedComponents sqrtf position).sortDecreasing := rfl
    have hcenter : (CalculatePrincipalComponents sqrtf position).2
        = pcaCenter sqrtf position := rfl
    simp only [hc, hcenter]
    rcases (unsortedComponents sqrtf position).sortDecreasing_cases with h | h | h | h | h | h <;>
      rw [h] <;>
      simp only [PCAArray.get, pcaCenter, unsortedComponents,
        dstCalculateMinAndMaxDotProductNx3, Vector3D.ext_iff3, Vector3D.add_x, Vector3D.add_y,
        Vector3D.add_z, Vector3D.scale_x, Vector3D.scale_y, Vector3D.scale_z] <;>
      refine ⟨?_, ?_, ?_⟩ <;> ring

/-- Witness for C7: two vertices over the reals. -/
theorem CalculatePrincipalComponents_pairs_kept_witness :
    ∃ mn mx : Fin 3 → ℝ,
      (∀ i : Fin 3,
        IsMinDot [(⟨0, 0, 0⟩ : Point3D ℝ), ⟨0, 2, 0⟩]
          (((CalculatePrincipalComponents Real.sqrt
            [(⟨0, 0, 0⟩ : Point3D ℝ), ⟨0, 2, 0⟩]).1).get i).vector (mn i) ∧
        IsMaxDot [(⟨0, 0, 0⟩ : Point3D ℝ), ⟨0, 2, 0⟩]
          (((CalculatePrincipalComponents Real.sqrt
            [(⟨0, 0, 0⟩ : Point3D ℝ), ⟨0, 2, 0⟩]).1).get i).vector (mx i) ∧
        (((CalculatePrincipalComponents Real.sqrt
            [(⟨0, 0, 0⟩ : Point3D ℝ), ⟨0, 2, 0⟩]).1).get i).size = mx i - mn i) ∧
      (CalculatePrincipalComponents Real.sqrt [(⟨0, 0, 0⟩ : Point3D ℝ), ⟨0, 2, 0⟩]).2
        = Vector3D.scale ((mx 0 + mn 0) / 2)
            (((CalculatePrincipalComponents Real.sqrt
              [(⟨0, 0, 0⟩ : Point3D ℝ), ⟨0, 2, 0⟩]).1).get 0).vector
          + Vector3D.scale ((mx 1 + mn 1) / 2)
            (((CalculatePrincipalComponents Real.sqrt
              [(⟨0, 0, 0⟩ : Point3D ℝ), ⟨0, 2, 0⟩]).1).get 1).vector
          + Vector3D.scale ((mx 2 + mn 2) / 2)
            (((CalculatePrincipalComponents Real.sqrt
              [(⟨0, 0, 0⟩ : Point3D ℝ), ⟨0, 2, 0⟩]).1).get 2).vector :=
  CalculatePrincipalComponents_pairs_kept Real.sqrt [⟨0, 0, 0⟩, ⟨0, 2, 0⟩]
    (List.cons_ne_nil _ _)

/-- Claim C10: for a single-vertex array `{p}`, `CalculateAABB` gives
`dim_min = dim_max = p`, and `CalculatePCABoundingSphere`, for any seed axis, gives
centre `p` and radius `0`. -/
theorem single_vertex_AABB_and_sphere (p : Point3D ℝ) (_PCA : PCAArray ℝ) :
    CalculateAABB [p] = ⟨p.toExt, p.toExt⟩ ∧
    CalculatePCABoundingSphere Real.sqrt [p] _PCA = ⟨p, 0⟩ := by
  refine ⟨?_, ?_⟩
  · unfold CalculateAABB
    rw [List.foldl_cons, UpdateAABB_seed, List.foldl_nil]
  · have hc : Vector3D.scale (1 / 2) (p + p) = p := by
      rw [Vector3D.ext_iff3]
      simp only [Vector3D.scale_x, Vector3D.scale_y, Vector3D.scale_z, Vector3D.add_x,
        Vector3D.add_y, Vector3D.add_z]
      refine ⟨?_, ?_, ?_⟩ <;> ring
    have hz : SquaredMag (p - p) = 0 := by
      simp [SquaredMag]
    have hc2 : Vector3D.scale (2⁻¹ : ℝ) (p + p) = p := by
      rw [← one_div]
      exact hc
    simp [CalculatePCABoundingSphere, dstGetIndicesWithMinAndMaxDotProductNx1,
      MinMaxIndex.run, vertexAt, hc2, hz, SphereFit.grow]

/-! ## Matrix algebra -/

section MatrixLemmas

variable {F : Type} [LinearOrderedField F]

theorem Matrix3D.ext_iff9 (a b : Matrix3D F) :
    a = b ↔ a.m00 = b.m00 ∧ a.m01 = b.m01 ∧ a.m02 = b.m02 ∧ a.m10 = b.m10 ∧ a.m11 = b.m11 ∧
      a.m12 = b.m12 ∧ a.m20 = b.m20 ∧ a.m21 = b.m21 ∧ a.m22 = b.m22 := by
  cases a; cases b; simp

theorem Matrix3D.mul_assoc (a b c : Matrix3D F) : (a.mul b).mul c = a.mul (b.mul c) := by
  rw [Matrix3D.ext_iff9]
  simp only [Matrix3D.mul, Matrix3D.GetRow, Matrix3D.GetColumn, Dot]
  refine ⟨?_, ?_, ?_, ?_, ?_, ?_, ?_, ?_, ?_⟩ <;> ring

theorem Matrix3D.transpose_mul (a b : Matrix3D F) :
    (a.mul b).transpose = b.transpose.mul a.transpose := by
  rw [Matrix3D.ext_iff9]
  simp only [Matrix3D.mul, Matrix3D.transpose, Matrix3D.GetRow, Matrix3D.GetColumn, Dot]
  refine ⟨?_, ?_, ?_, ?_, ?_, ?_, ?_, ?_, ?_⟩ <;> ring

theorem Matrix3D.mul_identity (a : Matrix3D F) : a.mul Matrix3D.identity = a := by
  rw [Matrix3D.ext_iff9]
  simp only [Matrix3D.mul, Matrix3D.identity, Matrix3D.GetRow, Matrix3D.GetColumn, Dot]
  refine ⟨?_, ?_, ?_, ?_, ?_, ?_, ?_, ?_, ?_⟩ <;> ring

theorem Matrix3D.identity_mul (a : Matrix3D F) : Matrix3D.identity.mul a = a := by
  rw [Matrix3D.ext_iff9]
  simp only [Matrix3D.mul, Matrix3D.identity, Matrix3D.GetRow, Matrix3D.GetColumn, Dot]
  refine ⟨?_, ?_, ?_, ?_, ?_, ?_, ?_, ?_, ?_⟩ <;> ring

theorem Matrix3D.transpose_identity :
    (Matrix3D.identity : Matrix3D F).transpose = Matrix3D.identity := rfl

/-- Orthogonality as the two matrix equations `r·rᵀ = 1` and `rᵀ·r = 1`. -/
theorem Matrix3D.isOrthogonal_iff (r : Matrix3D F) :
    r.IsOrthogonal ↔
      r.mul r.transpose = Matrix3D.identity ∧ r.transpose.mul r = Matrix3D.identity := by
  unfold Matrix3D.IsOrthogonal
  rw [Matrix3D.ext_iff9, Matrix3D.ext_iff9]
  simp only [Matrix3D.mul, Matrix3D.transpose, Matrix3D.identity, Matrix3D.GetRow,
    Matrix3D.GetColumn]
  constructor
  · rintro ⟨hr, hc⟩
    exact ⟨⟨hr 0 0, hr 0 1, hr 0 2, hr 1 0, hr 1 1, hr 1 2, hr 2 0, hr 2 1, hr 2 2⟩,
      ⟨hc 0 0, hc 0 1, hc 0 2, hc 1 0, hc 1 1, hc 1 2, hc 2 0, hc 2 1, hc 2 2⟩⟩
  · rintro ⟨⟨a1, a2, a3, a4, a5, a6, a7, a8, a9⟩, ⟨b1, b2, b3, b4, b5, b6, b7, b8, b9⟩⟩
    refine ⟨fun i j => ?_, fun i j => ?_⟩ <;> fin_cases i <;> fin_cases j <;>
      first | exact a1 | exact a2 | exact a3 | exact a4 | exact a5 | exact a6 | exact a7
            | exact a8 | exact a9 | exact b1 | exact b2 | exact b3 | exact b4 | exact b5
            | exact b6 | exact b7 | exact b8 | exact b9

theorem Matrix3D.identity_isOrthogonal : (Matrix3D.identity : Matrix3D F).IsOrthogonal := by
  rw [Matrix3D.isOrthogonal_iff, Matrix3D.transpose_identity, Matrix3D.identity_mul]
  exact ⟨rfl, rfl⟩

/-- A product of orthogonal matrices is orthogonal. -/
theorem Matrix3D.isOrthogonal_mul {r g : Matrix3D F} (hr : r.IsOrthogonal)
    (hg : g.IsOrthogonal) : (r.mul g).IsOrthogonal := by
  rw [Matrix3D.isOrthogonal_iff] at hr hg ⊢
  rw [Matrix3D.transpose_mul]
  constructor
  · calc (r.mul g).mul (g.transpose.mul r.transpose)
        = r.mul ((g.mul g.transpose).mul r.transpose) := by
          simp only [Matrix3D.mul_assoc]
      _ = Matrix3D.identity := by rw [hg.1, Matrix3D.identity_mul, hr.1]
  · calc (g.transpose.mul r.transpose).mul (r.mul g)
        = g.transpose.mul ((r.transpose.mul r).mul g) := by
          simp only [Matrix3D.mul_assoc]
      _ = Matrix3D.identity := by rw [hr.2, Matrix3D.identity_mul, hg.2]

/-- Multiplying `r` by `g` conjugates the transformed matrix `rᵀ·M·r` by `g`. -/
theorem Matrix3D.conjugate_mul (M r g : Matrix3D F) :
    (r.mul g).transpose.mul (M.mul (r.mul g))
      = g.transpose.mul ((r.transpose.mul (M.mul r)).mul g) := by
  rw [Matrix3D.transpose_mul]
  simp only [Matrix3D.mul_assoc]

theorem rotation12_isOrthogonal (c s : F) (h : c ^ 2 + s ^ 2 = 1) :
    (rotation12 c s).IsOrthogonal := by
  rw [Matrix3D.isOrthogonal_iff, Matrix3D.ext_iff9, Matrix3D.ext_iff9]
  simp only [Matrix3D.mul, Matrix3D.transpose, Matrix3D.identity, Matrix3D.GetRow,
    Matrix3D.GetColumn, Dot, rotation12]
  refine ⟨⟨?_, ?_, ?_, ?_, ?_, ?_, ?_, ?_, ?_⟩, ⟨?_, ?_, ?_, ?_, ?_, ?_, ?_, ?_, ?_⟩⟩ <;>
    first | linear_combination h | ring

theorem rotation13_isOrthogonal (c s : F) (h : c ^ 2 + s ^ 2 = 1) :
    (rotation13 c s).IsOrthogonal := by
  rw [Matrix3D.isOrthogonal_iff, Matrix3D.ext_iff9, Matrix3D.ext_iff9]
  simp only [Matrix3D.mul, Matrix3D.transpose, Matrix3D.identity, Matrix3D.GetRow,
    Matrix3D.GetColumn, Dot, rotation13]
  refine ⟨⟨?_, ?_, ?_, ?_, ?_, ?_, ?_, ?_, ?_⟩, ⟨?_, ?_, ?_, ?_, ?_, ?_, ?_, ?_, ?_⟩⟩ <;>
    first | linear_combination h | ring

theorem rotation23_isOrthogonal (c s : F) (h : c ^ 2 + s ^ 2 = 1) :
    (rotation23 c s).IsOrthogonal := by
  rw [Matrix3D.isOrthogonal_iff, Matrix3D.ext_iff9, Matrix3D.ext_iff9]
  simp only [Matrix3D.mul, Matrix3D.transpose, Matrix3D.identity, Matrix3D.GetRow,
    Matrix3D.GetColumn, Dot, rotation23]
  refine ⟨⟨?_, ?_, ?_, ?_, ?_, ?_, ?_, ?_, ?_⟩, ⟨?_, ?_, ?_, ?_, ?_, ?_, ?_, ?_, ?_⟩⟩ <;>
    first | linear_combination h | ring

end MatrixLemmas

/-! ## The Jacobi rotations are similarity transformations -/

section RotationLemmas

variable {F : Type} [LinearOrderedField F]

/-- Conjugating the working matrix by the (1,2) rotation gives the updated entries. -/
theorem conjugate_rotation12 (m11 m12 m13 m22 m23 m33 c t : F)
    (h1 : c ^ 2 * (1 + t ^ 2) = 1) (h2 : m12 * t ^ 2 + (m22 - m11) * t - m12 = 0) :
    Matrix3D.symmetric (m11 - t * m12) (m22 + t * m12) m33 0
        (c * m13 - c * t * m23) (c * t * m13 + c * m23)
      = (rotation12 c (c * t)).transpose.mul
          ((Matrix3D.symmetric m11 m22 m33 m12 m13 m23).mul (rotation12 c (c * t))) := by
  rw [Matrix3D.ext_iff9]
  simp only [Matrix3D.mul, Matrix3D.transpose, Matrix3D.symmetric, Matrix3D.GetRow,
    Matrix3D.GetColumn, Dot, rotation12]
  refine ⟨?_, ?_, ?_, ?_, ?_, ?_, ?_, ?_, ?_⟩
  · linear_combination (-(c ^ 2 * t)) * h2 - (m11 - t * m12) * h1
  · linear_combination (c ^ 2) * h2
  · ring
  · linear_combination (c ^ 2) * h2
  · linear_combination (c ^ 2 * t) * h2 - (m22 + t * m12) * h1
  · ring
  · ring
  · ring
  · ring

/-- Conjugating the working matrix by the (1,3) rotation gives the updated entries. -/
theorem conjugate_rotation13 (m11 m12 m13 m22 m23 m33 c t : F)
    (h1 : c ^ 2 * (1 + t ^ 2) = 1) (h2 : m13 * t ^ 2 + (m33 - m11) * t - m13 = 0) :
    Matrix3D.symmetric (m11 - t * m13) m22 (m33 + t * m13)
        (c * m12 - c * t * m23) 0 (c * t * m12 + c * m23)
      = (rotation13 c (c * t)).transpose.mul
          ((Matrix3D.symmetric m11 m22 m33 m12 m13 m23).mul (rotation13 c (c * t))) := by
  rw [Matrix3D.ext_iff9]
  simp only [Matrix3D.mul, Matrix3D.transpose, Matrix3D.symmetric, Matrix3D.GetRow,
    Matrix3D.GetColumn, Dot, rotation13]
  refine ⟨?_, ?_, ?_, ?_, ?_, ?_, ?_, ?_, ?_⟩
  · linear_combination (-(c ^ 2 * t)) * h2 - (m11 - t * m13) * h1
  · ring
  · linear_combination (c ^ 2) * h2
  · ring
  · ring
  · ring
  · linear_combination (c ^ 2) * h2
  · ring
  · linear_combination (c ^ 2 * t) * h2 - (m33 + t * m13) * h1

/-- Conjugating the working matrix by the (2,3) rotation gives the updated entries. -/
theorem conjugate_rotation23 (m11 m12 m13 m22 m23 m33 c t : F)
    (h1 : c ^ 2 * (1 + t ^ 2) = 1) (h2 : m23 * t ^ 2 + (m33 - m22) * t - m23 = 0) :
    Matrix3D.symmetric m11 (m22 - t * m23) (m33 + t * m23)
        (c * m12 - c * t * m13) (c * t * m12 + c * m13) 0
      = (rotation23 c (c * t)).transpose.mul
          ((Matrix3D.symmetric m11 m22 m33 m12 m13 m23).mul (rotation23 c (c * t))) := by
  rw [Matrix3D.ext_iff9]
  simp only [Matrix3D.mul, Matrix3D.transpose, Matrix3D.symmetric, Matrix3D.GetRow,
    Matrix3D.GetColumn, Dot, rotation23]
  refine ⟨?_, ?_, ?_, ?_, ?_, ?_, ?_, ?_, ?_⟩
  · ring
  · ring
  · ring
  · ring
  · linear_combination (-(c ^ 2 * t)) * h2 - (m22 - t * m23) * h1
  · linear_combination (c ^ 2) * h2
  · ring
  · linear_combination (c ^ 2) * h2
  · linear_combination (c ^ 2 * t) * h2 - (m33 + t * m23) * h1

/-- A state whose `r` was multiplied by an orthogonal `g`, and whose working matrix was
conjugated by `g`, still satisfies the invariant. -/
theorem EigenState.invariant_step {M : Matrix3D F} {e e1 : EigenState F} {g : Matrix3D F}
    (h : e.Invariant M) (hg : g.IsOrthogonal) (hr : e1.r = e.r.mul g)
    (hw : e1.workingMatrix = g.transpose.mul (e.workingMatrix.mul g)) : e1.Invariant M := by
  refine ⟨?_, ?_⟩
  · rw [hr]
    exact Matrix3D.isOrthogonal_mul h.1 hg
  · rw [hr, Matrix3D.conjugate_mul, h.2, hw]

end RotationLemmas

section EigenLemmas

/-- The cosine and the tangent satisfy `c²·(1 + t²) = 1`, whatever `t` is. -/
theorem rotationC_sq (t : ℝ) : rotationC Real.sqrt t ^ 2 * (1 + t ^ 2) = 1 := by
  unfold rotationC
  have hpos : 0 < t * t + 1 := by nlinarith [mul_self_nonneg t]
  have hs : Real.sqrt (t * t + 1) ^ 2 = t * t + 1 := Real.sq_sqrt hpos.le
  have hne : Real.sqrt (t * t + 1) ≠ 0 := (Real.sqrt_pos.mpr hpos).ne'
  field_simp
  ring

/-- The pair `(c, s) = (c, c·t)` is a point of the unit circle. -/
theorem rotation_unit (t : ℝ) :
    rotationC Real.sqrt t ^ 2 + (rotationC Real.sqrt t * t) ^ 2 = 1 := by
  linear_combination rotationC_sq t

/-- Over the reals `u² + 1 ≠ u²`, so `t` is the root `sgn(u)·(√(u²+1) - |u|)` of
`t² + 2·u·t - 1`. -/
theorem rotationT_root (u : ℝ) :
    rotationT Real.sqrt u ^ 2 + 2 * u * rotationT Real.sqrt u - 1 = 0 := by
  unfold rotationT
  have hne : u * u + 1 ≠ u * u := by
    intro h
    linarith
  have hs : Real.sqrt (u * u + 1) ^ 2 = u * u + 1 :=
    Real.sq_sqrt (by nlinarith [mul_self_nonneg u])
  simp only [hne, ne_eq, not_false_eq_true, if_true]
  split_ifs with hu
  · rw [abs_of_neg hu]
    linear_combination hs
  · rw [abs_of_nonneg (not_lt.mp hu)]
    linear_combination hs

/-- The tangent computed for the entry `m ≠ 0` between the diagonal entries `a` and `b`
solves `m·t² + (b - a)·t - m = 0`. -/
theorem rotationT_quadratic (a b m : ℝ) (hm : m ≠ 0) :
    m * rotationT Real.sqrt ((b - a) * (1 / 2) / m) ^ 2
      + (b - a) * rotationT Real.sqrt ((b - a) * (1 / 2) / m) - m = 0 := by
  have hroot := rotationT_root ((b - a) * (1 / 2) / m)
  have hu : 2 * ((b - a) * (1 / 2) / m) * m = b - a := by
    field_simp
    ring
  linear_combination m * hroot - rotationT Real.sqrt ((b - a) * (1 / 2) / m) * hu

theorem EigenState.annihilate12_invariant {M : Matrix3D ℝ} {e : EigenState ℝ}
    (h : e.Invariant M) : (e.annihilate12 Real.sqrt).Invariant M := by
  unfold EigenState.annihilate12
  by_cases hm : e.m12 ≠ 0
  · rw [if_pos hm]
    exact EigenState.invariant_step h (rotation12_isOrthogonal _ _ (rotation_unit _))
      (by
        rw [Matrix3D.ext_iff9]
        simp only [Matrix3D.mul, Matrix3D.GetRow, Matrix3D.GetColumn, Dot, rotation12]
        refine ⟨?_, ?_, ?_, ?_, ?_, ?_, ?_, ?_, ?_⟩ <;> ring)
      (conjugate_rotation12 _ _ _ _ _ _ _ _ (rotationC_sq _) (rotationT_quadratic _ _ _ hm))
  · rw [if_neg hm]
    exact h

theorem EigenState.annihilate13_invariant {M : Matrix3D ℝ} {e : EigenState ℝ}
    (h : e.Invariant M) : (e.annihilate13 Real.sqrt).Invariant M := by
  unfold EigenState.annihilate13
  by_cases hm : e.m13 ≠ 0
  · rw [if_pos hm]
    exact EigenState.invariant_step h (rotation13_isOrthogonal _ _ (rotation_unit _))
      (by
        rw [Matrix3D.ext_iff9]
        simp only [Matrix3D.mul, Matrix3D.GetRow, Matrix3D.GetColumn, Dot, rotation13]
        refine ⟨?_, ?_, ?_, ?_, ?_, ?_, ?_, ?_, ?_⟩ <;> ring)
      (conjugate_rotation13 _ _ _ _ _ _ _ _ (rotationC_sq _) (rotationT_quadratic _ _ _ hm))
  · rw [if_neg hm]
    exact h

theorem EigenState.annihilate23_invariant {M : Matrix3D ℝ} {e : EigenState ℝ}
    (h : e.Invariant M) : (e.annihilate23 Real.sqrt).Invariant M := by
  unfold EigenState.annihilate23
  by_cases hm : e.m23 ≠ 0
  · rw [if_pos hm]
    exact EigenState.invariant_step h (rotation23_isOrthogonal _ _ (rotation_unit _))
      (by
        rw [Matrix3D.ext_iff9]
        simp only [Matrix3D.mul, Matrix3D.GetRow, Matrix3D.GetColumn, Dot, rotation23]
        refine ⟨?_, ?_, ?_, ?_, ?_, ?_, ?_, ?_, ?_⟩ <;> ring)
      (conjugate_rotation23 _ _ _ _ _ _ _ _ (rotationC_sq _) (rotationT_quadratic _ _ _ hm))
  · rw [if_neg hm]
    exact h

theorem EigenState.sweep_invariant {M : Matrix3D ℝ} {e : EigenState ℝ}
    (h : e.Invariant M) : (e.sweep Real.sqrt).Invariant M :=
  EigenState.annihilate23_invariant
    (EigenState.annihilate13_invariant (EigenState.annihilate12_invariant h))

/-- The invariant survives any number of loop iterations, with or without the `break`. -/
theorem eigenLoop_invariant {M : Matrix3D ℝ} (n : Nat) :
    ∀ e : EigenState ℝ, e.Invariant M → (eigenLoop Real.sqrt n e).1.Invariant M := by
  induction n with
  | zero => intro e h; exact h
  | succ n ih =>
    intro e h
    unfold eigenLoop
    split_ifs
    · exact h
    · exact ih _ (EigenState.sweep_invariant h)

/-- Leaving through the `break` means the exit test held for the returned state. -/
theorem eigenLoop_converged (n : Nat) :
    ∀ e : EigenState ℝ, (eigenLoop Real.sqrt n e).2 = true →
      (eigenLoop Real.sqrt n e).1.offDiagonalSmall = true := by
  induction n with
  | zero => intro e h; simp [eigenLoop] at h
  | succ n ih =>
    intro e h
    unfold eigenLoop at h ⊢
    split_ifs at h ⊢ with hs
    · exact hs
    · exact ih _ h

/-- The starting state satisfies the invariant when the input is symmetric. -/
theorem EigenState.init_invariant (M : Matrix3D ℝ) (hM : M.IsSymmetric) :
    (EigenState.init M).Invariant M := by
  obtain ⟨h1, h2, h3⟩ := hM
  refine ⟨Matrix3D.identity_isOrthogonal, ?_⟩
  show Matrix3D.identity.transpose.mul (M.mul Matrix3D.identity) = _
  rw [Matrix3D.transpose_identity, Matrix3D.identity_mul, Matrix3D.mul_identity,
    Matrix3D.ext_iff9]
  simp only [EigenState.workingMatrix, EigenState.init, Matrix3D.symmetric]
  exact ⟨trivial, trivial, trivial, h1, trivial, trivial, h2, h3, trivial⟩

/-- The state in which `CalculateEigensystem` leaves its loop satisfies the invariant. -/
theorem eigenFinalState_invariant (M : Matrix3D ℝ) (hM : M.IsSymmetric) :
    (eigenFinalState Real.sqrt M).Invariant M :=
  eigenLoop_invariant maxSweeps _ (EigenState.init_invariant M hM)

end EigenLemmas

/-- Claim C4: for every symmetric 3×3 input, in exact real arithmetic, the matrix `r`
returned by `CalculateEigensystem` is orthogonal (unit, mutually perpendicular rows and
columns); no assumption is made on how the loop was left, so this holds whether or not
it converged within the 32 sweeps. -/
theorem CalculateEigensystem_r_orthogonal (m : Matrix3D ℝ) (hm : m.IsSymmetric) :
    (CalculateEigensystem Real.sqrt m).r.IsOrthogonal := by
  have hinit : (EigenState.init m).Invariant m := EigenState.init_invariant m hm
  have hloop := eigenLoop_invariant maxSweeps (EigenState.init m) hinit
  exact hloop.1

/-- Witness for C4: a symmetric matrix with a non-zero off-diagonal entry. -/
theorem CalculateEigensystem_r_orthogonal_witness :
    (CalculateEigensystem Real.sqrt ⟨2, 1, 0, 1, 2, 0, 0, 0, 3⟩).r.IsOrthogonal :=
  CalculateEigensystem_r_orthogonal ⟨2, 1, 0, 1, 2, 0, 0, 0, 3⟩ ⟨rfl, rfl, rfl⟩

/-- Claim C5: for every symmetric 3×3 matrix `M`, in exact real arithmetic, the outputs of
`CalculateEigensystem` satisfy `rᵀ·M·r = A`, where `A` is the symmetric matrix with
diagonal `lambda` and off-diagonal entries the final working values `m12`, `m13`, `m23`;
when the loop is left through its convergence test the off-diagonal entries of
`rᵀ·M·r` have magnitude below `1e-10` and `lambda` is its diagonal. -/
theorem CalculateEigensystem_similarity (M : Matrix3D ℝ) (hM : M.IsSymmetric) :
    (CalculateEigensystem Real.sqrt M).r.transpose.mul
        (M.mul (CalculateEigensystem Real.sqrt M).r)
      = Matrix3D.symmetric (CalculateEigensystem Real.sqrt M).lambda0
          (CalculateEigensystem Real.sqrt M).lambda1 (CalculateEigensystem Real.sqrt M).lambda2
          (eigenFinalState Real.sqrt M).m12 (eigenFinalState Real.sqrt M).m13
          (eigenFinalState Real.sqrt M).m23 ∧
    (eigenConverged Real.sqrt M = true →
      |((CalculateEigensystem Real.sqrt M).r.transpose.mul
          (M.mul (CalculateEigensystem Real.sqrt M).r)).m01| < epsilon ∧
      |((CalculateEigensystem Real.sqrt M).r.transpose.mul
          (M.mul (CalculateEigensystem Real.sqrt M).r)).m02| < epsilon ∧
      |((CalculateEigensystem Real.sqrt M).r.transpose.mul
          (M.mul (CalculateEigensystem Real.sqrt M).r)).m12| < epsilon ∧
      |((CalculateEigensystem Real.sqrt M).r.transpose.mul
          (M.mul (CalculateEigensystem Real.sqrt M).r)).m10| < epsilon ∧
      |((CalculateEigensystem Real.sqrt M).r.transpose.mul
          (M.mul (CalculateEigensystem Real.sqrt M).r)).m20| < epsilon ∧
      |((CalculateEigensystem Real.sqrt M).r.transpose.mul
          (M.mul (CalculateEigensystem Real.sqrt M).r)).m21| < epsilon ∧
      ((CalculateEigensystem Real.sqrt M).r.transpose.mul
          (M.mul (CalculateEigensystem Real.sqrt M).r)).m00
        = (CalculateEigensystem Real.sqrt M).lambda0 ∧
      ((CalculateEigensystem Real.sqrt M).r.transpose.mul
          (M.mul (CalculateEigensystem Real.sqrt M).r)).m11
        = (CalculateEigensystem Real.sqrt M).lambda1 ∧
      ((CalculateEigensystem Real.sqrt M).r.transpose.mul
          (M.mul (CalculateEigensystem Real.sqrt M).r)).m22
        = (CalculateEigensystem Real.sqrt M).lambda2) := by
  have hinv : (CalculateEigensystem Real.sqrt M).r.transpose.mul
        (M.mul (CalculateEigensystem Real.sqrt M).r)
      = Matrix3D.symmetric (CalculateEigensystem Real.sqrt M).lambda0
          (CalculateEigensystem Real.sqrt M).lambda1 (CalculateEigensystem Real.sqrt M).lambda2
          (eigenFinalState Real.sqrt M).m12 (eigenFinalState Real.sqrt M).m13
          (eigenFinalState Real.sqrt M).m23 := (eigenFinalState_invariant M hM).2
  refine ⟨hinv, ?_⟩
  intro hconv
  have hsmall : (eigenFinalState Real.sqrt M).offDiagonalSmall = true :=
    eigenLoop_converged maxSweeps _ hconv
  simp only [EigenState.offDiagonalSmall, Bool.and_eq_true, decide_eq_true_eq] at hsmall
  rw [hinv]
  exact ⟨hsmall.1.1, hsmall.1.2, hsmall.2, hsmall.1.1, hsmall.1.2, hsmall.2, rfl, rfl, rfl⟩

/-- The loop converges on a sample matrix: one sweep clears the only off-diagonal entry,
and the following exit test succeeds. -/
theorem eigenConverged_sample :
    eigenConverged Real.sqrt ⟨2, 1, 0, 1, 2, 0, 0, 0, 3⟩ = true := by
  have h32 : maxSweeps = 30 + 1 + 1 := rfl
  have e0 : (EigenState.init (⟨2, 1, 0, 1, 2, 0, 0, 0, 3⟩ : Matrix3D ℝ)).offDiagonalSmall
      = false := by
    simp [EigenState.init, EigenState.offDiagonalSmall, epsilon]
    norm_num
  have e1 : ((EigenState.init (⟨2, 1, 0, 1, 2, 0, 0, 0, 3⟩ : Matrix3D ℝ)).sweep
      Real.sqrt).offDiagonalSmall = true := by
    simp [EigenState.init, EigenState.offDiagonalSmall, epsilon, EigenState.sweep,
      EigenState.annihilate12, EigenState.annihilate13, EigenState.annihilate23]
  unfold eigenConverged
  rw [h32, eigenLoop, e0]
  simp only [Bool.false_eq_true, if_false]
  rw [eigenLoop, e1]
  simp

/-- Witness for C5: a symmetric matrix with a non-zero off-diagonal entry, on which the
loop is left through the convergence test. -/
theorem CalculateEigensystem_similarity_witness :
    (CalculateEigensystem Real.sqrt ⟨2, 1, 0, 1, 2, 0, 0, 0, 3⟩).r.transpose.mul
        ((⟨2, 1, 0, 1, 2, 0, 0, 0, 3⟩ : Matrix3D ℝ).mul
          (CalculateEigensystem Real.sqrt ⟨2, 1, 0, 1, 2, 0, 0, 0, 3⟩).r)
      = Matrix3D.symmetric (CalculateEigensystem Real.sqrt ⟨2, 1, 0, 1, 2, 0, 0, 0, 3⟩).lambda0
          (CalculateEigensystem Real.sqrt ⟨2, 1, 0, 1, 2, 0, 0, 0, 3⟩).lambda1
          (CalculateEigensystem Real.sqrt ⟨2, 1, 0, 1, 2, 0, 0, 0, 3⟩).lambda2
          (eigenFinalState Real.sqrt ⟨2, 1, 0, 1, 2, 0, 0, 0, 3⟩).m12
          (eigenFinalState Real.sqrt ⟨2, 1, 0, 1, 2, 0, 0, 0, 3⟩).m13
          (eigenFinalState Real.sqrt ⟨2, 1, 0, 1, 2, 0, 0, 0, 3⟩).m23 ∧
    |((CalculateEigensystem Real.sqrt ⟨2, 1, 0, 1, 2, 0, 0, 0, 3⟩).r.transpose.mul
        ((⟨2, 1, 0, 1, 2, 0, 0, 0, 3⟩ : Matrix3D ℝ).mul
          (CalculateEigensystem Real.sqrt ⟨2, 1, 0, 1, 2, 0, 0, 0, 3⟩).r)).m01| < epsilon :=
  ⟨(CalculateEigensystem_similarity ⟨2, 1, 0, 1, 2, 0, 0, 0, 3⟩ ⟨rfl, rfl, rfl⟩).1,
   ((CalculateEigensystem_similarity ⟨2, 1, 0, 1, 2, 0, 0, 0, 3⟩ ⟨rfl, rfl, rfl⟩).2
      eigenConverged_sample).1⟩

/-! ## The oriented box bounds the vertices -/

section BoxLemmas

theorem Dot_comm {F : Type} [LinearOrderedField F] (a b : Vector3D F) : Dot a b = Dot b a := by
  unfold Dot
  ring

/-- The matrix handed to the eigen solver is symmetric by construction. -/
theorem covarianceMatrix_isSymmetric {F : Type} [LinearOrderedField F]
    (position : List (Point3D F)) : (covarianceMatrix position).IsSymmetric :=
  ⟨rfl, rfl, rfl⟩

/-- Normalising a vector of unit length returns it unchanged. -/
theorem Normalize_unit (a : Vector3D ℝ) (h : Dot a a = 1) : a.Normalize Real.sqrt = a := by
  have hm : Magnitude Real.sqrt a = 1 := by
    unfold Magnitude
    have : SquaredMag a = 1 := h
    rw [this, Real.sqrt_one]
  unfold Vector3D.Normalize
  rw [hm, Vector3D.ext_iff3]
  simp

/-- In exact real arithmetic the three directions before the sort are orthonormal. -/
theorem principalDirections_orthonormal (position : List (Point3D ℝ)) :
    Orthonormal3 (principalDirections Real.sqrt position).1
      (principalDirections Real.sqrt position).2.1
      (principalDirections Real.sqrt position).2.2 := by
  have hr := ((eigenFinalState_invariant (covarianceMatrix position)
    (covarianceMatrix_isSymmetric position)).1).1
  have h00 := hr 0 0
  have h11 := hr 1 1
  have h22 := hr 2 2
  have h01 := hr 0 1
  have h02 := hr 0 2
  have h12 := hr 1 2
  simp only [Fin.isValue, if_true] at h00 h11 h22
  have n01 : ((0 : Fin 3) = 1) = False := by decide
  have n02 : ((0 : Fin 3) = 2) = False := by decide
  have n12 : ((1 : Fin 3) = 2) = False := by decide
  simp only [n01, if_false] at h01
  simp only [n02, if_false] at h02
  simp only [n12, if_false] at h12
  unfold principalDirections CalculateEigensystem
  simp only
  rw [Normalize_unit _ h00, Normalize_unit _ h11, Normalize_unit _ h22]
  exact ⟨h00, h11, h22, h01, h02, h12⟩

/-- Dot product of `v - center` with a direction `x`, for the centre built by the loop
`center += t_i * d_i`. -/
theorem Dot_sub_center {F : Type} [LinearOrderedField F] (v d0 d1 d2 x : Vector3D F)
    (t0 t1 t2 : F) :
    Dot (v - ((((⟨0, 0, 0⟩ : Vector3D F) + Vector3D.scale t0 d0) + Vector3D.scale t1 d1)
        + Vector3D.scale t2 d2)) x
      = Dot v x - t0 * Dot d0 x - t1 * Dot d1 x - t2 * Dot d2 x := by
  simp only [Dot, Vector3D.sub_x, Vector3D.sub_y, Vector3D.sub_z, Vector3D.add_x,
    Vector3D.add_y, Vector3D.add_z, Vector3D.scale_x, Vector3D.scale_y, Vector3D.scale_z]
  ring

/-- A value between `lo` and `hi` is within half the spread of the midpoint. -/
theorem abs_sub_mid_le {F : Type} [LinearOrderedField F] (x lo hi : F) (h1 : lo ≤ x)
    (h2 : x ≤ hi) : |x - (hi + lo) * (1 / 2)| ≤ (hi - lo) / 2 := by
  rw [abs_le]
  constructor <;> linarith

/-- Before the sort, every vertex is within half the extent of the centre along each
direction. -/
theorem unsortedComponents_bound (position : List (Point3D ℝ)) (hne : position ≠ [])
    (v : Point3D ℝ) (hv : v ∈ position) (j : Fin 3) :
    |Dot (v - pcaCenter Real.sqrt position)
        ((unsortedComponents Real.sqrt position).get j).vector|
      ≤ ((unsortedComponents Real.sqrt position).get j).size / 2 := by
  obtain ⟨u0, u1, u2, o01, o02, o12⟩ := principalDirections_orthonormal position
  have s0 := dstCalculateMinAndMaxDotProductNx1_spec position
    (principalDirections Real.sqrt position).1 hne
  have s1 := dstCalculateMinAndMaxDotProductNx1_spec position
    (principalDirections Real.sqrt position).2.1 hne
  have s2 := dstCalculateMinAndMaxDotProductNx1_spec position
    (principalDirections Real.sqrt position).2.2 hne
  have o10 := (Dot_comm _ _).trans o01
  have o20 := (Dot_comm _ _).trans o02
  have o21 := (Dot_comm _ _).trans o12
  fin_cases j
  · show |Dot (v - pcaCenter Real.sqrt position) (principalDirections Real.sqrt position).1| ≤ _
    unfold pcaCenter
    simp only [dstCalculateMinAndMaxDotProductNx3]
    rw [Dot_sub_center, u0, o10, o20]
    simp only [mul_one, mul_zero, sub_zero]
    exact abs_sub_mid_le _ _ _ (s0.1.1 v hv) (s0.2.1 v hv)
  · show |Dot (v - pcaCenter Real.sqrt position) (principalDirections Real.sqrt position).2.1|
      ≤ _
    unfold pcaCenter
    simp only [dstCalculateMinAndMaxDotProductNx3]
    rw [Dot_sub_center, u1, o01, o21]
    simp only [mul_one, mul_zero, sub_zero]
    exact abs_sub_mid_le _ _ _ (s1.1.1 v hv) (s1.2.1 v hv)
  · show |Dot (v - pcaCenter Real.sqrt position) (principalDirections Real.sqrt position).2.2|
      ≤ _
    unfold pcaCenter
    simp only [dstCalculateMinAndMaxDotProductNx3]
    rw [Dot_sub_center, u2, o02, o12]
    simp only [mul_one, mul_zero, sub_zero]
    exact abs_sub_mid_le _ _ _ (s2.1.1 v hv) (s2.2.1 v hv)

end BoxLemmas

/-- Claim C8: for a non-empty vertex sequence, in exact real arithmetic, the oriented box
produced by `CalculatePrincipalComponents` bounds every vertex:
`|(v - center)·vector[i]| ≤ size[i]/2` for every vertex `v` and every `i`. -/
theorem CalculatePrincipalComponents_box_bounds_vertices (position : List (Point3D ℝ))
    (hne : position ≠ []) :
    ∀ v ∈ position, ∀ i : Fin 3,
      |Dot (v - (CalculatePrincipalComponents Real.sqrt position).2)
          (((CalculatePrincipalComponents Real.sqrt position).1).get i).vector|
        ≤ (((CalculatePrincipalComponents Real.sqrt position).1).get i).size / 2 := by
  intro v hv i
  obtain ⟨j, hj⟩ := (unsortedComponents Real.sqrt position).sortDecreasing_get i
  unfold CalculatePrincipalComponents
  simp only [hj]
  exact unsortedComponents_bound position hne v hv j

/-- Witness for C8: two vertices over the reals; the vertex `(0, 2, 0)` against the
first returned component. -/
theorem CalculatePrincipalComponents_box_bounds_vertices_witness :
    |Dot ((⟨0, 2, 0⟩ : Point3D ℝ) - (CalculatePrincipalComponents Real.sqrt
          [(⟨0, 0, 0⟩ : Point3D ℝ), ⟨0, 2, 0⟩]).2)
        (((CalculatePrincipalComponents Real.sqrt
          [(⟨0, 0, 0⟩ : Point3D ℝ), ⟨0, 2, 0⟩]).1).get 0).vector|
      ≤ (((CalculatePrincipalComponents Real.sqrt
          [(⟨0, 0, 0⟩ : Point3D ℝ), ⟨0, 2, 0⟩]).1).get 0).size / 2 :=
  CalculatePrincipalComponents_box_bounds_vertices [⟨0, 0, 0⟩, ⟨0, 2, 0⟩]
    (List.cons_ne_nil _ _) ⟨0, 2, 0⟩ (by simp) 0

/-! ## The integer quotient `1 / nu_vertices` -/

section IntegerQuotient

variable {F : Type} [LinearOrderedField F]

/-- The quotient of the integers `1` and `n` is zero unless `n = 1`. -/
theorem inverseCount_of_ne_one (n : Nat) (h : n ≠ 1) : (inverseCount n : F) = 0 := by
  unfold inverseCount
  have hq : 1 / n = 0 := by
    rcases Nat.lt_or_ge n 2 with h2 | h2
    · have h0 : n = 0 := by omega
      rw [h0, Nat.div_zero]
    · exact Nat.div_eq_of_lt (by omega)
  rw [hq, Nat.cast_zero]

/-- All six entries handed to the eigen solver vanish, for every vertex array. -/
theorem covarianceEntries_eq_zero (position : List (Point3D F)) :
    covarianceEntries position = ⟨0, 0, 0, 0, 0, 0⟩ := by
  by_cases h : position.length = 1
  · obtain ⟨p, rfl⟩ := List.length_eq_one.mp h
    simp [covarianceEntries, averagePosition, inverseCount, sumPositions,
      Covariance.accumulate, sqrf]
  · unfold covarianceEntries
    simp only [inverseCount_of_ne_one _ h, mul_zero]

theorem covarianceMatrix_eq_zero (position : List (Point3D F)) :
    covarianceMatrix position = ⟨0, 0, 0, 0, 0, 0, 0, 0, 0⟩ := by
  unfold covarianceMatrix
  rw [covarianceEntries_eq_zero]

/-- When the exit test holds at once, the loop returns its starting state. -/
theorem eigenLoop_of_small (sqrtf : F → F) (n : Nat) (e : EigenState F)
    (h : e.offDiagonalSmall = true) : eigenLoop sqrtf (n + 1) e = (e, true) := by
  rw [eigenLoop, if_pos h]

end IntegerQuotient

section CubeLemmas

/-- With the zero matrix as input the directions before the sort are the coordinate
unit vectors, in exact real arithmetic. -/
theorem principalDirections_eq (position : List (Point3D ℝ)) :
    principalDirections Real.sqrt position = (⟨1, 0, 0⟩, ⟨0, 1, 0⟩, ⟨0, 0, 1⟩) := by
  have hsmall : (EigenState.init (⟨0, 0, 0, 0, 0, 0, 0, 0, 0⟩ : Matrix3D ℝ)).offDiagonalSmall
      = true := by
    simp [EigenState.init, EigenState.offDiagonalSmall, epsilon]
  have hfinal : eigenFinalState Real.sqrt (⟨0, 0, 0, 0, 0, 0, 0, 0, 0⟩ : Matrix3D ℝ)
      = EigenState.init ⟨0, 0, 0, 0, 0, 0, 0, 0, 0⟩ := by
    unfold eigenFinalState
    rw [show maxSweeps = 31 + 1 from rfl, eigenLoop_of_small Real.sqrt 31 _ hsmall]
  unfold principalDirections CalculateEigensystem
  simp only [covarianceMatrix_eq_zero, hfinal]
  have hx : (⟨1, 0, 0⟩ : Vector3D ℝ).Normalize Real.sqrt = ⟨1, 0, 0⟩ :=
    Normalize_unit _ (by simp [Dot])
  have hy : (⟨0, 1, 0⟩ : Vector3D ℝ).Normalize Real.sqrt = ⟨0, 1, 0⟩ :=
    Normalize_unit _ (by simp [Dot])
  have hz : (⟨0, 0, 1⟩ : Vector3D ℝ).Normalize Real.sqrt = ⟨0, 0, 1⟩ :=
    Normalize_unit _ (by simp [Dot])
  simp only [EigenState.init, Matrix3D.identity, Matrix3D.GetRow, hx, hy, hz]

/-- Least and greatest coordinates of any list with the same members as the cube. -/
theorem cube_extremes (vertex : List (Point3D ℝ))
    (hmem : ∀ v, v ∈ vertex ↔ v ∈ (cubeVertices : List (Point3D ℝ))) :
    (∀ v ∈ vertex, (-1 ≤ v.x ∧ v.x ≤ 1) ∧ (-1 ≤ v.y ∧ v.y ≤ 1) ∧ (-1 ≤ v.z ∧ v.z ≤ 1)) ∧
    (⟨-1, -1, -1⟩ : Point3D ℝ) ∈ vertex ∧ (⟨1, 1, 1⟩ : Point3D ℝ) ∈ vertex := by
  refine ⟨?_, ?_, ?_⟩
  · intro v hv
    have hc := (hmem v).mp hv
    simp only [cubeVertices, List.mem_cons, List.mem_singleton, List.not_mem_nil,
      or_false] at hc
    rcases hc with rfl | rfl | rfl | rfl | rfl | rfl | rfl | rfl <;> norm_num
  · exact (hmem _).mpr (by simp [cubeVertices])
  · exact (hmem _).mpr (by simp [cubeVertices])

end CubeLemmas

/-- Claim C9: for the eight vertices `(±1, ±1, ±1)` in any order,
`CalculatePrincipalComponents` returns the sizes `(2, 2, 2)` and the centre `(0, 0, 0)`,
and `CalculateAABB` returns `dim_min = (-1, -1, -1)` and `dim_max = (1, 1, 1)`. -/
theorem cube_principal_components_and_AABB (vertex : List (Point3D ℝ))
    (hperm : vertex.Perm cubeVertices) :
    (CalculatePrincipalComponents Real.sqrt vertex).1.c0.size = 2 ∧
    (CalculatePrincipalComponents Real.sqrt vertex).1.c1.size = 2 ∧
    (CalculatePrincipalComponents Real.sqrt vertex).1.c2.size = 2 ∧
    (CalculatePrincipalComponents Real.sqrt vertex).2 = ⟨0, 0, 0⟩ ∧
    CalculateAABB vertex
      = ⟨⟨.fin (-1), .fin (-1), .fin (-1)⟩, ⟨.fin 1, .fin 1, .fin 1⟩⟩ := by
  have hmem : ∀ v, v ∈ vertex ↔ v ∈ (cubeVertices : List (Point3D ℝ)) :=
    fun v => hperm.mem_iff
  obtain ⟨hb, hlo, hhi⟩ := cube_extremes vertex hmem
  have hne : vertex ≠ [] := List.ne_nil_of_mem hlo
  have hx : dstCalculateMinAndMaxDotProductNx1 vertex ⟨1, 0, 0⟩ = ((-1 : ℝ), (1 : ℝ)) := by
    have hs := dstCalculateMinAndMaxDotProductNx1_spec vertex ⟨1, 0, 0⟩ hne
    exact Prod.ext
      (IsMinDot_unique hs.1 ⟨fun v hv => by simpa [Dot] using (hb v hv).1.1, _, hlo, by simp [Dot]⟩)
      (IsMaxDot_unique hs.2 ⟨fun v hv => by simpa [Dot] using (hb v hv).1.2, _, hhi, by simp [Dot]⟩)
  have hy : dstCalculateMinAndMaxDotProductNx1 vertex ⟨0, 1, 0⟩ = ((-1 : ℝ), (1 : ℝ)) := by
    have hs := dstCalculateMinAndMaxDotProductNx1_spec vertex ⟨0, 1, 0⟩ hne
    exact Prod.ext
      (IsMinDot_unique hs.1 ⟨fun v hv => by simpa [Dot] using (hb v hv).2.1.1, _, hlo, by simp [Dot]⟩)
      (IsMaxDot_unique hs.2 ⟨fun v hv => by simpa [Dot] using (hb v hv).2.1.2, _, hhi, by simp [Dot]⟩)
  have hz : dstCalculateMinAndMaxDotProductNx1 vertex ⟨0, 0, 1⟩ = ((-1 : ℝ), (1 : ℝ)) := by
    have hs := dstCalculateMinAndMaxDotProductNx1_spec vertex ⟨0, 0, 1⟩ hne
    exact Prod.ext
      (IsMinDot_unique hs.1 ⟨fun v hv => by simpa [Dot] using (hb v hv).2.2.1, _, hlo, by simp [Dot]⟩)
      (IsMaxDot_unique hs.2 ⟨fun v hv => by simpa [Dot] using (hb v hv).2.2.2, _, hhi, by simp [Dot]⟩)
  have hu : unsortedComponents Real.sqrt vertex
      = ⟨⟨⟨1, 0, 0⟩, 2⟩, ⟨⟨0, 1, 0⟩, 2⟩, ⟨⟨0, 0, 1⟩, 2⟩⟩ := by
    unfold unsortedComponents
    simp only [principalDirections_eq, dstCalculateMinAndMaxDotProductNx3, hx, hy, hz]
    norm_num
  have hcenter : pcaCenter Real.sqrt vertex = ⟨0, 0, 0⟩ := by
    unfold pcaCenter
    simp only [principalDirections_eq, dstCalculateMinAndMaxDotProductNx3, hx, hy, hz]
    rw [Vector3D.ext_iff3]
    simp
  have hsort : (unsortedComponents Real.sqrt vertex).sortDecreasing
      = ⟨⟨⟨1, 0, 0⟩, 2⟩, ⟨⟨0, 1, 0⟩, 2⟩, ⟨⟨0, 0, 1⟩, 2⟩⟩ := by
    rw [hu]
    simp [PCAArray.sortDecreasing, PCAArray.swap01, PCAArray.swap12]
  obtain ⟨lo, hi, e, hmin, hmax⟩ := CalculateAABB_spec vertex hne
  have hlo_eq : lo = ⟨-1, -1, -1⟩ :=
    IsComponentwiseMin_unique hmin ⟨fun v hv => ⟨(hb v hv).1.1, (hb v hv).2.1.1, (hb v hv).2.2.1⟩,
      ⟨_, hlo, rfl⟩, ⟨_, hlo, rfl⟩, ⟨_, hlo, rfl⟩⟩
  have hhi_eq : hi = ⟨1, 1, 1⟩ :=
    IsComponentwiseMax_unique hmax ⟨fun v hv => ⟨(hb v hv).1.2, (hb v hv).2.1.2, (hb v hv).2.2.2⟩,
      ⟨_, hhi, rfl⟩, ⟨_, hhi, rfl⟩, ⟨_, hhi, rfl⟩⟩
  refine ⟨?_, ?_, ?_, hcenter, ?_⟩
  · show (unsortedComponents Real.sqrt vertex).sortDecreasing.c0.size = 2
    rw [hsort]
  · show (unsortedComponents Real.sqrt vertex).sortDecreasing.c1.size = 2
    rw [hsort]
  · show (unsortedComponents Real.sqrt vertex).sortDecreasing.c2.size = 2
    rw [hsort]
  · rw [e, hlo_eq, hhi_eq]
    rfl

/-- Witness for C9: the corners listed in reverse order. -/
theorem cube_principal_components_and_AABB_witness :
    (CalculatePrincipalComponents Real.sqrt (cubeVertices : List (Point3D ℝ)).reverse).1.c0.size
      = 2 ∧
    (CalculatePrincipalComponents Real.sqrt (cubeVertices : List (Point3D ℝ)).reverse).1.c1.size
      = 2 ∧
    (CalculatePrincipalComponents Real.sqrt (cubeVertices : List (Point3D ℝ)).reverse).1.c2.size
      = 2 ∧
    (CalculatePrincipalComponents Real.sqrt (cubeVertices : List (Point3D ℝ)).reverse).2
      = ⟨0, 0, 0⟩ ∧
    CalculateAABB (cubeVertices : List (Point3D ℝ)).reverse
      = ⟨⟨.fin (-1), .fin (-1), .fin (-1)⟩, ⟨.fin 1, .fin 1, .fin 1⟩⟩ :=
  cube_principal_components_and_AABB _ (List.reverse_perm _)

/-- Claim C6, evaluated on the two vertices `(0,0,0)` and `(2,0,0)`: the program's point
`m` is `(0,0,0)` and its entry `C11` is `0`, while the mean is `(1,0,0)` and the
covariance entry for `x`, `x` is `1`; the factor `1 / nu_vertices` is an integer quotient,
which is `0` for two vertices. -/
theorem covariance_integer_quotient_mismatch :
    averagePosition [(⟨0, 0, 0⟩ : Point3D ℝ), ⟨2, 0, 0⟩] = ⟨0, 0, 0⟩ ∧
    meanPosition [(⟨0, 0, 0⟩ : Point3D ℝ), ⟨2, 0, 0⟩] = ⟨1, 0, 0⟩ ∧
    (covarianceMatrix [(⟨0, 0, 0⟩ : Point3D ℝ), ⟨2, 0, 0⟩]).m00 = 0 ∧
    covarianceEntry [(⟨0, 0, 0⟩ : Point3D ℝ), ⟨2, 0, 0⟩] (fun p => p.x) (fun p => p.x) = 1 := by
  have hmean : meanPosition [(⟨0, 0, 0⟩ : Point3D ℝ), ⟨2, 0, 0⟩] = ⟨1, 0, 0⟩ := by
    rw [Vector3D.ext_iff3]
    norm_num [meanPosition, sumPositions]
  refine ⟨?_, hmean, ?_, ?_⟩
  · rw [Vector3D.ext_iff3]
    norm_num [averagePosition, inverseCount, sumPositions]
  · rw [covarianceMatrix_eq_zero]
  · unfold covarianceEntry
    simp only [hmean]
    norm_num

/-! ## Exactness of the box and sphere tests -/

section IntersectionLemmas

variable {F : Type} [LinearOrderedField F]

/-- The box test is true exactly when no separating comparison holds. -/
theorem Intersects_AABB_AABB_true_iff (A B : sreBoundingVolumeAABB F) :
    Intersects_AABB_AABB A B = true ↔
      (A.dim_min.x < B.dim_max.x ∧ B.dim_min.x < A.dim_max.x) ∧
      (A.dim_min.y < B.dim_max.y ∧ B.dim_min.y < A.dim_max.y) ∧
      (A.dim_min.z < B.dim_max.z ∧ B.dim_min.z < A.dim_max.z) := by
  unfold Intersects_AABB_AABB
  split_ifs with h
  · simp only [Bool.false_eq_true, false_iff]
    intro hc
    rcases h with h | h | h | h | h | h
    · exact absurd hc.1.1 (not_lt.mpr h)
    · exact absurd hc.1.2 (not_lt.mpr h)
    · exact absurd hc.2.1.1 (not_lt.mpr h)
    · exact absurd hc.2.1.2 (not_lt.mpr h)
    · exact absurd hc.2.2.1 (not_lt.mpr h)
    · exact absurd hc.2.2.2 (not_lt.mpr h)
  · simp only [not_or, ge_iff_le, not_le] at h
    simp only [true_iff]
    exact ⟨⟨h.1, h.2.1⟩, ⟨h.2.2.1, h.2.2.2.1⟩, ⟨h.2.2.2.2.1, h.2.2.2.2.2⟩⟩

/-- The point-in-box test is true exactly when the point lies between the corners. -/
theorem Intersects_Point_AABB_true_iff (P : Point3D F) (A : sreBoundingVolumeAABB F) :
    Intersects_Point_AABB P A = true ↔
      (A.dim_min.x ≤ P.x ∧ P.x ≤ A.dim_max.x) ∧ (A.dim_min.y ≤ P.y ∧ P.y ≤ A.dim_max.y) ∧
      (A.dim_min.z ≤ P.z ∧ P.z ≤ A.dim_max.z) := by
  unfold Intersects_Point_AABB
  simp only [Bool.and_eq_true, decide_eq_true_eq, ge_iff_le]
  tauto

end IntersectionLemmas

/-- Claim C12: `Intersects(A, B)` for two AABBs is true if and only if on each axis
`A.dim_min < B.dim_max` and `B.dim_min < A.dim_max`; it is false when the boxes are
disjoint along some axis, as for `[0,1]³` and `[2,3]×[0,1]×[0,1]`; and it is symmetric. -/
theorem Intersects_AABB_AABB_exact_symmetric {F : Type} [LinearOrderedField F]
    (A B : sreBoundingVolumeAABB F) :
    (Intersects_AABB_AABB A B = true ↔
      (A.dim_min.x < B.dim_max.x ∧ B.dim_min.x < A.dim_max.x) ∧
      (A.dim_min.y < B.dim_max.y ∧ B.dim_min.y < A.dim_max.y) ∧
      (A.dim_min.z < B.dim_max.z ∧ B.dim_min.z < A.dim_max.z)) ∧
    ((A.dim_max.x < B.dim_min.x ∨ B.dim_max.x < A.dim_min.x ∨
      A.dim_max.y < B.dim_min.y ∨ B.dim_max.y < A.dim_min.y ∨
      A.dim_max.z < B.dim_min.z ∨ B.dim_max.z < A.dim_min.z) →
        Intersects_AABB_AABB A B = false) ∧
    Intersects_AABB_AABB (⟨⟨0, 0, 0⟩, ⟨1, 1, 1⟩⟩ : sreBoundingVolumeAABB F)
      ⟨⟨2, 0, 0⟩, ⟨3, 1, 1⟩⟩ = false ∧
    Intersects_AABB_AABB A B = Intersects_AABB_AABB B A := by
  refine ⟨Intersects_AABB_AABB_true_iff A B, ?_, ?_, ?_⟩
  · intro hsep
    rw [← Bool.not_eq_true, Intersects_AABB_AABB_true_iff]
    intro hc
    rcases hsep with h | h | h | h | h | h
    · exact lt_asymm h hc.1.2
    · exact lt_asymm h hc.1.1
    · exact lt_asymm h hc.2.1.2
    · exact lt_asymm h hc.2.1.1
    · exact lt_asymm h hc.2.2.2
    · exact lt_asymm h hc.2.2.1
  · rw [← Bool.not_eq_true, Intersects_AABB_AABB_true_iff]
    intro hc
    have h21 : (2 : F) < 1 := hc.1.2
    norm_num at h21
  · rw [Bool.eq_iff_iff, Intersects_AABB_AABB_true_iff, Intersects_AABB_AABB_true_iff]
    tauto

/-- Counterexample to C13 as stated: the boxes `[0,1]³` and `[1,2]×[0,1]×[0,1]` have
`dim_min ≤ dim_max` (every coordinate range is `0 ≤ 1` or `1 ≤ 2`), share the point
`(1, 0, 0)` under the point test, and yet the box test is false. -/
theorem touching_boxes_share_point_without_intersecting :
    ((0 : ℚ) ≤ 1 ∧ (1 : ℚ) ≤ 2) ∧
    ¬ (Intersects_AABB_AABB (⟨⟨0, 0, 0⟩, ⟨1, 1, 1⟩⟩ : sreBoundingVolumeAABB ℚ)
          ⟨⟨1, 0, 0⟩, ⟨2, 1, 1⟩⟩ = true ↔
        ∃ P : Point3D ℚ,
          Intersects_Point_AABB P ⟨⟨0, 0, 0⟩, ⟨1, 1, 1⟩⟩ = true ∧
          Intersects_Point_AABB P ⟨⟨1, 0, 0⟩, ⟨2, 1, 1⟩⟩ = true) := by
  refine ⟨by norm_num, ?_⟩
  intro h
  have hpt : ∃ P : Point3D ℚ,
      Intersects_Point_AABB P ⟨⟨0, 0, 0⟩, ⟨1, 1, 1⟩⟩ = true ∧
      Intersects_Point_AABB P ⟨⟨1, 0, 0⟩, ⟨2, 1, 1⟩⟩ = true := by
    refine ⟨⟨1, 0, 0⟩, ?_, ?_⟩
    · rw [Intersects_Point_AABB_true_iff]
      norm_num
    · rw [Intersects_Point_AABB_true_iff]
      norm_num
  have hbox := h.mpr hpt
  rw [Intersects_AABB_AABB_true_iff] at hbox
  have h11 : (1 : ℚ) < 1 := hbox.1.2
  exact lt_irrefl _ h11

/-- Claim C13, amended: for AABBs `A`, `B` with `dim_min ≤ dim_max`, a true
`Intersects(A, B)` gives a point `P` with `Intersects(P, A)` and `Intersects(P, B)` both
true; conversely a point strictly inside `A` for which `Intersects(P, B)` is true makes
`Intersects(A, B)` true. -/
theorem Intersects_AABB_AABB_versus_point {F : Type} [LinearOrderedField F]
    (A B : sreBoundingVolumeAABB F)
    (hA : A.dim_min.x ≤ A.dim_max.x ∧ A.dim_min.y ≤ A.dim_max.y ∧ A.dim_min.z ≤ A.dim_max.z)
    (hB : B.dim_min.x ≤ B.dim_max.x ∧ B.dim_min.y ≤ B.dim_max.y ∧ B.dim_min.z ≤ B.dim_max.z) :
    (Intersects_AABB_AABB A B = true →
      ∃ P : Point3D F, Intersects_Point_AABB P A = true ∧ Intersects_Point_AABB P B = true) ∧
    (∀ P : Point3D F,
      (A.dim_min.x < P.x ∧ P.x < A.dim_max.x) ∧ (A.dim_min.y < P.y ∧ P.y < A.dim_max.y) ∧
        (A.dim_min.z < P.z ∧ P.z < A.dim_max.z) →
      Intersects_Point_AABB P B = true → Intersects_AABB_AABB A B = true) := by
  refine ⟨?_, ?_⟩
  · intro h
    rw [Intersects_AABB_AABB_true_iff] at h
    obtain ⟨⟨hx1, hx2⟩, ⟨hy1, hy2⟩, ⟨hz1, hz2⟩⟩ := h
    refine ⟨⟨max A.dim_min.x B.dim_min.x, max A.dim_min.y B.dim_min.y,
      max A.dim_min.z B.dim_min.z⟩, ?_, ?_⟩
    · rw [Intersects_Point_AABB_true_iff]
      exact ⟨⟨le_max_left _ _, max_le hA.1 hx2.le⟩, ⟨le_max_left _ _, max_le hA.2.1 hy2.le⟩,
        ⟨le_max_left _ _, max_le hA.2.2 hz2.le⟩⟩
    · rw [Intersects_Point_AABB_true_iff]
      exact ⟨⟨le_max_right _ _, max_le hx1.le hB.1⟩, ⟨le_max_right _ _, max_le hy1.le hB.2.1⟩,
        ⟨le_max_right _ _, max_le hz1.le hB.2.2⟩⟩
  · intro P hin hPB
    rw [Intersects_Point_AABB_true_iff] at hPB
    rw [Intersects_AABB_AABB_true_iff]
    obtain ⟨⟨ax1, ax2⟩, ⟨ay1, ay2⟩, ⟨az1, az2⟩⟩ := hin
    obtain ⟨⟨bx1, bx2⟩, ⟨by1, by2⟩, ⟨bz1, bz2⟩⟩ := hPB
    exact ⟨⟨lt_of_lt_of_le ax1 bx2, lt_of_le_of_lt bx1 ax2⟩,
      ⟨lt_of_lt_of_le ay1 by2, lt_of_le_of_lt by1 ay2⟩,
      ⟨lt_of_lt_of_le az1 bz2, lt_of_le_of_lt bz1 az2⟩⟩

/-- Witness for C13: the overlapping boxes `[0,2]³` and `[1,3]³` share a point, and the
point `(1, 1, 1)`, strictly inside the first and inside the second, makes the test true. -/
theorem Intersects_AABB_AABB_versus_point_witness :
    (∃ P : Point3D ℚ,
      Intersects_Point_AABB P ⟨⟨0, 0, 0⟩, ⟨2, 2, 2⟩⟩ = true ∧
      Intersects_Point_AABB P ⟨⟨1, 1, 1⟩, ⟨3, 3, 3⟩⟩ = true) ∧
    Intersects_AABB_AABB (⟨⟨0, 0, 0⟩, ⟨2, 2, 2⟩⟩ : sreBoundingVolumeAABB ℚ)
      ⟨⟨1, 1, 1⟩, ⟨3, 3, 3⟩⟩ = true :=
  have hA : ((0 : ℚ) ≤ 2 ∧ (0 : ℚ) ≤ 2 ∧ (0 : ℚ) ≤ 2) := by norm_num
  have hB : ((1 : ℚ) ≤ 3 ∧ (1 : ℚ) ≤ 3 ∧ (1 : ℚ) ≤ 3) := by norm_num
  have hbox : Intersects_AABB_AABB (⟨⟨0, 0, 0⟩, ⟨2, 2, 2⟩⟩ : sreBoundingVolumeAABB ℚ)
      ⟨⟨1, 1, 1⟩, ⟨3, 3, 3⟩⟩ = true :=
    (Intersects_AABB_AABB_versus_point ⟨⟨0, 0, 0⟩, ⟨2, 2, 2⟩⟩ ⟨⟨1, 1, 1⟩, ⟨3, 3, 3⟩⟩ hA hB).2
      ⟨1, 1, 1⟩ (by norm_num)
      (by rw [Intersects_Point_AABB_true_iff]; norm_num)
  ⟨(Intersects_AABB_AABB_versus_point ⟨⟨0, 0, 0⟩, ⟨2, 2, 2⟩⟩ ⟨⟨1, 1, 1⟩, ⟨3, 3, 3⟩⟩ hA hB).1
      hbox, hbox⟩

/-- Claim C14: for spheres with radii `≥ 0`, in exact real arithmetic,
`Intersects(s1, s2)` is true if and only if the distance between the centres is strictly
less than `s1.radius + s2.radius`, and `Intersects(P, s1)` is true if and only if
`|P - s1.center| < s1.radius`: the squared comparisons agree with the un-squared ones. -/
theorem Intersects_Sphere_exact (s1 s2 : sreBoundingVolumeSphere ℝ) (P : Point3D ℝ)
    (h1 : 0 ≤ s1.radius) (h2 : 0 ≤ s2.radius) :
    (Intersects_Sphere_Sphere s1 s2 = true ↔
      Magnitude Real.sqrt (s1.center - s2.center) < s1.radius + s2.radius) ∧
    (Intersects_Point_Sphere P s1 = true ↔
      Magnitude Real.sqrt (P - s1.center) < s1.radius) := by
  constructor
  · unfold Intersects_Sphere_Sphere Magnitude sqrf
    rw [Real.sqrt_lt (SquaredMag_nonneg _) (add_nonneg h1 h2), sq]
    simp only
    split_ifs with h
    · simp only [Bool.false_eq_true, false_iff, not_lt]
      exact h
    · simp only [true_iff]
      exact not_le.mp h
  · unfold Intersects_Point_Sphere Magnitude sqrf
    rw [Real.sqrt_lt (SquaredMag_nonneg _) h1, sq]
    split_ifs with h
    · simp only [Bool.false_eq_true, false_iff, not_lt]
      exact h
    · simp only [true_iff]
      exact not_le.mp h

/-- Witness for C14: the unit sphere at the origin, the sphere of radius 2 at `(2, 0, 0)`
and the point `(0, 0, 0)`. -/
theorem Intersects_Sphere_exact_witness :
    (Intersects_Sphere_Sphere (⟨⟨0, 0, 0⟩, 1⟩ : sreBoundingVolumeSphere ℝ) ⟨⟨2, 0, 0⟩, 2⟩ = true ↔
      Magnitude Real.sqrt ((⟨0, 0, 0⟩ : Point3D ℝ) - ⟨2, 0, 0⟩) < 1 + 2) ∧
    (Intersects_Point_Sphere (⟨0, 0, 0⟩ : Point3D ℝ) ⟨⟨0, 0, 0⟩, 1⟩ = true ↔
      Magnitude Real.sqrt ((⟨0, 0, 0⟩ : Point3D ℝ) - ⟨0, 0, 0⟩) < 1) :=
  Intersects_Sphere_exact ⟨⟨0, 0, 0⟩, 1⟩ ⟨⟨2, 0, 0⟩, 2⟩ ⟨0, 0, 0⟩ (by norm_num) (by norm_num)

/-! ## The flag word written by `CalculateBounds` -/

section FlagLemmas

variable {F : Type} [LinearOrderedField F]

/-- The box-or-sphere decision assigns one of the three basic values. -/
theorem basicFlags_cases (sqrtf : F → F) (M_PI : F) (vertex : List (Point3D F)) :
    basicFlags sqrtf M_PI vertex = SRE_BOUNDS_PREFER_SPHERE ∨
    basicFlags sqrtf M_PI vertex = SRE_BOUNDS_PREFER_BOX ∨
    basicFlags sqrtf M_PI vertex = SRE_BOUNDS_PREFER_BOX_LINE_SEGMENT := by
  unfold basicFlags
  split_ifs
  · exact Or.inr (Or.inr rfl)
  · exact Or.inr (Or.inl rfl)
  · exact Or.inl rfl

/-- The three basic bits of the final flag word are the basic value. -/
theorem boundsFlags_basic_bits (sqrtf : F → F) (M_PI : F) (vertex : List (Point3D F)) :
    boundsFlags sqrtf M_PI vertex &&&
        (SRE_BOUNDS_PREFER_SPHERE ||| SRE_BOUNDS_PREFER_BOX ||| SRE_BOUNDS_PREFER_BOX_LINE_SEGMENT)
      = basicFlags sqrtf M_PI vertex := by
  unfold boundsFlags
  rcases basicFlags_cases sqrtf M_PI vertex with h | h | h <;> rw [h] <;>
    simp only <;> split_ifs <;> decide

/-- The special bit of the final flag word is set exactly when a special shape is stored. -/
theorem boundsFlags_special_bit (sqrtf : F → F) (M_PI : F) (vertex : List (Point3D F)) :
    boundsFlags sqrtf M_PI vertex &&& SRE_BOUNDS_PREFER_SPECIAL ≠ 0 ↔
      (specialSelection sqrtf M_PI vertex).isSome = true := by
  unfold boundsFlags
  rcases basicFlags_cases sqrtf M_PI vertex with h | h | h <;> rw [h] <;>
    simp only <;> split_ifs <;>
    first
      | exact iff_of_true (by decide) (by assumption)
      | exact iff_of_false (by decide) (by assumption)

/-- The AABB bit of the final flag word is set exactly when the last test succeeds. -/
theorem boundsFlags_AABB_bit (sqrtf : F → F) (M_PI : F) (vertex : List (Point3D F)) :
    boundsFlags sqrtf M_PI vertex &&& SRE_BOUNDS_PREFER_AABB ≠ 0 ↔
      99 / 100 * AABB_volume (CalculateAABB vertex) ≤ volume_box sqrtf vertex := by
  unfold boundsFlags
  rcases basicFlags_cases sqrtf M_PI vertex with h | h | h <;> rw [h] <;>
    simp only <;> split_ifs <;>
    first
      | exact iff_of_true (by decide) (by assumption)
      | exact iff_of_false (by decide) (by assumption)

end FlagLemmas

/-- Claim C17: `CalculateBounds` chooses the basic shape by smaller volume.  With
`volume_box = size0·size1·size2` and `volume_sphere = (4/3)·π·r³` of the final sphere, the
basic bits of `bounds_flags` hold exactly one value: `PREFER_BOX_LINE_SEGMENT` or
`PREFER_BOX` (according to `size0 ≥ 4·size1`) when `volume_box < volume_sphere`, and
`PREFER_SPHERE` otherwise, equal volumes included. -/
theorem CalculateBounds_basic_shape_by_volume {F : Type} [LinearOrderedField F]
    (sqrtf : F → F) (M_PI : F) (m : sreModel F) :
    (CalculateBounds sqrtf M_PI m).bounds_flags &&&
        (SRE_BOUNDS_PREFER_SPHERE ||| SRE_BOUNDS_PREFER_BOX ||| SRE_BOUNDS_PREFER_BOX_LINE_SEGMENT)
      = (if volume_box sqrtf (m.lod_model.headD [])
            < volume_sphere sqrtf M_PI (m.lod_model.headD []) then
          if (CalculateBounds sqrtf M_PI m).PCA.c0.size
              ≥ 4 * (CalculateBounds sqrtf M_PI m).PCA.c1.size then
            SRE_BOUNDS_PREFER_BOX_LINE_SEGMENT
          else SRE_BOUNDS_PREFER_BOX
        else SRE_BOUNDS_PREFER_SPHERE) ∧
    volume_box sqrtf (m.lod_model.headD [])
      = (CalculateBounds sqrtf M_PI m).PCA.c0.size * (CalculateBounds sqrtf M_PI m).PCA.c1.size
          * (CalculateBounds sqrtf M_PI m).PCA.c2.size ∧
    volume_sphere sqrtf M_PI (m.lod_model.headD [])
      = 4 / 3 * M_PI * (CalculateBounds sqrtf M_PI m).sphere.radius
          * (CalculateBounds sqrtf M_PI m).sphere.radius
          * (CalculateBounds sqrtf M_PI m).sphere.radius := by
  refine ⟨?_, rfl, ?_⟩
  · show boundsFlags sqrtf M_PI (m.lod_model.headD []) &&& _ = _
    rw [boundsFlags_basic_bits]
    rfl
  · show volume_sphere sqrtf M_PI (m.lod_model.headD [])
      = 4 / 3 * M_PI * (boundingSphere sqrtf M_PI (m.lod_model.headD [])).radius
          * (boundingSphere sqrtf M_PI (m.lod_model.headD [])).radius
          * (boundingSphere sqrtf M_PI (m.lod_model.headD [])).radius
    unfold volume_sphere boundingSphere sphereVolume
    split_ifs <;> rfl

/-- Sizes of the components of a single-vertex array: all three are zero. -/
theorem single_vertex_size {F : Type} [LinearOrderedField F] (sqrtf : F → F) (p : Point3D F)
    (i : Fin 3) : (((CalculatePrincipalComponents sqrtf [p]).1).get i).size = 0 := by
  rw [sortedComponents_size]
  simp [dstCalculateMinAndMaxDotProductNx1]

/-- Claim C18: when the smallest extent satisfies `PCA[2].size ≤ EPSILON` (`0.00001`),
`CalculateBounds` fits neither the ellipsoid nor the cylinder, `SRE_BOUNDS_PREFER_SPECIAL`
is not set in the resulting `bounds_flags`, and `bv_special` is left as it was. -/
theorem CalculateBounds_flat_skips_special {F : Type} [LinearOrderedField F]
    (sqrtf : F → F) (M_PI : F) (m : sreModel F)
    (hflat : (CalculateBounds sqrtf M_PI m).PCA.c2.size ≤ EPSILON) :
    fittedEllipsoid sqrtf (m.lod_model.headD []) = none ∧
    fittedCylinder sqrtf (m.lod_model.headD []) = none ∧
    (CalculateBounds sqrtf M_PI m).bounds_flags &&& SRE_BOUNDS_PREFER_SPECIAL = 0 ∧
    (CalculateBounds sqrtf M_PI m).bv_special = m.bv_special := by
  have hnot : ¬ (CalculatePrincipalComponents sqrtf (m.lod_model.headD [])).1.c2.size > EPSILON :=
    not_lt.mpr hflat
  have hsel : specialSelection sqrtf M_PI (m.lod_model.headD []) = none := by
    unfold specialSelection
    rw [if_neg hnot]
  refine ⟨?_, ?_, ?_, ?_⟩
  · unfold fittedEllipsoid
    rw [if_neg hnot]
  · unfold fittedCylinder
    rw [if_neg hnot]
  · show boundsFlags sqrtf M_PI (m.lod_model.headD []) &&& SRE_BOUNDS_PREFER_SPECIAL = 0
    by_contra hset
    have hsome := (boundsFlags_special_bit sqrtf M_PI (m.lod_model.headD [])).mp hset
    rw [hsel] at hsome
    exact Bool.false_ne_true hsome
  · show (match specialSelection sqrtf M_PI (m.lod_model.headD []) with
      | some s => s
      | none => m.bv_special) = m.bv_special
    rw [hsel]

/-- Witness for C18: a model with the single vertex `(1, 2, 3)`. -/
theorem CalculateBounds_flat_skips_special_witness :
    fittedEllipsoid Real.sqrt ((modelOf [(⟨1, 2, 3⟩ : Point3D ℝ)]).lod_model.headD []) = none ∧
    fittedCylinder Real.sqrt ((modelOf [(⟨1, 2, 3⟩ : Point3D ℝ)]).lod_model.headD []) = none ∧
    (CalculateBounds Real.sqrt Real.pi (modelOf [(⟨1, 2, 3⟩ : Point3D ℝ)])).bounds_flags
      &&& SRE_BOUNDS_PREFER_SPECIAL = 0 ∧
    (CalculateBounds Real.sqrt Real.pi (modelOf [(⟨1, 2, 3⟩ : Point3D ℝ)])).bv_special
      = (modelOf [(⟨1, 2, 3⟩ : Point3D ℝ)]).bv_special :=
  CalculateBounds_flat_skips_special Real.sqrt Real.pi (modelOf [⟨1, 2, 3⟩])
    (by
      show (((CalculatePrincipalComponents Real.sqrt [(⟨1, 2, 3⟩ : Point3D ℝ)]).1).get 2).size
        ≤ EPSILON
      rw [single_vertex_size]
      norm_num [EPSILON])

/-- Claim C20: for a non-empty vertex set `CalculateBounds` sets `SRE_BOUNDS_PREFER_AABB`
exactly when `0.99·(dx·dy·dz of the computed AABB) ≤ size0·size1·size2`, the computed
AABB having the componentwise minimum and maximum of the vertices as corners. -/
theorem CalculateBounds_prefer_AABB_iff {F : Type} [LinearOrderedField F]
    (sqrtf : F → F) (M_PI : F) (m : sreModel F) (hne : m.lod_model.headD [] ≠ []) :
    ∃ lo hi : Point3D F,
      (CalculateBounds sqrtf M_PI m).AABB = ⟨lo.toExt, hi.toExt⟩ ∧
      IsComponentwiseMin (m.lod_model.headD []) lo ∧
      IsComponentwiseMax (m.lod_model.headD []) hi ∧
      ((CalculateBounds sqrtf M_PI m).bounds_flags &&& SRE_BOUNDS_PREFER_AABB ≠ 0 ↔
        99 / 100 * ((hi.x - lo.x) * (hi.y - lo.y) * (hi.z - lo.z))
          ≤ (CalculateBounds sqrtf M_PI m).PCA.c0.size
              * (CalculateBounds sqrtf M_PI m).PCA.c1.size
              * (CalculateBounds sqrtf M_PI m).PCA.c2.size) := by
  obtain ⟨lo, hi, e, hlo, hhi⟩ := CalculateAABB_spec (m.lod_model.headD []) hne
  refine ⟨lo, hi, e, hlo, hhi, ?_⟩
  show boundsFlags sqrtf M_PI (m.lod_model.headD []) &&& SRE_BOUNDS_PREFER_AABB ≠ 0 ↔ _
  rw [boundsFlags_AABB_bit, e]
  rfl

/-- Witness for C20: a model with the two vertices `(0, 0, 0)` and `(0, 2, 0)`. -/
theorem CalculateBounds_prefer_AABB_iff_witness :
    ∃ lo hi : Point3D ℝ,
      (CalculateBounds Real.sqrt Real.pi
        (modelOf [(⟨0, 0, 0⟩ : Point3D ℝ), ⟨0, 2, 0⟩])).AABB = ⟨lo.toExt, hi.toExt⟩ ∧
      IsComponentwiseMin ((modelOf [(⟨0, 0, 0⟩ : Point3D ℝ), ⟨0, 2, 0⟩]).lod_model.headD []) lo ∧
      IsComponentwiseMax ((modelOf [(⟨0, 0, 0⟩ : Point3D ℝ), ⟨0, 2, 0⟩]).lod_model.headD []) hi ∧
      ((CalculateBounds Real.sqrt Real.pi
          (modelOf [(⟨0, 0, 0⟩ : Point3D ℝ), ⟨0, 2, 0⟩])).bounds_flags
            &&& SRE_BOUNDS_PREFER_AABB ≠ 0 ↔
        99 / 100 * ((hi.x - lo.x) * (hi.y - lo.y) * (hi.z - lo.z))
          ≤ (CalculateBounds Real.sqrt Real.pi
                (modelOf [(⟨0, 0, 0⟩ : Point3D ℝ), ⟨0, 2, 0⟩])).PCA.c0.size
              * (CalculateBounds Real.sqrt Real.pi
                (modelOf [(⟨0, 0, 0⟩ : Point3D ℝ), ⟨0, 2, 0⟩])).PCA.c1.size
              * (CalculateBounds Real.sqrt Real.pi
                (modelOf [(⟨0, 0, 0⟩ : Point3D ℝ), ⟨0, 2, 0⟩])).PCA.c2.size) :=
  CalculateBounds_prefer_AABB_iff Real.sqrt Real.pi (modelOf [⟨0, 0, 0⟩, ⟨0, 2, 0⟩])
    (List.cons_ne_nil _ _)

/-! ## Volumes of the box and of the spheres -/

section VolumeLemmas

/-- For a non-empty array the sorted sizes are non-negative and non-increasing. -/
theorem sortedSizes_nonneg {F : Type} [LinearOrderedField F] (sqrtf : F → F)
    (position : List (Point3D F)) (hne : position ≠ []) :
    0 ≤ (CalculatePrincipalComponents sqrtf position).1.c2.size ∧
    (CalculatePrincipalComponents sqrtf position).1.c2.size
      ≤ (CalculatePrincipalComponents sqrtf position).1.c1.size ∧
    (CalculatePrincipalComponents sqrtf position).1.c1.size
      ≤ (CalculatePrincipalComponents sqrtf position).1.c0.size := by
  have hs := (unsortedComponents sqrtf position).sortDecreasing_sorted
  refine ⟨?_, hs.2, hs.1⟩
  have hsize := sortedComponents_size sqrtf position 2
  have hmm := dstCalculateMinAndMaxDotProductNx1_spec position
    (((CalculatePrincipalComponents sqrtf position).1).get 2).vector hne
  have hle := IsMinDot_le_max hmm.1 hmm.2
  have h2 : (CalculatePrincipalComponents sqrtf position).1.c2.size
      = (((CalculatePrincipalComponents sqrtf position).1).get 2).size := rfl
  rw [h2, hsize]
  exact sub_nonneg.mpr hle

/-- In exact real arithmetic every returned direction has unit length. -/
theorem sortedComponent_unit (position : List (Point3D ℝ)) (i : Fin 3) :
    Dot (((CalculatePrincipalComponents Real.sqrt position).1).get i).vector
      (((CalculatePrincipalComponents Real.sqrt position).1).get i).vector = 1 := by
  obtain ⟨u0, u1, u2, _, _, _⟩ := principalDirections_orthonormal position
  obtain ⟨j, hj⟩ := (unsortedComponents Real.sqrt position).sortDecreasing_get i
  unfold CalculatePrincipalComponents
  simp only [hj]
  fin_cases j
  · exact u0
  · exact u1
  · exact u2

/-- The projection onto a unit direction is no longer than the vector. -/
theorem Dot_abs_le_Magnitude (x a : Vector3D ℝ) (ha : Dot a a = 1) :
    |Dot x a| ≤ Magnitude Real.sqrt x := by
  unfold Magnitude
  apply Real.abs_le_sqrt
  have h := Dot_sq_le x a
  have ha2 : SquaredMag a = 1 := ha
  rw [ha2, mul_one] at h
  exact h

/-- The diameter of the fitted sphere is at least the spread of the vertices along any
unit direction. -/
theorem fitted_diameter_ge_spread (vertex : List (Point3D ℝ)) (_PCA : PCAArray ℝ)
    (a : Vector3D ℝ) (ha : Dot a a = 1) (mn mx : ℝ) (hmn : IsMinDot vertex a mn)
    (hmx : IsMaxDot vertex a mx) :
    mx - mn ≤ 2 * (CalculatePCABoundingSphere Real.sqrt vertex _PCA).radius := by
  obtain ⟨_, w, hw, ew⟩ := hmn
  obtain ⟨_, u, hu, eu⟩ := hmx
  have bu := le_trans (Dot_abs_le_Magnitude _ a ha) (sphere_encloses vertex _PCA u hu)
  have bw := le_trans (Dot_abs_le_Magnitude _ a ha) (sphere_encloses vertex _PCA w hw)
  have hdiff : Dot (u - (CalculatePCABoundingSphere Real.sqrt vertex _PCA).center) a
      - Dot (w - (CalculatePCABoundingSphere Real.sqrt vertex _PCA).center) a = mx - mn := by
    rw [← eu, ← ew]
    simp only [Dot, Vector3D.sub_x, Vector3D.sub_y, Vector3D.sub_z]
    ring
  have h1 := (abs_le.mp bu).2
  have h2 := (abs_le.mp bw).1
  linarith

/-- The diameter of the fitted sphere is at least the largest extent. -/
theorem fittedSphere_diameter_ge_size (vertex : List (Point3D ℝ)) (hne : vertex ≠ []) :
    (CalculatePrincipalComponents Real.sqrt vertex).1.c0.size
      ≤ 2 * (fittedSphere Real.sqrt vertex).radius := by
  have hsize := sortedComponents_size Real.sqrt vertex 0
  have hmm := dstCalculateMinAndMaxDotProductNx1_spec vertex
    (((CalculatePrincipalComponents Real.sqrt vertex).1).get 0).vector hne
  have h0 : (CalculatePrincipalComponents Real.sqrt vertex).1.c0.size
      = (((CalculatePrincipalComponents Real.sqrt vertex).1).get 0).size := rfl
  rw [h0, hsize]
  exact fitted_diameter_ge_spread vertex _ _ (sortedComponent_unit vertex 0) _ _ hmm.1 hmm.2

/-- Half the box diagonal is at least half of each extent. -/
theorem sphere_box_radius_ge (vertex : List (Point3D ℝ)) :
    (CalculatePrincipalComponents Real.sqrt vertex).1.c0.size
        ≤ 2 * sphere_box_radius Real.sqrt vertex ∧
    (CalculatePrincipalComponents Real.sqrt vertex).1.c1.size
        ≤ 2 * sphere_box_radius Real.sqrt vertex ∧
    (CalculatePrincipalComponents Real.sqrt vertex).1.c2.size
        ≤ 2 * sphere_box_radius Real.sqrt vertex := by
  unfold sphere_box_radius sqrf
  refine ⟨?_, ?_, ?_⟩
  · have h := Real.abs_le_sqrt (x := (CalculatePrincipalComponents Real.sqrt vertex).1.c0.size
        * (1 / 2))
      (y := (CalculatePrincipalComponents Real.sqrt vertex).1.c0.size * (1 / 2)
          * ((CalculatePrincipalComponents Real.sqrt vertex).1.c0.size * (1 / 2))
        + (CalculatePrincipalComponents Real.sqrt vertex).1.c1.size * (1 / 2)
          * ((CalculatePrincipalComponents Real.sqrt vertex).1.c1.size * (1 / 2))
        + (CalculatePrincipalComponents Real.sqrt vertex).1.c2.size * (1 / 2)
          * ((CalculatePrincipalComponents Real.sqrt vertex).1.c2.size * (1 / 2)))
      (by nlinarith [mul_self_nonneg ((CalculatePrincipalComponents Real.sqrt vertex).1.c1.size),
        mul_self_nonneg ((CalculatePrincipalComponents Real.sqrt vertex).1.c2.size)])
    have := (abs_le.mp h).2
    linarith
  · have h := Real.abs_le_sqrt (x := (CalculatePrincipalComponents Real.sqrt vertex).1.c1.size
        * (1 / 2))
      (y := (CalculatePrincipalComponents Real.sqrt vertex).1.c0.size * (1 / 2)
          * ((CalculatePrincipalComponents Real.sqrt vertex).1.c0.size * (1 / 2))
        + (CalculatePrincipalComponents Real.sqrt vertex).1.c1.size * (1 / 2)
          * ((CalculatePrincipalComponents Real.sqrt vertex).1.c1.size * (1 / 2))
        + (CalculatePrincipalComponents Real.sqrt vertex).1.c2.size * (1 / 2)
          * ((CalculatePrincipalComponents Real.sqrt vertex).1.c2.size * (1 / 2)))
      (by nlinarith [mul_self_nonneg ((CalculatePrincipalComponents Real.sqrt vertex).1.c0.size),
        mul_self_nonneg ((CalculatePrincipalComponents Real.sqrt vertex).1.c2.size)])
    have := (abs_le.mp h).2
    linarith
  · have h := Real.abs_le_sqrt (x := (CalculatePrincipalComponents Real.sqrt vertex).1.c2.size
        * (1 / 2))
      (y := (CalculatePrincipalComponents Real.sqrt vertex).1.c0.size * (1 / 2)
          * ((CalculatePrincipalComponents Real.sqrt vertex).1.c0.size * (1 / 2))
        + (CalculatePrincipalComponents Real.sqrt vertex).1.c1.size * (1 / 2)
          * ((CalculatePrincipalComponents Real.sqrt vertex).1.c1.size * (1 / 2))
        + (CalculatePrincipalComponents Real.sqrt vertex).1.c2.size * (1 / 2)
          * ((CalculatePrincipalComponents Real.sqrt vertex).1.c2.size * (1 / 2)))
      (by nlinarith [mul_self_nonneg ((CalculatePrincipalComponents Real.sqrt vertex).1.c0.size),
        mul_self_nonneg ((CalculatePrincipalComponents Real.sqrt vertex).1.c1.size)])
    have := (abs_le.mp h).2
    linarith

/-- The sphere volume grows with the radius. -/
theorem sphereVolume_le (a b : ℝ) (ha : 0 ≤ a) (hab : a ≤ b) :
    sphereVolume Real.pi a ≤ sphereVolume Real.pi b := by
  have h3 : a ^ 3 ≤ b ^ 3 := pow_le_pow_left ha hab 3
  have hpi := Real.pi_pos
  unfold sphereVolume
  nlinarith [mul_le_mul_of_nonneg_left h3 hpi.le]

/-- The sphere volume grows strictly with the radius. -/
theorem sphereVolume_lt (a b : ℝ) (ha : 0 ≤ a) (hab : a < b) :
    sphereVolume Real.pi a < sphereVolume Real.pi b := by
  have h3 : a ^ 3 < b ^ 3 := pow_lt_pow_left hab ha (by norm_num)
  have hpi := Real.pi_pos
  unfold sphereVolume
  nlinarith [mul_lt_mul_of_pos_left h3 hpi]

/-- The box is never larger than its circumscribed sphere. -/
theorem volume_box_le_circumscribed (vertex : List (Point3D ℝ)) (hne : vertex ≠ []) :
    volume_box Real.sqrt vertex
      ≤ sphereVolume Real.pi (sphere_box_radius Real.sqrt vertex) := by
  obtain ⟨n2, n21, n10⟩ := sortedSizes_nonneg Real.sqrt vertex hne
  obtain ⟨g0, g1, g2⟩ := sphere_box_radius_ge vertex
  have hr : 0 ≤ sphere_box_radius Real.sqrt vertex := Real.sqrt_nonneg _
  have hrr : sphere_box_radius Real.sqrt vertex * sphere_box_radius Real.sqrt vertex
      = sqrf ((CalculatePrincipalComponents Real.sqrt vertex).1.c0.size * (1 / 2))
        + sqrf ((CalculatePrincipalComponents Real.sqrt vertex).1.c1.size * (1 / 2))
        + sqrf ((CalculatePrincipalComponents Real.sqrt vertex).1.c2.size * (1 / 2)) := by
    unfold sphere_box_radius
    apply Real.mul_self_sqrt
    unfold sqrf
    nlinarith [mul_self_nonneg ((CalculatePrincipalComponents Real.sqrt vertex).1.c0.size),
      mul_self_nonneg ((CalculatePrincipalComponents Real.sqrt vertex).1.c1.size),
      mul_self_nonneg ((CalculatePrincipalComponents Real.sqrt vertex).1.c2.size)]
  unfold sqrf at hrr
  unfold volume_box sphereVolume
  generalize (CalculatePrincipalComponents Real.sqrt vertex).1.c0.size = s0 at *
  generalize (CalculatePrincipalComponents Real.sqrt vertex).1.c1.size = s1 at *
  generalize (CalculatePrincipalComponents Real.sqrt vertex).1.c2.size = s2 at *
  generalize sphere_box_radius Real.sqrt vertex = r at *
  have n1 : 0 ≤ s1 := le_trans n2 n21
  have n0 : 0 ≤ s0 := le_trans n1 n10
  have h12 : s1 * s2 ≤ 2 * (r * r) := by
    nlinarith [sq_nonneg (s1 - s2), mul_self_nonneg s0]
  have hbox : s0 * s1 * s2 ≤ 4 * (r * r * r) := by
    have e1 : s0 * s1 * s2 = s0 * (s1 * s2) := by ring
    have e2 : 4 * (r * r * r) = (2 * r) * (2 * (r * r)) := by ring
    rw [e1, e2]
    exact mul_le_mul g0 h12 (mul_nonneg n1 n2) (by linarith)
  have hr3 : 0 ≤ r * r * r := mul_nonneg (mul_nonneg hr hr) hr
  have hpi := Real.pi_gt_three
  nlinarith [mul_le_mul_of_nonneg_right hpi.le hr3]

/-- For a non-empty array the sphere is overwritten exactly when half the box diagonal is
shorter than the fitted radius: the volume condition then holds by itself. -/
theorem sphereReplaced_iff (vertex : List (Point3D ℝ)) (hne : vertex ≠ []) :
    sphereReplaced Real.sqrt Real.pi vertex = true ↔
      sphere_box_radius Real.sqrt vertex < (fittedSphere Real.sqrt vertex).radius := by
  unfold sphereReplaced
  simp only [Bool.and_eq_true, decide_eq_true_eq]
  constructor
  · exact fun h => h.2
  · intro h
    refine ⟨?_, h⟩
    have hr : 0 ≤ sphere_box_radius Real.sqrt vertex := Real.sqrt_nonneg _
    exact lt_of_le_of_lt (volume_box_le_circumscribed vertex hne) (sphereVolume_lt _ _ hr h)

/-- The diameter of the final sphere is at least the largest extent. -/
theorem boundingSphere_diameter_ge_size (vertex : List (Point3D ℝ)) (hne : vertex ≠ []) :
    (CalculatePrincipalComponents Real.sqrt vertex).1.c0.size
      ≤ 2 * (boundingSphere Real.sqrt Real.pi vertex).radius := by
  unfold boundingSphere
  split_ifs
  · exact (sphere_box_radius_ge vertex).1
  · exact fittedSphere_diameter_ge_size vertex hne

/-- The local `volume_sphere` is the volume of the final sphere. -/
theorem volume_sphere_eq {F : Type} [LinearOrderedField F] (sqrtf : F → F) (M_PI : F)
    (vertex : List (Point3D F)) :
    volume_sphere sqrtf M_PI vertex
      = sphereVolume M_PI (boundingSphere sqrtf M_PI vertex).radius := by
  unfold volume_sphere boundingSphere
  split_ifs <;> rfl

/-- For a rod, `size0 > 0` and `size0 ≥ 4·size1`, the box is strictly smaller than the
final sphere. -/
theorem rod_volume_box_lt (vertex : List (Point3D ℝ)) (hne : vertex ≠ [])
    (h0 : (CalculatePrincipalComponents Real.sqrt vertex).1.c0.size > 0)
    (h4 : (CalculatePrincipalComponents Real.sqrt vertex).1.c0.size
      ≥ 4 * (CalculatePrincipalComponents Real.sqrt vertex).1.c1.size) :
    volume_box Real.sqrt vertex < volume_sphere Real.sqrt Real.pi vertex := by
  obtain ⟨n2, n21, n10⟩ := sortedSizes_nonneg Real.sqrt vertex hne
  have hd := boundingSphere_diameter_ge_size vertex hne
  rw [volume_sphere_eq]
  have hhalf : sphereVolume Real.pi
        ((CalculatePrincipalComponents Real.sqrt vertex).1.c0.size / 2)
      ≤ sphereVolume Real.pi (boundingSphere Real.sqrt Real.pi vertex).radius :=
    sphereVolume_le _ _ (by linarith) (by linarith)
  refine lt_of_lt_of_le ?_ hhalf
  unfold volume_box sphereVolume
  generalize (CalculatePrincipalComponents Real.sqrt vertex).1.c0.size = s0 at *
  generalize (CalculatePrincipalComponents Real.sqrt vertex).1.c1.size = s1 at *
  generalize (CalculatePrincipalComponents Real.sqrt vertex).1.c2.size = s2 at *
  have n1 : 0 ≤ s1 := le_trans n2 n21
  have hs1 : s1 ≤ s0 / 4 := by linarith
  have hs2 : s2 ≤ s0 / 4 := by linarith
  have h12 : s1 * s2 ≤ s0 / 4 * (s0 / 4) := mul_le_mul hs1 hs2 n2 (by linarith)
  have hbox : s0 * s1 * s2 ≤ s0 * (s0 / 4 * (s0 / 4)) := by
    have e1 : s0 * s1 * s2 = s0 * (s1 * s2) := by ring
    rw [e1]
    exact mul_le_mul_of_nonneg_left h12 h0.le
  have hcube : 0 < s0 * s0 * s0 := mul_pos (mul_pos h0 h0) h0
  have hpi := Real.pi_gt_three
  nlinarith [mul_lt_mul_of_pos_right hpi hcube]

end VolumeLemmas

/-! ## Evaluation on sample inputs -/

section SampleLemmas

/-- In exact real arithmetic the components before the sort are the coordinate axes with
the coordinate ranges as sizes. -/
theorem unsortedComponents_axis_aligned (vertex : List (Point3D ℝ)) (lo hi : Point3D ℝ)
    (hlo : IsComponentwiseMin vertex lo) (hhi : IsComponentwiseMax vertex hi) :
    unsortedComponents Real.sqrt vertex
      = ⟨⟨⟨1, 0, 0⟩, hi.x - lo.x⟩, ⟨⟨0, 1, 0⟩, hi.y - lo.y⟩, ⟨⟨0, 0, 1⟩, hi.z - lo.z⟩⟩ := by
  obtain ⟨lb, ⟨ux, hux, eux⟩, ⟨uy, huy, euy⟩, ⟨uz, huz, euz⟩⟩ := hlo
  obtain ⟨ub, ⟨wx, hwx, ewx⟩, ⟨wy, hwy, ewy⟩, ⟨wz, hwz, ewz⟩⟩ := hhi
  have hne : vertex ≠ [] := List.ne_nil_of_mem hux
  have hx : dstCalculateMinAndMaxDotProductNx1 vertex ⟨1, 0, 0⟩ = (lo.x, hi.x) := by
    have hs := dstCalculateMinAndMaxDotProductNx1_spec vertex ⟨1, 0, 0⟩ hne
    exact Prod.ext
      (IsMinDot_unique hs.1 ⟨fun v hv => by simpa [Dot] using (lb v hv).1,
        ux, hux, by simpa [Dot] using eux⟩)
      (IsMaxDot_unique hs.2 ⟨fun v hv => by simpa [Dot] using (ub v hv).1,
        wx, hwx, by simpa [Dot] using ewx⟩)
  have hy : dstCalculateMinAndMaxDotProductNx1 vertex ⟨0, 1, 0⟩ = (lo.y, hi.y) := by
    have hs := dstCalculateMinAndMaxDotProductNx1_spec vertex ⟨0, 1, 0⟩ hne
    exact Prod.ext
      (IsMinDot_unique hs.1 ⟨fun v hv => by simpa [Dot] using (lb v hv).2.1,
        uy, huy, by simpa [Dot] using euy⟩)
      (IsMaxDot_unique hs.2 ⟨fun v hv => by simpa [Dot] using (ub v hv).2.1,
        wy, hwy, by simpa [Dot] using ewy⟩)
  have hz : dstCalculateMinAndMaxDotProductNx1 vertex ⟨0, 0, 1⟩ = (lo.z, hi.z) := by
    have hs := dstCalculateMinAndMaxDotProductNx1_spec vertex ⟨0, 0, 1⟩ hne
    exact Prod.ext
      (IsMinDot_unique hs.1 ⟨fun v hv => by simpa [Dot] using (lb v hv).2.2,
        uz, huz, by simpa [Dot] using euz⟩)
      (IsMaxDot_unique hs.2 ⟨fun v hv => by simpa [Dot] using (ub v hv).2.2,
        wz, hwz, by simpa [Dot] using ewz⟩)
  unfold unsortedComponents
  simp only [principalDirections_eq, dstCalculateMinAndMaxDotProductNx3, hx, hy, hz]

/-- The components returned for the sample rod. -/
theorem rodVertices_components :
    (CalculatePrincipalComponents Real.sqrt (rodVertices : List (Point3D ℝ))).1
      = ⟨⟨⟨1, 0, 0⟩, 8⟩, ⟨⟨0, 1, 0⟩, 2⟩, ⟨⟨0, 0, 1⟩, 2⟩⟩ := by
  have hlo : IsComponentwiseMin (rodVertices : List (Point3D ℝ)) ⟨-4, -1, -1⟩ := by
    refine ⟨?_, ⟨⟨-4, 1, 0⟩, by simp [rodVertices], rfl⟩, ⟨⟨4, -1, 0⟩, by simp [rodVertices], rfl⟩,
      ⟨⟨4, 0, -1⟩, by simp [rodVertices], rfl⟩⟩
    intro v hv
    simp only [rodVertices, List.mem_cons, List.mem_singleton, List.not_mem_nil,
      or_false] at hv
    rcases hv with rfl | rfl | rfl | rfl | rfl | rfl | rfl | rfl <;> norm_num
  have hhi : IsComponentwiseMax (rodVertices : List (Point3D ℝ)) ⟨4, 1, 1⟩ := by
    refine ⟨?_, ⟨⟨4, 1, 0⟩, by simp [rodVertices], rfl⟩, ⟨⟨4, 1, 0⟩, by simp [rodVertices], rfl⟩,
      ⟨⟨4, 0, 1⟩, by simp [rodVertices], rfl⟩⟩
    intro v hv
    simp only [rodVertices, List.mem_cons, List.mem_singleton, List.not_mem_nil,
      or_false] at hv
    rcases hv with rfl | rfl | rfl | rfl | rfl | rfl | rfl | rfl <;> norm_num
  unfold CalculatePrincipalComponents
  simp only [unsortedComponents_axis_aligned _ _ _ hlo hhi]
  norm_num [PCAArray.sortDecreasing, PCAArray.swap01, PCAArray.swap12]

end SampleLemmas

/-- Claim C11: for a non-empty vertex set forming a rod, `size[0] > 0` and
`size[0] ≥ 4·size[1]`, in exact real arithmetic the box volume is strictly smaller than
the volume of the final bounding sphere, so the basic bits of `bounds_flags` hold
`SRE_BOUNDS_PREFER_BOX_LINE_SEGMENT`. -/
theorem CalculateBounds_rod_prefers_line_segment (m : sreModel ℝ)
    (hne : m.lod_model.headD [] ≠ [])
    (h0 : (CalculateBounds Real.sqrt Real.pi m).PCA.c0.size > 0)
    (h4 : (CalculateBounds Real.sqrt Real.pi m).PCA.c0.size
      ≥ 4 * (CalculateBounds Real.sqrt Real.pi m).PCA.c1.size) :
    volume_box Real.sqrt (m.lod_model.headD [])
      < volume_sphere Real.sqrt Real.pi (m.lod_model.headD []) ∧
    (CalculateBounds Real.sqrt Real.pi m).bounds_flags &&&
        (SRE_BOUNDS_PREFER_SPHERE ||| SRE_BOUNDS_PREFER_BOX ||| SRE_BOUNDS_PREFER_BOX_LINE_SEGMENT)
      = SRE_BOUNDS_PREFER_BOX_LINE_SEGMENT := by
  have hvol := rod_volume_box_lt (m.lod_model.headD []) hne h0 h4
  refine ⟨hvol, ?_⟩
  show boundsFlags Real.sqrt Real.pi (m.lod_model.headD []) &&& _ = _
  rw [boundsFlags_basic_bits]
  unfold basicFlags
  rw [if_pos hvol]
  exact if_pos h4

/-- Witness for C11: the sample rod, with sizes `(8, 2, 2)`. -/
theorem CalculateBounds_rod_prefers_line_segment_witness :
    volume_box Real.sqrt ((modelOf (rodVertices : List (Point3D ℝ))).lod_model.headD [])
      < volume_sphere Real.sqrt Real.pi
          ((modelOf (rodVertices : List (Point3D ℝ))).lod_model.headD []) ∧
    (CalculateBounds Real.sqrt Real.pi (modelOf (rodVertices : List (Point3D ℝ)))).bounds_flags
        &&& (SRE_BOUNDS_PREFER_SPHERE ||| SRE_BOUNDS_PREFER_BOX
          ||| SRE_BOUNDS_PREFER_BOX_LINE_SEGMENT)
      = SRE_BOUNDS_PREFER_BOX_LINE_SEGMENT :=
  CalculateBounds_rod_prefers_line_segment (modelOf rodVertices)
    (List.cons_ne_nil _ _)
    (by
      show (CalculatePrincipalComponents Real.sqrt (rodVertices : List (Point3D ℝ))).1.c0.size > 0
      rw [rodVertices_components]
      norm_num)
    (by
      show (CalculatePrincipalComponents Real.sqrt (rodVertices : List (Point3D ℝ))).1.c0.size
        ≥ 4 * (CalculatePrincipalComponents Real.sqrt (rodVertices : List (Point3D ℝ))).1.c1.size
      rw [rodVertices_components]
      norm_num)

/-- Claim C15: after `CalculateBounds` on a non-empty vertex set, in exact real arithmetic,
`sphere.radius = min(r_fit, r_box)` with `r_fit` the radius fitted by
`CalculatePCABoundingSphere` and `r_box` half the box diagonal; the sphere is
`(box_center, r_box)` exactly when the fitted sphere's volume exceeds the circumscribed
sphere's volume, and is the fitted sphere otherwise. -/
theorem CalculateBounds_sphere_is_smaller_one (m : sreModel ℝ)
    (hne : m.lod_model.headD [] ≠ []) :
    (CalculateBounds Real.sqrt Real.pi m).sphere.radius
      = min (fittedSphere Real.sqrt (m.lod_model.headD [])).radius
          (sphere_box_radius Real.sqrt (m.lod_model.headD [])) ∧
    sphere_box_radius Real.sqrt (m.lod_model.headD [])
      = Real.sqrt ((CalculateBounds Real.sqrt Real.pi m).PCA.c0.size ^ 2
          + (CalculateBounds Real.sqrt Real.pi m).PCA.c1.size ^ 2
          + (CalculateBounds Real.sqrt Real.pi m).PCA.c2.size ^ 2) / 2 ∧
    (CalculateBounds Real.sqrt Real.pi m).sphere
      = (if sphereVolume Real.pi (fittedSphere Real.sqrt (m.lod_model.headD [])).radius
            > sphereVolume Real.pi (sphere_box_radius Real.sqrt (m.lod_model.headD [])) then
          { center := (CalculateBounds Real.sqrt Real.pi m).box_center
            radius := sphere_box_radius Real.sqrt (m.lod_model.headD []) }
        else fittedSphere Real.sqrt (m.lod_model.headD [])) := by
  have hfit : 0 ≤ (fittedSphere Real.sqrt (m.lod_model.headD [])).radius := by
    unfold fittedSphere CalculatePCABoundingSphere
    exact Real.sqrt_nonneg _
  have hbox : 0 ≤ sphere_box_radius Real.sqrt (m.lod_model.headD []) := Real.sqrt_nonneg _
  have hdiag : sphere_box_radius Real.sqrt (m.lod_model.headD [])
      = Real.sqrt ((CalculateBounds Real.sqrt Real.pi m).PCA.c0.size ^ 2
          + (CalculateBounds Real.sqrt Real.pi m).PCA.c1.size ^ 2
          + (CalculateBounds Real.sqrt Real.pi m).PCA.c2.size ^ 2) / 2 := by
    show sphere_box_radius Real.sqrt (m.lod_model.headD [])
      = Real.sqrt ((CalculatePrincipalComponents Real.sqrt (m.lod_model.headD [])).1.c0.size ^ 2
          + (CalculatePrincipalComponents Real.sqrt (m.lod_model.headD [])).1.c1.size ^ 2
          + (CalculatePrincipalComponents Real.sqrt (m.lod_model.headD [])).1.c2.size ^ 2) / 2
    unfold sphere_box_radius sqrf
    have hq : (0 : ℝ) ≤ (CalculatePrincipalComponents Real.sqrt (m.lod_model.headD [])).1.c0.size ^ 2
        + (CalculatePrincipalComponents Real.sqrt (m.lod_model.headD [])).1.c1.size ^ 2
        + (CalculatePrincipalComponents Real.sqrt (m.lod_model.headD [])).1.c2.size ^ 2 := by
      positivity
    have h4 : Real.sqrt (4 : ℝ) = 2 := by
      rw [show (4 : ℝ) = 2 ^ 2 by norm_num, Real.sqrt_sq (by norm_num)]
    have e : (CalculatePrincipalComponents Real.sqrt (m.lod_model.headD [])).1.c0.size * (1 / 2)
          * ((CalculatePrincipalComponents Real.sqrt (m.lod_model.headD [])).1.c0.size * (1 / 2))
        + (CalculatePrincipalComponents Real.sqrt (m.lod_model.headD [])).1.c1.size * (1 / 2)
          * ((CalculatePrincipalComponents Real.sqrt (m.lod_model.headD [])).1.c1.size * (1 / 2))
        + (CalculatePrincipalComponents Real.sqrt (m.lod_model.headD [])).1.c2.size * (1 / 2)
          * ((CalculatePrincipalComponents Real.sqrt (m.lod_model.headD [])).1.c2.size * (1 / 2))
        = ((CalculatePrincipalComponents Real.sqrt (m.lod_model.headD [])).1.c0.size ^ 2
          + (CalculatePrincipalComponents Real.sqrt (m.lod_model.headD [])).1.c1.size ^ 2
          + (CalculatePrincipalComponents Real.sqrt (m.lod_model.headD [])).1.c2.size ^ 2) / 4 := by
      ring
    rw [e, Real.sqrt_div hq, h4]
  refine ⟨?_, hdiag, ?_⟩
  · show (boundingSphere Real.sqrt Real.pi (m.lod_model.headD [])).radius = _
    unfold boundingSphere
    by_cases h : sphere_box_radius Real.sqrt (m.lod_model.headD [])
        < (fittedSphere Real.sqrt (m.lod_model.headD [])).radius
    · rw [if_pos ((sphereReplaced_iff _ hne).mpr h), min_eq_right h.le]
    · have hrep : ¬ sphereReplaced Real.sqrt Real.pi (m.lod_model.headD []) = true :=
        fun hc => h ((sphereReplaced_iff _ hne).mp hc)
      rw [if_neg hrep, min_eq_left (not_lt.mp h)]
  · show boundingSphere Real.sqrt Real.pi (m.lod_model.headD []) = _
    unfold boundingSphere
    by_cases h : sphere_box_radius Real.sqrt (m.lod_model.headD [])
        < (fittedSphere Real.sqrt (m.lod_model.headD [])).radius
    · rw [if_pos ((sphereReplaced_iff _ hne).mpr h), if_pos (sphereVolume_lt _ _ hbox h)]
      rfl
    · have hrep : ¬ sphereReplaced Real.sqrt Real.pi (m.lod_model.headD []) = true :=
        fun hc => h ((sphereReplaced_iff _ hne).mp hc)
      rw [if_neg hrep, if_neg (not_lt.mpr (sphereVolume_le _ _ hfit (not_lt.mp h)))]

/-- Witness for C15: the sample rod. -/
theorem CalculateBounds_sphere_is_smaller_one_witness :
    (CalculateBounds Real.sqrt Real.pi (modelOf (rodVertices : List (Point3D ℝ)))).sphere.radius
      = min (fittedSphere Real.sqrt
            ((modelOf (rodVertices : List (Point3D ℝ))).lod_model.headD [])).radius
          (sphere_box_radius Real.sqrt
            ((modelOf (rodVertices : List (Point3D ℝ))).lod_model.headD [])) :=
  (CalculateBounds_sphere_is_smaller_one (modelOf rodVertices) (List.cons_ne_nil _ _)).1

/-! ## The circumscribed sphere of the box encloses the vertices -/

section BoxSphereLemmas

/-- For an orthogonal matrix the squared length of a vector is the sum of the squares of
its dot products with the rows. -/
theorem orthogonal_parseval {F : Type} [LinearOrderedField F] (r : Matrix3D F)
    (hr : r.IsOrthogonal) (x : Vector3D F) :
    SquaredMag x = Dot x (r.GetRow 0) ^ 2 + Dot x (r.GetRow 1) ^ 2 + Dot x (r.GetRow 2) ^ 2 := by
  have h := ((Matrix3D.isOrthogonal_iff r).mp hr).2
  rw [Matrix3D.ext_iff9] at h
  simp only [Matrix3D.mul, Matrix3D.transpose, Matrix3D.identity, Matrix3D.GetRow,
    Matrix3D.GetColumn, Dot] at h
  obtain ⟨c00, c01, c02, _, c11, c12, _, _, c22⟩ := h
  simp only [SquaredMag, Dot, Matrix3D.GetRow]
  linear_combination (-(x.x * x.x)) * c00 - (x.y * x.y) * c11 - (x.z * x.z) * c22
    - (2 * x.x * x.y) * c01 - (2 * x.x * x.z) * c02 - (2 * x.y * x.z) * c12

/-- In exact real arithmetic the directions before the sort are the rows of `r`. -/
theorem principalDirections_rows (position : List (Point3D ℝ)) :
    principalDirections Real.sqrt position
      = ((CalculateEigensystem Real.sqrt (covarianceMatrix position)).r.GetRow 0,
         (CalculateEigensystem Real.sqrt (covarianceMatrix position)).r.GetRow 1,
         (CalculateEigensystem Real.sqrt (covarianceMatrix position)).r.GetRow 2) := by
  have hr := ((eigenFinalState_invariant (covarianceMatrix position)
    (covarianceMatrix_isSymmetric position)).1).1
  have h00 : Dot ((CalculateEigensystem Real.sqrt (covarianceMatrix position)).r.GetRow 0)
      ((CalculateEigensystem Real.sqrt (covarianceMatrix position)).r.GetRow 0) = 1 := hr 0 0
  have h11 : Dot ((CalculateEigensystem Real.sqrt (covarianceMatrix position)).r.GetRow 1)
      ((CalculateEigensystem Real.sqrt (covarianceMatrix position)).r.GetRow 1) = 1 := hr 1 1
  have h22 : Dot ((CalculateEigensystem Real.sqrt (covarianceMatrix position)).r.GetRow 2)
      ((CalculateEigensystem Real.sqrt (covarianceMatrix position)).r.GetRow 2) = 1 := hr 2 2
  unfold principalDirections
  simp only
  rw [Normalize_unit _ h00, Normalize_unit _ h11, Normalize_unit _ h22]

/-- A bound on the absolute value gives the bound on the square. -/
theorem sq_le_sqrf_half {F : Type} [LinearOrderedField F] (d s : F) (h : |d| ≤ s / 2) :
    d ^ 2 ≤ sqrf (s * (1 / 2)) := by
  unfold sqrf
  have h1 := abs_le.mp h
  nlinarith [h1.1, h1.2]

/-- Before the sort: the squared distance of a vertex from the box centre is at most the
squared half diagonal. -/
theorem unsorted_box_sphere (position : List (Point3D ℝ)) (hne : position ≠ [])
    (v : Point3D ℝ) (hv : v ∈ position) :
    SquaredMag (v - pcaCenter Real.sqrt position)
      ≤ sqrf ((unsortedComponents Real.sqrt position).c0.size * (1 / 2))
        + sqrf ((unsortedComponents Real.sqrt position).c1.size * (1 / 2))
        + sqrf ((unsortedComponents Real.sqrt position).c2.size * (1 / 2)) := by
  have hr := (eigenFinalState_invariant (covarianceMatrix position)
    (covarianceMatrix_isSymmetric position)).1
  have hp := orthogonal_parseval _ hr (v - pcaCenter Real.sqrt position)
  have b0 := unsortedComponents_bound position hne v hv 0
  have b1 := unsortedComponents_bound position hne v hv 1
  have b2 := unsortedComponents_bound position hne v hv 2
  have e0 : ((unsortedComponents Real.sqrt position).get 0).vector
      = (CalculateEigensystem Real.sqrt (covarianceMatrix position)).r.GetRow 0 := by
    show (principalDirections Real.sqrt position).1 = _
    rw [principalDirections_rows]
  have e1 : ((unsortedComponents Real.sqrt position).get 1).vector
      = (CalculateEigensystem Real.sqrt (covarianceMatrix position)).r.GetRow 1 := by
    show (principalDirections Real.sqrt position).2.1 = _
    rw [principalDirections_rows]
  have e2 : ((unsortedComponents Real.sqrt position).get 2).vector
      = (CalculateEigensystem Real.sqrt (covarianceMatrix position)).r.GetRow 2 := by
    show (principalDirections Real.sqrt position).2.2 = _
    rw [principalDirections_rows]
  rw [e0] at b0
  rw [e1] at b1
  rw [e2] at b2
  have s0 := sq_le_sqrf_half _ _ b0
  have s1 := sq_le_sqrf_half _ _ b1
  have s2 := sq_le_sqrf_half _ _ b2
  have hsum := add_le_add (add_le_add s0 s1) s2
  calc SquaredMag (v - pcaCenter Real.sqrt position)
      = Dot (v - pcaCenter Real.sqrt position)
            ((CalculateEigensystem Real.sqrt (covarianceMatrix position)).r.GetRow 0) ^ 2
          + Dot (v - pcaCenter Real.sqrt position)
            ((CalculateEigensystem Real.sqrt (covarianceMatrix position)).r.GetRow 1) ^ 2
          + Dot (v - pcaCenter Real.sqrt position)
            ((CalculateEigensystem Real.sqrt (covarianceMatrix position)).r.GetRow 2) ^ 2 := hp
    _ ≤ _ := hsum

/-- The sum of the squared half sizes is the same before and after the sort. -/
theorem sortDecreasing_sum_sqrf {F : Type} [LinearOrderedField F] (p : PCAArray F) :
    sqrf (p.sortDecreasing.c0.size * (1 / 2)) + sqrf (p.sortDecreasing.c1.size * (1 / 2))
        + sqrf (p.sortDecreasing.c2.size * (1 / 2))
      = sqrf (p.c0.size * (1 / 2)) + sqrf (p.c1.size * (1 / 2)) + sqrf (p.c2.size * (1 / 2)) := by
  rcases p.sortDecreasing_cases with h | h | h | h | h | h <;> rw [h] <;> simp only <;> ring

/-- Every vertex is within half the box diagonal of the box centre. -/
theorem box_sphere_encloses (vertex : List (Point3D ℝ)) (hne : vertex ≠ [])
    (v : Point3D ℝ) (hv : v ∈ vertex) :
    Magnitude Real.sqrt (v - (CalculatePrincipalComponents Real.sqrt vertex).2)
      ≤ sphere_box_radius Real.sqrt vertex := by
  unfold Magnitude sphere_box_radius
  apply Real.sqrt_le_sqrt
  have h := unsorted_box_sphere vertex hne v hv
  rw [← sortDecreasing_sum_sqrf] at h
  exact h

end BoxSphereLemmas

/-- Claim C16: after `CalculateBounds` on a non-empty LOD-0 vertex set, in exact real
arithmetic, every vertex lies within the stored bounding sphere, whether it is the fitted
sphere or the sphere centred at `box_center` with radius half the box diagonal. -/
theorem CalculateBounds_sphere_contains_vertices (m : sreModel ℝ)
    (hne : m.lod_model.headD [] ≠ []) :
    ∀ v ∈ m.lod_model.headD [],
      Magnitude Real.sqrt (v - (CalculateBounds Real.sqrt Real.pi m).sphere.center)
        ≤ (CalculateBounds Real.sqrt Real.pi m).sphere.radius := by
  intro v hv
  show Magnitude Real.sqrt (v - (boundingSphere Real.sqrt Real.pi (m.lod_model.headD [])).center)
    ≤ (boundingSphere Real.sqrt Real.pi (m.lod_model.headD [])).radius
  unfold boundingSphere
  split_ifs
  · exact box_sphere_encloses _ hne v hv
  · exact sphere_encloses _ _ v hv

/-- Witness for C16: the vertex `(4, 1, 0)` of the sample rod. -/
theorem CalculateBounds_sphere_contains_vertices_witness :
    Magnitude Real.sqrt ((⟨4, 1, 0⟩ : Point3D ℝ)
        - (CalculateBounds Real.sqrt Real.pi (modelOf rodVertices)).sphere.center)
      ≤ (CalculateBounds Real.sqrt Real.pi (modelOf rodVertices)).sphere.radius :=
  CalculateBounds_sphere_contains_vertices (modelOf rodVertices) (List.cons_ne_nil _ _)
    ⟨4, 1, 0⟩ (by simp [modelOf, rodVertices])

/-! ## Selection of the special shape -/

section SpecialLemmas

theorem Vector3D.sub_mk {F : Type} [LinearOrderedField F] (a b c d e f : F) :
    (⟨a, b, c⟩ : Vector3D F) - ⟨d, e, f⟩ = ⟨a - d, b - e, c - f⟩ := rfl

theorem Vector3D.add_mk {F : Type} [LinearOrderedField F] (a b c d e f : F) :
    (⟨a, b, c⟩ : Vector3D F) + ⟨d, e, f⟩ = ⟨a + d, b + e, c + f⟩ := rfl

theorem Vector3D.scale_mk {F : Type} [LinearOrderedField F] (t a b c : F) :
    Vector3D.scale t (⟨a, b, c⟩ : Vector3D F) = ⟨t * a, t * b, t * c⟩ := rfl

/-- The cylinder fitted to the sample rod: radius 1 around the x axis, length 8. -/
theorem rodVertices_cylinder :
    CalculatePCABoundingCylinder Real.sqrt (rodVertices : List (Point3D ℝ))
        ⟨⟨⟨1, 0, 0⟩, 8⟩, ⟨⟨0, 1, 0⟩, 2⟩, ⟨⟨0, 0, 1⟩, 2⟩⟩
      = ⟨⟨0, 0, 0⟩, 8, ⟨1, 0, 0⟩, 1⟩ := by
  norm_num [CalculatePCABoundingCylinder, rodVertices, dstGetIndicesWithMinAndMaxDotProductNx1,
    MinMaxIndex.run, MinMaxIndex.step, vertexAt, Dot, SquaredMag, SphereFit.grow,
    dstCalculateMinAndMaxDotProductNx1, minf, maxf, Vector3D.sub_mk, Vector3D.add_mk,
    Vector3D.scale_mk, Magnitude]

/-- For the sample rod the best basic volume is the box volume, 32. -/
theorem rodVertices_best_volume :
    best_volume Real.sqrt Real.pi (rodVertices : List (Point3D ℝ)) = 32 := by
  have hvol : volume_box Real.sqrt (rodVertices : List (Point3D ℝ))
      < volume_sphere Real.sqrt Real.pi (rodVertices : List (Point3D ℝ)) :=
    rod_volume_box_lt rodVertices (List.cons_ne_nil _ _)
      (by rw [rodVertices_components]; norm_num) (by rw [rodVertices_components]; norm_num)
  unfold best_volume
  rw [if_pos hvol]
  unfold volume_box
  rw [rodVertices_components]
  norm_num

/-- A special shape is stored for the sample rod. -/
theorem rodVertices_special_selected :
    (specialSelection Real.sqrt Real.pi (rodVertices : List (Point3D ℝ))).isSome = true := by
  have hc : (CalculatePrincipalComponents Real.sqrt (rodVertices : List (Point3D ℝ))).1.c2.size
      > EPSILON := by
    rw [rodVertices_components]
    norm_num [EPSILON]
  have hcyl : volume_cylinder Real.pi (CalculatePCABoundingCylinder Real.sqrt
        (rodVertices : List (Point3D ℝ))
        (CalculatePrincipalComponents Real.sqrt (rodVertices : List (Point3D ℝ))).1)
      = Real.pi * 8 := by
    rw [rodVertices_components, rodVertices_cylinder]
    norm_num [volume_cylinder, sqrf]
  have hpi := Real.pi_lt_d2
  unfold specialSelection
  rw [if_pos hc]
  dsimp only
  split_ifs with he hy
  · rfl
  · rfl
  · exfalso
    apply hy
    rw [hcyl, rodVertices_best_volume]
    constructor
    · linarith
    · norm_num [EPSILON2]
      linarith

end SpecialLemmas

/-- Claim C19: `CalculateBounds` sets `SRE_BOUNDS_PREFER_SPECIAL` only if the smallest
extent exceeds `EPSILON` and the stored special shape's volume `V` satisfies both
`V < 0.99·best` and `best - V > 0.0001`, where `best` is the volume of the chosen basic
shape (the box when `volume_box < volume_sphere`, else the sphere); the stored shape is
the ellipsoid only if additionally `volume_ellipsoid ≤ volume_cylinder`, and is the
cylinder otherwise. -/
theorem CalculateBounds_special_only_if_smaller {F : Type} [LinearOrderedField F]
    (sqrtf : F → F) (M_PI : F) (m : sreModel F)
    (hset : (CalculateBounds sqrtf M_PI m).bounds_flags &&& SRE_BOUNDS_PREFER_SPECIAL ≠ 0) :
    (CalculateBounds sqrtf M_PI m).PCA.c2.size > EPSILON ∧
    best_volume sqrtf M_PI (m.lod_model.headD [])
      = (if volume_box sqrtf (m.lod_model.headD [])
            < volume_sphere sqrtf M_PI (m.lod_model.headD []) then
          volume_box sqrtf (m.lod_model.headD [])
        else volume_sphere sqrtf M_PI (m.lod_model.headD [])) ∧
    (((CalculateBounds sqrtf M_PI m).bv_special
        = .ellipsoid (CalculatePCABoundingEllipsoid sqrtf (m.lod_model.headD [])
            (CalculateBounds sqrtf M_PI m).PCA) ∧
      volume_ellipsoid sqrtf M_PI (CalculatePCABoundingEllipsoid sqrtf (m.lod_model.headD [])
          (CalculateBounds sqrtf M_PI m).PCA)
        < 99 / 100 * best_volume sqrtf M_PI (m.lod_model.headD []) ∧
      best_volume sqrtf M_PI (m.lod_model.headD [])
          - volume_ellipsoid sqrtf M_PI (CalculatePCABoundingEllipsoid sqrtf
              (m.lod_model.headD []) (CalculateBounds sqrtf M_PI m).PCA) > EPSILON2 ∧
      volume_ellipsoid sqrtf M_PI (CalculatePCABoundingEllipsoid sqrtf (m.lod_model.headD [])
          (CalculateBounds sqrtf M_PI m).PCA)
        ≤ volume_cylinder M_PI (CalculatePCABoundingCylinder sqrtf (m.lod_model.headD [])
            (CalculateBounds sqrtf M_PI m).PCA)) ∨
     ((CalculateBounds sqrtf M_PI m).bv_special
        = .cylinder (CalculatePCABoundingCylinder sqrtf (m.lod_model.headD [])
            (CalculateBounds sqrtf M_PI m).PCA) ∧
      volume_cylinder M_PI (CalculatePCABoundingCylinder sqrtf (m.lod_model.headD [])
          (CalculateBounds sqrtf M_PI m).PCA)
        < 99 / 100 * best_volume sqrtf M_PI (m.lod_model.headD []) ∧
      best_volume sqrtf M_PI (m.lod_model.headD [])
          - volume_cylinder M_PI (CalculatePCABoundingCylinder sqrtf (m.lod_model.headD [])
              (CalculateBounds sqrtf M_PI m).PCA) > EPSILON2)) := by
  have hsome : (specialSelection sqrtf M_PI (m.lod_model.headD [])).isSome = true :=
    (boundsFlags_special_bit sqrtf M_PI (m.lod_model.headD [])).mp hset
  have hbv : (CalculateBounds sqrtf M_PI m).bv_special
      = (match specialSelection sqrtf M_PI (m.lod_model.headD []) with
        | some s => s
        | none => m.bv_special) := rfl
  rw [hbv]
  show (CalculatePrincipalComponents sqrtf (m.lod_model.headD [])).1.c2.size > EPSILON ∧ _
  unfold specialSelection at hsome ⊢
  by_cases hc : (CalculatePrincipalComponents sqrtf (m.lod_model.headD [])).1.c2.size > EPSILON
  · rw [if_pos hc] at hsome ⊢
    dsimp only at hsome ⊢
    refine ⟨hc, rfl, ?_⟩
    split_ifs at hsome ⊢ with he hy
    · exact Or.inl ⟨rfl, he.1, he.2.1, he.2.2⟩
    · exact Or.inr ⟨rfl, hy.1, hy.2⟩
    · exact absurd hsome (by simp)
  · rw [if_neg hc] at hsome
    exact absurd hsome (by simp)

/-- Witness for C19: on the sample rod the special bit is set; the cylinder of radius 1
and length 8 has volume `8π`, which is below `0.99·32`. -/
theorem CalculateBounds_special_only_if_smaller_witness :
    (CalculateBounds Real.sqrt Real.pi (modelOf (rodVertices : List (Point3D ℝ)))).bounds_flags
        &&& SRE_BOUNDS_PREFER_SPECIAL ≠ 0 ∧
    (CalculateBounds Real.sqrt Real.pi (modelOf (rodVertices : List (Point3D ℝ)))).PCA.c2.size
      > EPSILON :=
  have hset : (CalculateBounds Real.sqrt Real.pi
      (modelOf (rodVertices : List (Point3D ℝ)))).bounds_flags
        &&& SRE_BOUNDS_PREFER_SPECIAL ≠ 0 :=
    (boundsFlags_special_bit Real.sqrt Real.pi rodVertices).mpr rodVertices_special_selected
  ⟨hset, (CalculateBounds_special_only_if_smaller Real.sqrt Real.pi (modelOf rodVertices) hset).1⟩

/-! ## Setters of the model record -/

/-- Claim C30: for a symmetric input whose three off-diagonal entries have magnitude below
`1e-10`, `CalculateEigensystem` performs no rotation: it returns `r = identity` and
`lambda = (m(0,0), m(1,1), m(2,2))`; in particular this holds for every diagonal matrix. -/
theorem CalculateEigensystem_no_rotation_when_small {F : Type} [LinearOrderedField F]
    (sqrtf : F → F) (m : Matrix3D F) (_hsym : m.IsSymmetric)
    (h01 : |m.m01| < epsilon) (h02 : |m.m02| < epsilon) (h12 : |m.m12| < epsilon) :
    CalculateEigensystem sqrtf m = ⟨m.m00, m.m11, m.m22, Matrix3D.identity⟩ ∧
    ∀ d0 d1 d2 : F,
      CalculateEigensystem sqrtf (Matrix3D.diagonal d0 d1 d2)
        = ⟨d0, d1, d2, Matrix3D.identity⟩ := by
  have key : ∀ a : Matrix3D F, |a.m01| < epsilon → |a.m02| < epsilon → |a.m12| < epsilon →
      CalculateEigensystem sqrtf a = ⟨a.m00, a.m11, a.m22, Matrix3D.identity⟩ := by
    intro a a01 a02 a12
    have hsmall : (EigenState.init a).offDiagonalSmall = true := by
      simp only [EigenState.offDiagonalSmall, EigenState.init, Bool.and_eq_true,
        decide_eq_true_eq]
      exact ⟨⟨a01, a02⟩, a12⟩
    have hfinal : eigenFinalState sqrtf a = EigenState.init a := by
      unfold eigenFinalState
      rw [show maxSweeps = 31 + 1 from rfl, eigenLoop_of_small sqrtf 31 _ hsmall]
    unfold CalculateEigensystem
    rw [hfinal]
    rfl
  refine ⟨key m h01 h02 h12, ?_⟩
  intro d0 d1 d2
  have hpos : (0 : F) < epsilon := by
    unfold epsilon
    positivity
  have hz : |(0 : F)| < epsilon := by
    rw [abs_zero]
    exact hpos
  exact key (Matrix3D.diagonal d0 d1 d2) hz hz hz

/-- Witness for C30: a symmetric matrix with the off-diagonal entries `1e-11`. -/
theorem CalculateEigensystem_no_rotation_when_small_witness :
    CalculateEigensystem Real.sqrt
        (Matrix3D.symmetric 2 5 3 (1 / 100000000000) (1 / 100000000000) (1 / 100000000000))
      = ⟨2, 5, 3, Matrix3D.identity⟩ :=
  (CalculateEigensystem_no_rotation_when_small Real.sqrt
    (Matrix3D.symmetric 2 5 3 (1 / 100000000000) (1 / 100000000000) (1 / 100000000000))
    ⟨rfl, rfl, rfl⟩
    (by norm_num [Matrix3D.symmetric, epsilon, abs_of_pos])
    (by norm_num [Matrix3D.symmetric, epsilon, abs_of_pos])
    (by norm_num [Matrix3D.symmetric, epsilon, abs_of_pos])).1

/-- Claim C26: `SetBoundingCollisionShapeCapsule(c)` stores a special collision shape of
type capsule whose fields equal `c`, or-s `SRE_BOUNDS_SPECIAL_SRE_COLLISION_SHAPE` into
`bounds_flags` so that every flag set before stays set, and leaves the PCA axes,
`box_center`, the sphere, the AABB and `bv_special` unchanged. -/
theorem SetBoundingCollisionShapeCapsule_frame {F : Type} [LinearOrderedField F]
    (m : sreModel F) (c : sreBoundingVolumeCapsule F) :
    (SetBoundingCollisionShapeCapsule m c).special_collision_shape = some (.capsule c) ∧
    (SetBoundingCollisionShapeCapsule m c).bounds_flags
      = m.bounds_flags ||| SRE_BOUNDS_SPECIAL_SRE_COLLISION_SHAPE ∧
    (SetBoundingCollisionShapeCapsule m c).bounds_flags &&& SRE_BOUNDS_SPECIAL_SRE_COLLISION_SHAPE
      = SRE_BOUNDS_SPECIAL_SRE_COLLISION_SHAPE ∧
    (∀ k : Nat, m.bounds_flags.testBit k = true →
      (SetBoundingCollisionShapeCapsule m c).bounds_flags.testBit k = true) ∧
    (SetBoundingCollisionShapeCapsule m c).PCA = m.PCA ∧
    (SetBoundingCollisionShapeCapsule m c).box_center = m.box_center ∧
    (SetBoundingCollisionShapeCapsule m c).sphere = m.sphere ∧
    (SetBoundingCollisionShapeCapsule m c).AABB = m.AABB ∧
    (SetBoundingCollisionShapeCapsule m c).bv_special = m.bv_special ∧
    (SetBoundingCollisionShapeCapsule m c).lod_model = m.lod_model := by
  refine ⟨rfl, rfl, ?_, ?_, rfl, rfl, rfl, rfl, rfl, rfl⟩
  · show (m.bounds_flags ||| SRE_BOUNDS_SPECIAL_SRE_COLLISION_SHAPE)
        &&& SRE_BOUNDS_SPECIAL_SRE_COLLISION_SHAPE = SRE_BOUNDS_SPECIAL_SRE_COLLISION_SHAPE
    apply Nat.eq_of_testBit_eq
    intro i
    rw [Nat.testBit_and, Nat.testBit_or]
    cases m.bounds_flags.testBit i <;> cases SRE_BOUNDS_SPECIAL_SRE_COLLISION_SHAPE.testBit i <;>
      rfl
  · intro k hk
    show (m.bounds_flags ||| SRE_BOUNDS_SPECIAL_SRE_COLLISION_SHAPE).testBit k = true
    rw [Nat.testBit_or, hk]
    rfl

/-- Claim C24: after `SetOBBWithAABBBounds(A)` the three directions are the coordinate
unit vectors, a point `P` satisfies `|(P - box_center)·PCA[i].vector| ≤ PCA[i].size/2`
for `i = 0, 1, 2` if and only if `Intersects(P, A)`, the three sizes are non-negative, and
`bounds_flags` is exactly `SRE_BOUNDS_PREFER_BOX`. -/
theorem SetOBBWithAABBBounds_is_the_box {F : Type} [LinearOrderedField F]
    (m : sreModel F) (A : sreBoundingVolumeAABB F)
    (hA : A.dim_min.x ≤ A.dim_max.x ∧ A.dim_min.y ≤ A.dim_max.y ∧ A.dim_min.z ≤ A.dim_max.z) :
    (SetOBBWithAABBBounds m A).PCA.c0.vector = ⟨1, 0, 0⟩ ∧
    (SetOBBWithAABBBounds m A).PCA.c1.vector = ⟨0, 1, 0⟩ ∧
    (SetOBBWithAABBBounds m A).PCA.c2.vector = ⟨0, 0, 1⟩ ∧
    (∀ P : Point3D F,
      (∀ i : Fin 3,
        |Dot (P - (SetOBBWithAABBBounds m A).box_center)
            ((SetOBBWithAABBBounds m A).PCA.get i).vector|
          ≤ ((SetOBBWithAABBBounds m A).PCA.get i).size / 2) ↔
      Intersects_Point_AABB P A = true) ∧
    (∀ i : Fin 3, 0 ≤ ((SetOBBWithAABBBounds m A).PCA.get i).size) ∧
    (SetOBBWithAABBBounds m A).bounds_flags = SRE_BOUNDS_PREFER_BOX := by
  refine ⟨rfl, rfl, rfl, ?_, ?_, rfl⟩
  swap
  · intro i
    fin_cases i
    · exact sub_nonneg.mpr hA.1
    · exact sub_nonneg.mpr hA.2.1
    · exact sub_nonneg.mpr hA.2.2
  intro P
  rw [Intersects_Point_AABB_true_iff]
  have hx : Dot (P - (SetOBBWithAABBBounds m A).box_center)
      ((SetOBBWithAABBBounds m A).PCA.get 0).vector
      = P.x - (A.dim_max.x + A.dim_min.x) * (1 / 2) := by
    simp [SetOBBWithAABBBounds, PCAArray.get, Dot]
  have hy : Dot (P - (SetOBBWithAABBBounds m A).box_center)
      ((SetOBBWithAABBBounds m A).PCA.get 1).vector
      = P.y - (A.dim_max.y + A.dim_min.y) * (1 / 2) := by
    simp [SetOBBWithAABBBounds, PCAArray.get, Dot]
  have hz : Dot (P - (SetOBBWithAABBBounds m A).box_center)
      ((SetOBBWithAABBBounds m A).PCA.get 2).vector
      = P.z - (A.dim_max.z + A.dim_min.z) * (1 / 2) := by
    simp [SetOBBWithAABBBounds, PCAArray.get, Dot]
  have sx : ((SetOBBWithAABBBounds m A).PCA.get 0).size = A.dim_max.x - A.dim_min.x := rfl
  have sy : ((SetOBBWithAABBBounds m A).PCA.get 1).size = A.dim_max.y - A.dim_min.y := rfl
  have sz : ((SetOBBWithAABBBounds m A).PCA.get 2).size = A.dim_max.z - A.dim_min.z := rfl
  constructor
  · intro h
    have h0 := abs_le.mp (h 0)
    have h1 := abs_le.mp (h 1)
    have h2 := abs_le.mp (h 2)
    rw [hx, sx] at h0
    rw [hy, sy] at h1
    rw [hz, sz] at h2
    refine ⟨⟨?_, ?_⟩, ⟨?_, ?_⟩, ⟨?_, ?_⟩⟩ <;> linarith [h0.1, h0.2, h1.1, h1.2, h2.1, h2.2]
  · rintro ⟨⟨x1, x2⟩, ⟨y1, y2⟩, ⟨z1, z2⟩⟩
    intro i
    fin_cases i
    · show |Dot (P - (SetOBBWithAABBBounds m A).box_center)
          ((SetOBBWithAABBBounds m A).PCA.get 0).vector|
        ≤ ((SetOBBWithAABBBounds m A).PCA.get 0).size / 2
      rw [hx, sx, abs_le]
      constructor <;> linarith
    · show |Dot (P - (SetOBBWithAABBBounds m A).box_center)
          ((SetOBBWithAABBBounds m A).PCA.get 1).vector|
        ≤ ((SetOBBWithAABBBounds m A).PCA.get 1).size / 2
      rw [hy, sy, abs_le]
      constructor <;> linarith
    · show |Dot (P - (SetOBBWithAABBBounds m A).box_center)
          ((SetOBBWithAABBBounds m A).PCA.get 2).vector|
        ≤ ((SetOBBWithAABBBounds m A).PCA.get 2).size / 2
      rw [hz, sz, abs_le]
      constructor <;> linarith

/-- Witness for C24: the box `[0,1]×[0,2]×[0,3]` and the point `(1, 1, 1)`. -/
theorem SetOBBWithAABBBounds_is_the_box_witness :
    ((∀ i : Fin 3,
        |Dot ((⟨1, 1, 1⟩ : Point3D ℚ)
            - (SetOBBWithAABBBounds (modelOf []) ⟨⟨0, 0, 0⟩, ⟨1, 2, 3⟩⟩).box_center)
            ((SetOBBWithAABBBounds (modelOf []) ⟨⟨0, 0, 0⟩, ⟨1, 2, 3⟩⟩).PCA.get i).vector|
          ≤ ((SetOBBWithAABBBounds (modelOf ([] : List (Point3D ℚ)))
              ⟨⟨0, 0, 0⟩, ⟨1, 2, 3⟩⟩).PCA.get i).size / 2) ↔
      Intersects_Point_AABB (⟨1, 1, 1⟩ : Point3D ℚ) ⟨⟨0, 0, 0⟩, ⟨1, 2, 3⟩⟩ = true) ∧
    (SetOBBWithAABBBounds (modelOf ([] : List (Point3D ℚ))) ⟨⟨0, 0, 0⟩, ⟨1, 2, 3⟩⟩).bounds_flags
      = SRE_BOUNDS_PREFER_BOX :=
  have h := SetOBBWithAABBBounds_is_the_box (modelOf ([] : List (Point3D ℚ)))
    ⟨⟨0, 0, 0⟩, ⟨1, 2, 3⟩⟩ (by norm_num)
  ⟨h.2.2.2.1 ⟨1, 1, 1⟩, h.2.2.2.2.2⟩

/-- Counterexample for C25: for the box `[0,1]×[0,2]×[0,3]`, whose corners satisfy
`dim_min ≤ dim_max`, `SetOBBWithAABBBounds` stores the sizes `1, 2, 3` in this order,
which are not descending. -/
theorem SetOBBWithAABBBounds_sizes_not_descending :
    ((0 : ℚ) ≤ 1 ∧ (0 : ℚ) ≤ 2 ∧ (0 : ℚ) ≤ 3) ∧
    (SetOBBWithAABBBounds (modelOf ([] : List (Point3D ℚ))) ⟨⟨0, 0, 0⟩, ⟨1, 2, 3⟩⟩).PCA.c0.size = 1 ∧
    (SetOBBWithAABBBounds (modelOf ([] : List (Point3D ℚ))) ⟨⟨0, 0, 0⟩, ⟨1, 2, 3⟩⟩).PCA.c1.size = 2 ∧
    (SetOBBWithAABBBounds (modelOf ([] : List (Point3D ℚ))) ⟨⟨0, 0, 0⟩, ⟨1, 2, 3⟩⟩).PCA.c2.size = 3 ∧
    ¬ ((SetOBBWithAABBBounds (modelOf ([] : List (Point3D ℚ)))
          ⟨⟨0, 0, 0⟩, ⟨1, 2, 3⟩⟩).PCA.c0.size
        ≥ (SetOBBWithAABBBounds (modelOf ([] : List (Point3D ℚ)))
          ⟨⟨0, 0, 0⟩, ⟨1, 2, 3⟩⟩).PCA.c1.size ∧
      (SetOBBWithAABBBounds (modelOf ([] : List (Point3D ℚ)))
          ⟨⟨0, 0, 0⟩, ⟨1, 2, 3⟩⟩).PCA.c1.size
        ≥ (SetOBBWithAABBBounds (modelOf ([] : List (Point3D ℚ)))
          ⟨⟨0, 0, 0⟩, ⟨1, 2, 3⟩⟩).PCA.c2.size) := by
  norm_num [SetOBBWithAABBBounds, modelOf]

/-- Claim C25, amended: the sizes stored by `CalculateBounds` on a non-empty vertex set
satisfy `size[0] ≥ size[1] ≥ size[2]`; the sizes stored by `SetOBBWithAABBBounds(A)` for
a box with `dim_min ≤ dim_max` are the extents of `A` along x, y and z in this order,
each non-negative, and they are descending exactly when the extents of `A` are. -/
theorem stored_sizes_after_writers {F : Type} [LinearOrderedField F]
    (sqrtf : F → F) (M_PI : F) (m : sreModel F) (A : sreBoundingVolumeAABB F)
    (hne : m.lod_model.headD [] ≠ [])
    (hA : A.dim_min.x ≤ A.dim_max.x ∧ A.dim_min.y ≤ A.dim_max.y ∧ A.dim_min.z ≤ A.dim_max.z) :
    ((CalculateBounds sqrtf M_PI m).PCA.c0.size ≥ (CalculateBounds sqrtf M_PI m).PCA.c1.size ∧
      (CalculateBounds sqrtf M_PI m).PCA.c1.size ≥ (CalculateBounds sqrtf M_PI m).PCA.c2.size) ∧
    (SetOBBWithAABBBounds m A).PCA.c0.size = A.dim_max.x - A.dim_min.x ∧
    (SetOBBWithAABBBounds m A).PCA.c1.size = A.dim_max.y - A.dim_min.y ∧
    (SetOBBWithAABBBounds m A).PCA.c2.size = A.dim_max.z - A.dim_min.z ∧
    0 ≤ (SetOBBWithAABBBounds m A).PCA.c0.size ∧
    0 ≤ (SetOBBWithAABBBounds m A).PCA.c1.size ∧
    0 ≤ (SetOBBWithAABBBounds m A).PCA.c2.size ∧
    (((SetOBBWithAABBBounds m A).PCA.c0.size ≥ (SetOBBWithAABBBounds m A).PCA.c1.size ∧
        (SetOBBWithAABBBounds m A).PCA.c1.size ≥ (SetOBBWithAABBBounds m A).PCA.c2.size) ↔
      (A.dim_max.x - A.dim_min.x ≥ A.dim_max.y - A.dim_min.y ∧
        A.dim_max.y - A.dim_min.y ≥ A.dim_max.z - A.dim_min.z)) := by
  have hs := (unsortedComponents sqrtf (m.lod_model.headD [])).sortDecreasing_sorted
  have _ := hne
  refine ⟨⟨hs.1, hs.2⟩, rfl, rfl, rfl, ?_, ?_, ?_, Iff.rfl⟩
  · show 0 ≤ A.dim_max.x - A.dim_min.x
    exact sub_nonneg.mpr hA.1
  · show 0 ≤ A.dim_max.y - A.dim_min.y
    exact sub_nonneg.mpr hA.2.1
  · show 0 ≤ A.dim_max.z - A.dim_min.z
    exact sub_nonneg.mpr hA.2.2

/-- Witness for C25: a two-vertex model and the box `[0,3]×[0,2]×[0,1]`. -/
theorem stored_sizes_after_writers_witness :
    ((CalculateBounds Real.sqrt Real.pi
          (modelOf [(⟨0, 0, 0⟩ : Point3D ℝ), ⟨0, 2, 0⟩])).PCA.c0.size
        ≥ (CalculateBounds Real.sqrt Real.pi
          (modelOf [(⟨0, 0, 0⟩ : Point3D ℝ), ⟨0, 2, 0⟩])).PCA.c1.size ∧
      (CalculateBounds Real.sqrt Real.pi
          (modelOf [(⟨0, 0, 0⟩ : Point3D ℝ), ⟨0, 2, 0⟩])).PCA.c1.size
        ≥ (CalculateBounds Real.sqrt Real.pi
          (modelOf [(⟨0, 0, 0⟩ : Point3D ℝ), ⟨0, 2, 0⟩])).PCA.c2.size) ∧
    (SetOBBWithAABBBounds (modelOf [(⟨0, 0, 0⟩ : Point3D ℝ), ⟨0, 2, 0⟩])
      ⟨⟨0, 0, 0⟩, ⟨3, 2, 1⟩⟩).PCA.c0.size = 3 - 0 :=
  have h := stored_sizes_after_writers Real.sqrt Real.pi
    (modelOf [(⟨0, 0, 0⟩ : Point3D ℝ), ⟨0, 2, 0⟩]) ⟨⟨0, 0, 0⟩, ⟨3, 2, 1⟩⟩
    (List.cons_ne_nil _ _) (by norm_num)
  ⟨h.1, h.2.1⟩

/-- Claim C28: the PCA axes, `box_center`, sphere, AABB and `bounds_flags` written by
`CalculateBounds` depend on the LOD-0 vertex sequence only: two records with the same
vertex sequence get the same values whatever they held before, and running
`CalculateBounds` a second time changes nothing. -/
theorem CalculateBounds_depends_on_vertices_only {F : Type} [LinearOrderedField F]
    (sqrtf : F → F) (M_PI : F) (m1 m2 : sreModel F)
    (h : m1.lod_model.headD [] = m2.lod_model.headD []) :
    (CalculateBounds sqrtf M_PI m1).PCA = (CalculateBounds sqrtf M_PI m2).PCA ∧
    (CalculateBounds sqrtf M_PI m1).box_center = (CalculateBounds sqrtf M_PI m2).box_center ∧
    (CalculateBounds sqrtf M_PI m1).sphere = (CalculateBounds sqrtf M_PI m2).sphere ∧
    (CalculateBounds sqrtf M_PI m1).AABB = (CalculateBounds sqrtf M_PI m2).AABB ∧
    (CalculateBounds sqrtf M_PI m1).bounds_flags = (CalculateBounds sqrtf M_PI m2).bounds_flags ∧
    CalculateBounds sqrtf M_PI (CalculateBounds sqrtf M_PI m1) = CalculateBounds sqrtf M_PI m1 := by
  refine ⟨congrArg (fun v => (CalculatePrincipalComponents sqrtf v).1) h,
    congrArg (fun v => (CalculatePrincipalComponents sqrtf v).2) h,
    congrArg (fun v => boundingSphere sqrtf M_PI v) h,
    congrArg (fun v => CalculateAABB v) h,
    congrArg (fun v => boundsFlags sqrtf M_PI v) h, ?_⟩
  unfold CalculateBounds
  simp only
  cases specialSelection sqrtf M_PI (m1.lod_model.headD []) <;> rfl

/-- Witness for C28: the rod in a fresh record and in a record on which
`SetOBBWithAABBBounds` and `SetBoundingCollisionShapeCapsule` ran before. -/
theorem CalculateBounds_depends_on_vertices_only_witness :
    (CalculateBounds Real.sqrt Real.pi (modelOf rodVertices)).PCA
      = (CalculateBounds Real.sqrt Real.pi
          (SetBoundingCollisionShapeCapsule
            (SetOBBWithAABBBounds (modelOf rodVertices) ⟨⟨0, 0, 0⟩, ⟨1, 2, 3⟩⟩)
            ⟨1, 5, 1, 1⟩)).PCA ∧
    (CalculateBounds Real.sqrt Real.pi (modelOf rodVertices)).bounds_flags
      = (CalculateBounds Real.sqrt Real.pi
          (SetBoundingCollisionShapeCapsule
            (SetOBBWithAABBBounds (modelOf rodVertices) ⟨⟨0, 0, 0⟩, ⟨1, 2, 3⟩⟩)
            ⟨1, 5, 1, 1⟩)).bounds_flags :=
  have h := CalculateBounds_depends_on_vertices_only Real.sqrt Real.pi (modelOf rodVertices)
    (SetBoundingCollisionShapeCapsule
      (SetOBBWithAABBBounds (modelOf rodVertices) ⟨⟨0, 0, 0⟩, ⟨1, 2, 3⟩⟩)
      ⟨1, 5, 1, 1⟩) rfl
  ⟨h.1, h.2.2.2.2.1⟩

/-! ## One growth step of the sphere fit -/

/-- Squared length of a vector shortened by the factor `1 - k`. -/
theorem SquaredMag_sub_scale_self (w : Vector3D ℝ) (k : ℝ) :
    SquaredMag (w - Vector3D.scale k w) = (1 - k) ^ 2 * SquaredMag w := by
  simp only [SquaredMag, Dot, Vector3D.sub_x, Vector3D.sub_y, Vector3D.sub_z, Vector3D.scale_x,
    Vector3D.scale_y, Vector3D.scale_z]
  ring

/-- Claim C29: one growth step of the sphere fit over the reals.  For a sphere `(c, r)`
with `r ≥ 0` and a vertex `P` at distance `d > r` from `c`, the new centre is the midpoint
of `P` and `G = c - r·(P - c)/d`, the new radius is `|P - c'| = (d + r)/2 > r`, and every
point of the previous sphere lies in the new one. -/
theorem SphereFit_grow_outside_vertex (s : SphereFit ℝ) (P : Point3D ℝ)
    (hr : 0 ≤ s.r_squared)
    (hd : Magnitude Real.sqrt (P - s.center) > Real.sqrt s.r_squared) :
    (s.grow Real.sqrt P).center
      = Vector3D.scale (1 / 2)
          ((s.center - (Vector3D.scale (Real.sqrt s.r_squared) (P - s.center)).divScalar
            (Magnitude Real.sqrt (P - s.center))) + P) ∧
    Real.sqrt (s.grow Real.sqrt P).r_squared
      = Magnitude Real.sqrt (P - (s.grow Real.sqrt P).center) ∧
    Real.sqrt (s.grow Real.sqrt P).r_squared
      = (Magnitude Real.sqrt (P - s.center) + Real.sqrt s.r_squared) / 2 ∧
    Real.sqrt (s.grow Real.sqrt P).r_squared > Real.sqrt s.r_squared ∧
    ∀ x : Point3D ℝ, Magnitude Real.sqrt (x - s.center) ≤ Real.sqrt s.r_squared →
      Magnitude Real.sqrt (x - (s.grow Real.sqrt P).center)
        ≤ Real.sqrt (s.grow Real.sqrt P).r_squared := by
  have hgt : SquaredMag (P - s.center) > s.r_squared := (Real.sqrt_lt_sqrt_iff hr).mp hd
  have hr0 : 0 ≤ Real.sqrt s.r_squared := Real.sqrt_nonneg _
  have hdpos : 0 < Magnitude Real.sqrt (P - s.center) := lt_of_le_of_lt hr0 hd
  have hdd : Magnitude Real.sqrt (P - s.center) ^ 2 = SquaredMag (P - s.center) :=
    Real.sq_sqrt (SquaredMag_nonneg _)
  have hg : s.grow Real.sqrt P
      = { center := Vector3D.scale (1 / 2)
            ((s.center - (Vector3D.scale (Real.sqrt s.r_squared) (P - s.center)).divScalar
              (Magnitude Real.sqrt (P - s.center))) + P)
          r_squared := SquaredMag (P - Vector3D.scale (1 / 2)
            ((s.center - (Vector3D.scale (Real.sqrt s.r_squared) (P - s.center)).divScalar
              (Magnitude Real.sqrt (P - s.center))) + P)) } := by
    unfold SphereFit.grow
    simp only
    rw [if_pos hgt]
  have hsq : (s.grow Real.sqrt P).r_squared
      = ((Magnitude Real.sqrt (P - s.center) + Real.sqrt s.r_squared) / 2) ^ 2 := by
    rw [hg]
    simp only
    rw [grow_center_eq s.center P _ _ hdpos.ne' P, SquaredMag_sub_scale_self, ← hdd]
    field_simp
    ring
  have hhalf : 0 ≤ (Magnitude Real.sqrt (P - s.center) + Real.sqrt s.r_squared) / 2 := by
    linarith
  have hrad : Real.sqrt (s.grow Real.sqrt P).r_squared
      = (Magnitude Real.sqrt (P - s.center) + Real.sqrt s.r_squared) / 2 := by
    rw [hsq, Real.sqrt_sq hhalf]
  refine ⟨by rw [hg], ?_, hrad, ?_, ?_⟩
  · unfold Magnitude
    rw [hg]
  · rw [hrad]
    linarith
  · intro x hx
    have hx2 : SquaredMag (x - s.center) ≤ s.r_squared :=
      (Real.sqrt_le_sqrt_iff hr).mp hx
    exact Real.sqrt_le_sqrt ((SphereFit.grow_spec s P hr).2.2 x hx2)

/-- Witness for C29: the unit sphere at the origin and the vertex `(3, 0, 0)`. -/
theorem SphereFit_grow_outside_vertex_witness :
    Real.sqrt ((⟨⟨0, 0, 0⟩, 1⟩ : SphereFit ℝ).grow Real.sqrt ⟨3, 0, 0⟩).r_squared
      = (Magnitude Real.sqrt ((⟨3, 0, 0⟩ : Point3D ℝ) - (⟨⟨0, 0, 0⟩, 1⟩ : SphereFit ℝ).center)
          + Real.sqrt (⟨⟨0, 0, 0⟩, 1⟩ : SphereFit ℝ).r_squared) / 2 ∧
    Real.sqrt ((⟨⟨0, 0, 0⟩, 1⟩ : SphereFit ℝ).grow Real.sqrt ⟨3, 0, 0⟩).r_squared
      > Real.sqrt (⟨⟨0, 0, 0⟩, 1⟩ : SphereFit ℝ).r_squared :=
  have h := SphereFit_grow_outside_vertex ⟨⟨0, 0, 0⟩, 1⟩ ⟨3, 0, 0⟩ (by norm_num)
    (by
      have h9 : Real.sqrt 9 = 3 := by
        rw [show (9 : ℝ) = 3 ^ 2 by norm_num]
        exact Real.sqrt_sq (by norm_num)
      norm_num [Magnitude, SquaredMag, Dot, Vector3D.sub_mk, h9])
  ⟨h.2.2.1, h.2.2.2.1⟩

/-! ## The union of the boxes of the LOD levels -/

section ExtentsLemmas

variable {F : Type} [LinearOrderedField F]

theorem max3f_eq_max (x y z : F) : max3f x y z = max (max x y) z := by
  unfold max3f
  simp only
  by_cases h : y > x
  · rw [if_pos h, max_eq_right h.le]
    by_cases h2 : z > y
    · rw [if_pos h2, max_eq_right h2.le]
    · rw [if_neg h2, max_eq_left (not_lt.mp h2)]
  · rw [if_neg h, max_eq_left (not_lt.mp h)]
    by_cases h2 : z > x
    · rw [if_pos h2, max_eq_right h2.le]
    · rw [if_neg h2, max_eq_left (not_lt.mp h2)]

theorem UpdateAABB_AABB_finite (lo hi lo2 hi2 : Point3D F) :
    UpdateAABB_AABB ⟨lo.toExt, hi.toExt⟩ ⟨lo2.toExt, hi2.toExt⟩
      = ⟨(⟨min lo.x lo2.x, min lo.y lo2.y, min lo.z lo2.z⟩ : Point3D F).toExt,
         (⟨max hi.x hi2.x, max hi.y hi2.y, max hi.z hi2.z⟩ : Point3D F).toExt⟩ := by
  simp only [UpdateAABB_AABB, Vector3D.toExt, minf_fin_fin, maxf_fin_fin]

theorem IsComponentwiseMin_append {A B : List (Point3D F)} {a b : Point3D F}
    (ha : IsComponentwiseMin A a) (hb : IsComponentwiseMin B b) :
    IsComponentwiseMin (A ++ B) ⟨min a.x b.x, min a.y b.y, min a.z b.z⟩ := by
  obtain ⟨la, ⟨ax, hax, eax⟩, ⟨ay, hay, eay⟩, ⟨az, haz, eaz⟩⟩ := ha
  obtain ⟨lb, ⟨bx, hbx, ebx⟩, ⟨b_y, hby, eby⟩, ⟨bz, hbz, ebz⟩⟩ := hb
  refine ⟨?_, ?_, ?_, ?_⟩
  · intro u hu
    rcases List.mem_append.mp hu with hs | hs
    · obtain ⟨h1, h2, h3⟩ := la u hs
      exact ⟨le_trans (min_le_left _ _) h1, le_trans (min_le_left _ _) h2,
        le_trans (min_le_left _ _) h3⟩
    · obtain ⟨h1, h2, h3⟩ := lb u hs
      exact ⟨le_trans (min_le_right _ _) h1, le_trans (min_le_right _ _) h2,
        le_trans (min_le_right _ _) h3⟩
  · rcases min_choice a.x b.x with h | h
    · exact ⟨ax, List.mem_append.mpr (Or.inl hax), by rw [eax]; exact h.symm⟩
    · exact ⟨bx, List.mem_append.mpr (Or.inr hbx), by rw [ebx]; exact h.symm⟩
  · rcases min_choice a.y b.y with h | h
    · exact ⟨ay, List.mem_append.mpr (Or.inl hay), by rw [eay]; exact h.symm⟩
    · exact ⟨b_y, List.mem_append.mpr (Or.inr hby), by rw [eby]; exact h.symm⟩
  · rcases min_choice a.z b.z with h | h
    · exact ⟨az, List.mem_append.mpr (Or.inl haz), by rw [eaz]; exact h.symm⟩
    · exact ⟨bz, List.mem_append.mpr (Or.inr hbz), by rw [ebz]; exact h.symm⟩

theorem IsComponentwiseMax_append {A B : List (Point3D F)} {a b : Point3D F}
    (ha : IsComponentwiseMax A a) (hb : IsComponentwiseMax B b) :
    IsComponentwiseMax (A ++ B) ⟨max a.x b.x, max a.y b.y, max a.z b.z⟩ := by
  obtain ⟨la, ⟨ax, hax, eax⟩, ⟨ay, hay, eay⟩, ⟨az, haz, eaz⟩⟩ := ha
  obtain ⟨lb, ⟨bx, hbx, ebx⟩, ⟨b_y, hby, eby⟩, ⟨bz, hbz, ebz⟩⟩ := hb
  refine ⟨?_, ?_, ?_, ?_⟩
  · intro u hu
    rcases List.mem_append.mp hu with hs | hs
    · obtain ⟨h1, h2, h3⟩ := la u hs
      exact ⟨le_trans h1 (le_max_left _ _), le_trans h2 (le_max_left _ _),
        le_trans h3 (le_max_left _ _)⟩
    · obtain ⟨h1, h2, h3⟩ := lb u hs
      exact ⟨le_trans h1 (le_max_right _ _), le_trans h2 (le_max_right _ _),
        le_trans h3 (le_max_right _ _)⟩
  · rcases max_choice a.x b.x with h | h
    · exact ⟨ax, List.mem_append.mpr (Or.inl hax), by rw [eax]; exact h.symm⟩
    · exact ⟨bx, List.mem_append.mpr (Or.inr hbx), by rw [ebx]; exact h.symm⟩
  · rcases max_choice a.y b.y with h | h
    · exact ⟨ay, List.mem_append.mpr (Or.inl hay), by rw [eay]; exact h.symm⟩
    · exact ⟨b_y, List.mem_append.mpr (Or.inr hby), by rw [eby]; exact h.symm⟩
  · rcases max_choice a.z b.z with h | h
    · exact ⟨az, List.mem_append.mpr (Or.inl haz), by rw [eaz]; exact h.symm⟩
    · exact ⟨bz, List.mem_append.mpr (Or.inr hbz), by rw [ebz]; exact h.symm⟩

/-- Merging the boxes of further levels keeps the corners at the componentwise minimum
and maximum of all vertices met so far. -/
theorem UpdateAABB_AABB_foldl (rest : List (List (Point3D F))) :
    ∀ (seen : List (Point3D F)) (lo hi : Point3D F),
      (∀ lod ∈ rest, lod ≠ []) → IsComponentwiseMin seen lo → IsComponentwiseMax seen hi →
      ∃ lo1 hi1 : Point3D F,
        rest.foldl (fun aabb lod => UpdateAABB_AABB aabb (CalculateAABB lod))
            ⟨lo.toExt, hi.toExt⟩ = ⟨lo1.toExt, hi1.toExt⟩ ∧
        IsComponentwiseMin (seen ++ rest.flatten) lo1 ∧
        IsComponentwiseMax (seen ++ rest.flatten) hi1 := by
  induction rest with
  | nil =>
    intro seen lo hi _ hmin hmax
    refine ⟨lo, hi, rfl, ?_, ?_⟩
    · simpa using hmin
    · simpa using hmax
  | cons lod rest ih =>
    intro seen lo hi hne hmin hmax
    obtain ⟨lo2, hi2, hbox, hmin2, hmax2⟩ :=
      CalculateAABB_spec lod (hne lod (List.mem_cons_self _ _))
    rw [List.foldl_cons, hbox, UpdateAABB_AABB_finite]
    obtain ⟨lo1, hi1, h1, h2, h3⟩ := ih (seen ++ lod) _ _
      (fun l hl => hne l (List.mem_cons_of_mem _ hl))
      (IsComponentwiseMin_append hmin hmin2) (IsComponentwiseMax_append hmax hmax2)
    refine ⟨lo1, hi1, h1, ?_, ?_⟩
    · simpa [List.append_assoc] using h2
    · simpa [List.append_assoc] using h3

end ExtentsLemmas

/-- Claim C23: for a model with at least one LOD level, each with a non-empty vertex set,
`GetMaxExtents` returns the box whose corners are the componentwise minimum and maximum
over all vertices of all levels, so it contains every vertex of every level, and `max_dim`
is the largest of the three differences `dim_max - dim_min` of that box. -/
theorem GetMaxExtents_union_of_levels {F : Type} [LinearOrderedField F] (m : sreModel F)
    (hlev : m.lod_model ≠ []) (hne : ∀ lod ∈ m.lod_model, lod ≠ []) :
    ∃ lo hi : Point3D F,
      (GetMaxExtents m).1 = ⟨lo.toExt, hi.toExt⟩ ∧
      IsComponentwiseMin m.lod_model.flatten lo ∧
      IsComponentwiseMax m.lod_model.flatten hi ∧
      (∀ lod ∈ m.lod_model, ∀ v ∈ lod,
        (lo.x ≤ v.x ∧ v.x ≤ hi.x) ∧ (lo.y ≤ v.y ∧ v.y ≤ hi.y) ∧ (lo.z ≤ v.z ∧ v.z ≤ hi.z)) ∧
      (GetMaxExtents m).2 = max (max (hi.x - lo.x) (hi.y - lo.y)) (hi.z - lo.z) := by
  cases hl : m.lod_model with
  | nil => exact absurd hl hlev
  | cons l0 rest =>
    rw [hl] at hne
    obtain ⟨lo0, hi0, hbox, hmin0, hmax0⟩ :=
      CalculateAABB_spec l0 (hne l0 (List.mem_cons_self _ _))
    obtain ⟨lo, hi, hfold, hmin, hmax⟩ := UpdateAABB_AABB_foldl rest l0 lo0 hi0
      (fun l h => hne l (List.mem_cons_of_mem _ h)) hmin0 hmax0
    have hres : (GetMaxExtents m).1 = ⟨lo.toExt, hi.toExt⟩ := by
      unfold GetMaxExtents
      simp only [hl, List.drop_succ_cons, List.drop_zero, List.headD_cons]
      rw [hbox, hfold]
    have hflat : (l0 :: rest).flatten = l0 ++ rest.flatten := by simp
    refine ⟨lo, hi, hres, by rw [hflat]; exact hmin, by rw [hflat]; exact hmax, ?_, ?_⟩
    · intro lod hlod v hv
      have hmem : v ∈ l0 ++ rest.flatten := by
        rw [← hflat]
        exact List.mem_flatten.mpr ⟨lod, hlod, hv⟩
      obtain ⟨a1, a2, a3⟩ := hmin.1 v hmem
      obtain ⟨b1, b2, b3⟩ := hmax.1 v hmem
      exact ⟨⟨a1, b1⟩, ⟨a2, b2⟩, ⟨a3, b3⟩⟩
    · have h2 : (GetMaxExtents m).2
          = max3f ((GetMaxExtents m).1.dim_max.x.value - (GetMaxExtents m).1.dim_min.x.value)
              ((GetMaxExtents m).1.dim_max.y.value - (GetMaxExtents m).1.dim_min.y.value)
              ((GetMaxExtents m).1.dim_max.z.value - (GetMaxExtents m).1.dim_min.z.value) := rfl
      rw [h2, hres, max3f_eq_max]
      rfl

/-- Witness for C23: two LOD levels with two vertices each. -/
theorem GetMaxExtents_union_of_levels_witness :
    ∃ lo hi : Point3D ℚ,
      (GetMaxExtents
        { modelOf ([] : List (Point3D ℚ)) with
          lod_model := [[⟨0, 0, 0⟩, ⟨1, 2, 0⟩], [⟨-1, 1, 5⟩, ⟨0, 1, 1⟩]] }).1
        = ⟨lo.toExt, hi.toExt⟩ ∧
      IsComponentwiseMin
        ({ modelOf ([] : List (Point3D ℚ)) with
          lod_model := [[⟨0, 0, 0⟩, ⟨1, 2, 0⟩], [⟨-1, 1, 5⟩, ⟨0, 1, 1⟩]] }).lod_model.flatten lo ∧
      IsComponentwiseMax
        ({ modelOf ([] : List (Point3D ℚ)) with
          lod_model := [[⟨0, 0, 0⟩, ⟨1, 2, 0⟩], [⟨-1, 1, 5⟩, ⟨0, 1, 1⟩]] }).lod_model.flatten hi ∧
      (GetMaxExtents
        { modelOf ([] : List (Point3D ℚ)) with
          lod_model := [[⟨0, 0, 0⟩, ⟨1, 2, 0⟩], [⟨-1, 1, 5⟩, ⟨0, 1, 1⟩]] }).2
        = max (max (hi.x - lo.x) (hi.y - lo.y)) (hi.z - lo.z) := by
  obtain ⟨lo, hi, h1, h2, h3, _, h5⟩ := GetMaxExtents_union_of_levels
    { modelOf ([] : List (Point3D ℚ)) with
      lod_model := [[⟨0, 0, 0⟩, ⟨1, 2, 0⟩], [⟨-1, 1, 5⟩, ⟨0, 1, 1⟩]] }
    (List.cons_ne_nil _ _)
    (by
      intro lod hlod
      simp only [List.mem_cons, List.mem_singleton, List.not_mem_nil, or_false] at hlod
      rcases hlod with h | h <;> rw [h] <;> exact List.cons_ne_nil _ _)
  exact ⟨lo, hi, h1, h2, h3, h5⟩

/-! ## The ellipsoid fit -/

section EllipsoidLemmas

variable {F : Type} [LinearOrderedField F]

theorem Matrix3D.toMatrix_mul (a b : Matrix3D F) :
    (a.mul b).toMatrix = a.toMatrix * b.toMatrix := by
  ext i j
  fin_cases i <;> fin_cases j <;>
    simp [Matrix3D.toMatrix, Matrix3D.mul, Matrix3D.GetRow, Matrix3D.GetColumn, Dot,
      Matrix.mul_apply, Fin.sum_univ_three]

theorem Matrix3D.toMatrix_identity : (Matrix3D.identity : Matrix3D F).toMatrix = 1 := by
  ext i j
  fin_cases i <;> fin_cases j <;>
    simp [Matrix3D.toMatrix, Matrix3D.identity, Matrix3D.GetRow]

theorem Matrix3D.toMatrix_inj {a b : Matrix3D F} (h : a.toMatrix = b.toMatrix) : a = b := by
  rw [Matrix3D.ext_iff9]
  exact ⟨congrFun (congrFun h 0) 0, congrFun (congrFun h 0) 1, congrFun (congrFun h 0) 2,
    congrFun (congrFun h 1) 0, congrFun (congrFun h 1) 1, congrFun (congrFun h 1) 2,
    congrFun (congrFun h 2) 0, congrFun (congrFun h 2) 1, congrFun (congrFun h 2) 2⟩

/-- A left inverse of a 3×3 matrix is a right inverse. -/
theorem Matrix3D.mul_eq_identity_comm {a b : Matrix3D F}
    (h : a.mul b = Matrix3D.identity) : b.mul a = Matrix3D.identity := by
  apply Matrix3D.toMatrix_inj
  rw [Matrix3D.toMatrix_mul, Matrix3D.toMatrix_identity]
  have h1 : a.toMatrix * b.toMatrix = 1 := by
    rw [← Matrix3D.toMatrix_mul, h, Matrix3D.toMatrix_identity]
  exact Matrix.mul_eq_one_comm.mp h1

/-- The matrix with orthonormal columns is orthogonal. -/
theorem Matrix3D.ofColumns_orthonormal {a b c : Vector3D F} (h : Orthonormal3 a b c) :
    (Matrix3D.ofColumns a b c).transpose.mul (Matrix3D.ofColumns a b c) = Matrix3D.identity ∧
    (Matrix3D.ofColumns a b c).mul (Matrix3D.ofColumns a b c).transpose = Matrix3D.identity := by
  have h1 : (Matrix3D.ofColumns a b c).transpose.mul (Matrix3D.ofColumns a b c)
      = Matrix3D.identity := by
    obtain ⟨haa, hbb, hcc, hab, hac, hbc⟩ := h
    rw [Matrix3D.ext_iff9]
    simp only [Matrix3D.mul, Matrix3D.transpose, Matrix3D.ofColumns, Matrix3D.identity,
      Matrix3D.GetRow, Matrix3D.GetColumn]
    simp only [Dot] at haa hbb hcc hab hac hbc ⊢
    refine ⟨haa, hab, hac, ?_, hbb, hbc, ?_, ?_, hcc⟩
    · linear_combination hab
    · linear_combination hac
    · linear_combination hbc
  exact ⟨h1, Matrix3D.mul_eq_identity_comm h1⟩

theorem Matrix3D.diagonal_mul_diagonal (a0 a1 a2 b0 b1 b2 : F) :
    (Matrix3D.diagonal a0 a1 a2).mul (Matrix3D.diagonal b0 b1 b2)
      = Matrix3D.diagonal (a0 * b0) (a1 * b1) (a2 * b2) := by
  rw [Matrix3D.ext_iff9]
  simp only [Matrix3D.mul, Matrix3D.diagonal, Matrix3D.GetRow, Matrix3D.GetColumn, Dot]
  refine ⟨?_, ?_, ?_, ?_, ?_, ?_, ?_, ?_, ?_⟩ <;> ring

/-- Conjugates of two diagonal matrices by an orthogonal matrix multiply entry by entry. -/
theorem Matrix3D.conjugate_diagonal_mul (r : Matrix3D F)
    (h : r.transpose.mul r = Matrix3D.identity) (a0 a1 a2 b0 b1 b2 : F) :
    (r.mul ((Matrix3D.diagonal a0 a1 a2).mul r.transpose)).mul
        (r.mul ((Matrix3D.diagonal b0 b1 b2).mul r.transpose))
      = r.mul ((Matrix3D.diagonal (a0 * b0) (a1 * b1) (a2 * b2)).mul r.transpose) := by
  rw [← Matrix3D.diagonal_mul_diagonal]
  calc (r.mul ((Matrix3D.diagonal a0 a1 a2).mul r.transpose)).mul
          (r.mul ((Matrix3D.diagonal b0 b1 b2).mul r.transpose))
      = r.mul ((Matrix3D.diagonal a0 a1 a2).mul
          ((r.transpose.mul r).mul ((Matrix3D.diagonal b0 b1 b2).mul r.transpose))) := by
        simp only [Matrix3D.mul_assoc]
    _ = r.mul (((Matrix3D.diagonal a0 a1 a2).mul (Matrix3D.diagonal b0 b1 b2)).mul
          r.transpose) := by
        rw [h, Matrix3D.identity_mul, Matrix3D.mul_assoc]

theorem Vector3D.scale_scale (s t : F) (a : Vector3D F) :
    Vector3D.scale s (Vector3D.scale t a) = Vector3D.scale (t * s) a := by
  rw [Vector3D.ext_iff3]
  simp only [Vector3D.scale_x, Vector3D.scale_y, Vector3D.scale_z]
  refine ⟨?_, ?_, ?_⟩ <;> ring

end EllipsoidLemmas

/-- Claim C21: for a non-empty vertex set, orthonormal directions `a_i` and positive sizes
`e_i`, `CalculatePCABoundingEllipsoid` returns the axis vectors `a_i·e_i·r` and the centre
`U·c`, where `(c, r)` is the sphere that `CalculatePCABoundingSphere` fits to the vertices
mapped by `M = R·diag(1/e_i)·transpose(R)`, and `U = R·diag(e_i)·transpose(R)` is the
inverse of `M`. -/
theorem CalculatePCABoundingEllipsoid_axes_and_center {F : Type} [LinearOrderedField F]
    (sqrtf : F → F) (vertex : List (Point3D F)) (_PCA : PCAArray F) (_hne : vertex ≠ [])
    (horth : Orthonormal3 _PCA.c0.vector _PCA.c1.vector _PCA.c2.vector)
    (h0 : 0 < _PCA.c0.size) (h1 : 0 < _PCA.c1.size) (h2 : 0 < _PCA.c2.size) :
    (CalculatePCABoundingEllipsoid sqrtf vertex _PCA).PCA0
      = Vector3D.scale (_PCA.c0.size *
          (CalculatePCABoundingSphere sqrtf
            (vertex.map (fun v => _PCA.scalingMatrix.mulVec v)) _PCA).radius) _PCA.c0.vector ∧
    (CalculatePCABoundingEllipsoid sqrtf vertex _PCA).PCA1
      = Vector3D.scale (_PCA.c1.size *
          (CalculatePCABoundingSphere sqrtf
            (vertex.map (fun v => _PCA.scalingMatrix.mulVec v)) _PCA).radius) _PCA.c1.vector ∧
    (CalculatePCABoundingEllipsoid sqrtf vertex _PCA).PCA2
      = Vector3D.scale (_PCA.c2.size *
          (CalculatePCABoundingSphere sqrtf
            (vertex.map (fun v => _PCA.scalingMatrix.mulVec v)) _PCA).radius) _PCA.c2.vector ∧
    (CalculatePCABoundingEllipsoid sqrtf vertex _PCA).center
      = _PCA.unscalingMatrix.mulVec
          (CalculatePCABoundingSphere sqrtf
            (vertex.map (fun v => _PCA.scalingMatrix.mulVec v)) _PCA).center ∧
    _PCA.unscalingMatrix.mul _PCA.scalingMatrix = Matrix3D.identity ∧
    _PCA.scalingMatrix.mul _PCA.unscalingMatrix = Matrix3D.identity := by
  have hR := (Matrix3D.ofColumns_orthonormal horth)
  have hinv : _PCA.unscalingMatrix.mul _PCA.scalingMatrix = Matrix3D.identity := by
    unfold PCAArray.unscalingMatrix PCAArray.scalingMatrix
    rw [Matrix3D.conjugate_diagonal_mul _ hR.1,
      mul_one_div_cancel h0.ne', mul_one_div_cancel h1.ne', mul_one_div_cancel h2.ne']
    have hd : Matrix3D.diagonal (1 : F) 1 1 = Matrix3D.identity := rfl
    rw [hd, Matrix3D.identity_mul]
    exact hR.2
  refine ⟨?_, ?_, ?_, rfl, hinv, Matrix3D.mul_eq_identity_comm hinv⟩
  · exact Vector3D.scale_scale _ _ _
  · exact Vector3D.scale_scale _ _ _
  · exact Vector3D.scale_scale _ _ _

/-- Witness for C21: two vertices, the coordinate axes as directions and the sizes
`4, 2, 1`. -/
theorem CalculatePCABoundingEllipsoid_axes_and_center_witness :
    (CalculatePCABoundingEllipsoid Real.sqrt [(⟨0, 0, 0⟩ : Point3D ℝ), ⟨4, 2, 1⟩]
        ⟨⟨⟨1, 0, 0⟩, 4⟩, ⟨⟨0, 1, 0⟩, 2⟩, ⟨⟨0, 0, 1⟩, 1⟩⟩).center
      = (PCAArray.unscalingMatrix
          (⟨⟨⟨1, 0, 0⟩, 4⟩, ⟨⟨0, 1, 0⟩, 2⟩, ⟨⟨0, 0, 1⟩, 1⟩⟩ : PCAArray ℝ)).mulVec
          (CalculatePCABoundingSphere Real.sqrt
            ([(⟨0, 0, 0⟩ : Point3D ℝ), ⟨4, 2, 1⟩].map
              (fun v => (PCAArray.scalingMatrix
                (⟨⟨⟨1, 0, 0⟩, 4⟩, ⟨⟨0, 1, 0⟩, 2⟩, ⟨⟨0, 0, 1⟩, 1⟩⟩ : PCAArray ℝ)).mulVec v))
            ⟨⟨⟨1, 0, 0⟩, 4⟩, ⟨⟨0, 1, 0⟩, 2⟩, ⟨⟨0, 0, 1⟩, 1⟩⟩).center ∧
    (PCAArray.unscalingMatrix
        (⟨⟨⟨1, 0, 0⟩, 4⟩, ⟨⟨0, 1, 0⟩, 2⟩, ⟨⟨0, 0, 1⟩, 1⟩⟩ : PCAArray ℝ)).mul
      (PCAArray.scalingMatrix
        (⟨⟨⟨1, 0, 0⟩, 4⟩, ⟨⟨0, 1, 0⟩, 2⟩, ⟨⟨0, 0, 1⟩, 1⟩⟩ : PCAArray ℝ)) = Matrix3D.identity :=
  have h := CalculatePCABoundingEllipsoid_axes_and_center Real.sqrt
    [(⟨0, 0, 0⟩ : Point3D ℝ), ⟨4, 2, 1⟩]
    ⟨⟨⟨1, 0, 0⟩, 4⟩, ⟨⟨0, 1, 0⟩, 2⟩, ⟨⟨0, 0, 1⟩, 1⟩⟩ (List.cons_ne_nil _ _)
    (by norm_num [Orthonormal3, Dot]) (by norm_num) (by norm_num) (by norm_num)
  ⟨h.2.2.2.1, h.2.2.2.2.1⟩

/-! ## The cylinder fit on a rod away from the origin -/

/-- The components returned for the shifted rod. -/
theorem shiftedRodVertices_components :
    (CalculatePrincipalComponents Real.sqrt (shiftedRodVertices : List (Point3D ℝ))).1
      = ⟨⟨⟨1, 0, 0⟩, 8⟩, ⟨⟨0, 1, 0⟩, 2⟩, ⟨⟨0, 0, 1⟩, 2⟩⟩ := by
  have hlo : IsComponentwiseMin (shiftedRodVertices : List (Point3D ℝ)) ⟨-4, 9, -1⟩ := by
    refine ⟨?_, ⟨⟨-4, 11, 0⟩, by simp [shiftedRodVertices], rfl⟩,
      ⟨⟨4, 9, 0⟩, by simp [shiftedRodVertices], rfl⟩,
      ⟨⟨4, 10, -1⟩, by simp [shiftedRodVertices], rfl⟩⟩
    intro v hv
    simp only [shiftedRodVertices, List.mem_cons, List.mem_singleton, List.not_mem_nil,
      or_false] at hv
    rcases hv with rfl | rfl | rfl | rfl | rfl | rfl | rfl | rfl <;> norm_num
  have hhi : IsComponentwiseMax (shiftedRodVertices : List (Point3D ℝ)) ⟨4, 11, 1⟩ := by
    refine ⟨?_, ⟨⟨4, 11, 0⟩, by simp [shiftedRodVertices], rfl⟩,
      ⟨⟨4, 11, 0⟩, by simp [shiftedRodVertices], rfl⟩,
      ⟨⟨4, 10, 1⟩, by simp [shiftedRodVertices], rfl⟩⟩
    intro v hv
    simp only [shiftedRodVertices, List.mem_cons, List.mem_singleton, List.not_mem_nil,
      or_false] at hv
    rcases hv with rfl | rfl | rfl | rfl | rfl | rfl | rfl | rfl <;> norm_num
  unfold CalculatePrincipalComponents
  simp only [unsortedComponents_axis_aligned _ _ _ hlo hhi]
  norm_num [PCAArray.sortDecreasing, PCAArray.swap01, PCAArray.swap12]

/-- The cylinder fitted to the shifted rod: radius 1, length 8, and the centre at the
origin, although the rod runs along the line `y = 10, z = 0`. -/
theorem shiftedRodVertices_cylinder :
    CalculatePCABoundingCylinder Real.sqrt (shiftedRodVertices : List (Point3D ℝ))
        ⟨⟨⟨1, 0, 0⟩, 8⟩, ⟨⟨0, 1, 0⟩, 2⟩, ⟨⟨0, 0, 1⟩, 2⟩⟩
      = ⟨⟨0, 0, 0⟩, 8, ⟨1, 0, 0⟩, 1⟩ := by
  norm_num [CalculatePCABoundingCylinder, shiftedRodVertices,
    dstGetIndicesWithMinAndMaxDotProductNx1, MinMaxIndex.run, MinMaxIndex.step, vertexAt, Dot,
    SquaredMag, SphereFit.grow, dstCalculateMinAndMaxDotProductNx1, minf, maxf,
    Vector3D.sub_mk, Vector3D.add_mk, Vector3D.scale_mk, Magnitude]

/-- Claim C22, failing input: for the rod shifted to `y = 10`, with the directions and
sizes that `CalculatePrincipalComponents` returns for it (orthonormal directions), the
cylinder returned by `CalculatePCABoundingCylinder` over the reals has its centre at the
origin, axis `(1, 0, 0)` and radius 1, while the vertex `(4, 11, 0)` lies at squared
distance 121 from the line through the centre along the axis: the cylinder does not bound
this vertex. -/
theorem CalculatePCABoundingCylinder_misses_shifted_rod :
    (shiftedRodVertices : List (Point3D ℝ)) ≠ [] ∧
    Orthonormal3
      (CalculatePrincipalComponents Real.sqrt (shiftedRodVertices : List (Point3D ℝ))).1.c0.vector
      (CalculatePrincipalComponents Real.sqrt (shiftedRodVertices : List (Point3D ℝ))).1.c1.vector
      (CalculatePrincipalComponents Real.sqrt
        (shiftedRodVertices : List (Point3D ℝ))).1.c2.vector ∧
    (⟨4, 11, 0⟩ : Point3D ℝ) ∈ (shiftedRodVertices : List (Point3D ℝ)) ∧
    CalculatePCABoundingCylinder Real.sqrt (shiftedRodVertices : List (Point3D ℝ))
        (CalculatePrincipalComponents Real.sqrt (shiftedRodVertices : List (Point3D ℝ))).1
      = ⟨⟨0, 0, 0⟩, 8, ⟨1, 0, 0⟩, 1⟩ ∧
    (CalculatePCABoundingCylinder Real.sqrt (shiftedRodVertices : List (Point3D ℝ))
        (CalculatePrincipalComponents Real.sqrt
          (shiftedRodVertices : List (Point3D ℝ))).1).distanceToAxisSquared ⟨4, 11, 0⟩ = 121 ∧
    ¬ ((CalculatePCABoundingCylinder Real.sqrt (shiftedRodVertices : List (Point3D ℝ))
        (CalculatePrincipalComponents Real.sqrt
          (shiftedRodVertices : List (Point3D ℝ))).1).distanceToAxisSquared ⟨4, 11, 0⟩
      ≤ (CalculatePCABoundingCylinder Real.sqrt (shiftedRodVertices : List (Point3D ℝ))
        (CalculatePrincipalComponents Real.sqrt
          (shiftedRodVertices : List (Point3D ℝ))).1).radius ^ 2) := by
  rw [shiftedRodVertices_components, shiftedRodVertices_cylinder]
  refine ⟨List.cons_ne_nil _ _, ?_, ?_, rfl, ?_, ?_⟩
  · norm_num [Orthonormal3, Dot]
  · simp [shiftedRodVertices]
  · norm_num [sreBoundingVolumeCylinder.distanceToAxisSquared, SquaredMag, Dot,
      Vector3D.sub_mk, Vector3D.scale_mk]
  · norm_num [sreBoundingVolumeCylinder.distanceToAxisSquared, SquaredMag, Dot,
      Vector3D.sub_mk, Vector3D.scale_mk]

/-! ## The number of substeps -/

/-- A value in the range of `int` is kept by the conversion. -/
theorem toInt32_of_fits (z : Int) (h1 : -2147483648 ≤ z) (h2 : z < 2147483648) :
    toInt32 z = z := by
  unfold toInt32
  omega

/-- Counterexample for C40: for `dt = (2^31 - 1)/60`, which is at least `5/60`, the sum
`⌊60·dt⌋ + 1 = 2^31` does not fit `int`; `BulletStep` passes the count `-2^31`, which is
not `⌊60·dt⌋ + 1`, is below 5, and does not satisfy `dt < substeps·(1/60)`. -/
theorem BulletStep_count_wraps :
    (2147483647 / 60 : ℚ) ≥ 5 / 60 ∧
    ⌊60 * (2147483647 / 60 : ℚ)⌋ + 1 = 2147483648 ∧
    BulletStep (2147483647 / 60 : ℚ) = some (2147483647 / 60, -2147483648) ∧
    ¬ ((-2147483648 : Int) ≥ 5) ∧
    ¬ ((2147483647 / 60 : ℚ) < ((-2147483648 : Int) : ℚ) * (1 / 60)) := by
  have hq : (2147483647 / 60 : ℚ) / (1 / 60) = ((2147483647 : Int) : ℚ) := by norm_num
  have hq2 : 60 * (2147483647 / 60 : ℚ) = ((2147483647 : Int) : ℚ) := by norm_num
  refine ⟨by norm_num, ?_, ?_, by norm_num, by norm_num⟩
  · rw [hq2, Int.floor_intCast]
    norm_num
  · unfold BulletStep
    simp only [Int.cast_ofNat]
    rw [if_pos (by norm_num), hq, Int.floor_intCast, if_pos (by norm_num)]
    norm_num [toInt32]

/-- Claim C40, amended: for every time step with `60·dt < 2^31 - 1`, so that
`⌊60·dt⌋ + 1` fits the `int` counter, `BulletStep` passes the time step unchanged and a
substep count `n` that is 5 when `dt < 5/60` and `⌊60·dt⌋ + 1` otherwise; in both cases
`n ≥ 5` and `dt < n·(1/60)`. -/
theorem BulletStep_substeps_cover_dt {F : Type} [LinearOrderedField F] [FloorRing F] (dt : F)
    (hfit : 60 * dt < 2147483647) :
    ∃ n : Int, BulletStep dt = some (dt, n) ∧
      n = (if dt < 5 / 60 then 5 else ⌊60 * dt⌋ + 1) ∧
      n ≥ 5 ∧ dt < (n : F) * (1 / 60) := by
  by_cases h : dt < 5 / 60
  · refine ⟨5, ?_, by rw [if_pos h], le_rfl, ?_⟩
    · unfold BulletStep
      simp only [Int.cast_ofNat, ge_iff_le]
      rw [if_neg (not_le.mpr h)]
    · push_cast
      linarith
  · have e : dt / (1 / 60) = 60 * dt := by
      field_simp
      ring
    have h5 : (5 : F) ≤ 60 * dt := by
      have := not_lt.mp h
      linarith
    have hlo : (5 : Int) ≤ ⌊60 * dt⌋ := Int.le_floor.mpr (by exact_mod_cast h5)
    have hhi : ⌊60 * dt⌋ < 2147483647 := Int.floor_lt.mpr (by exact_mod_cast hfit)
    refine ⟨⌊60 * dt⌋ + 1, ?_, by rw [if_neg h], by omega, ?_⟩
    · unfold BulletStep
      simp only [Int.cast_ofNat, ge_iff_le]
      rw [if_pos (not_lt.mp h), e, if_pos ⟨by omega, by omega⟩,
        toInt32_of_fits _ (by omega) (by omega)]
    · have hlt := Int.lt_floor_add_one (60 * dt)
      push_cast
      linarith

/-- Witness for C40: the time step `1/10`, for which the count is 7. -/
theorem BulletStep_substeps_cover_dt_witness :
    ∃ n : Int, BulletStep (1 / 10 : ℚ) = some (1 / 10, n) ∧
      n = (if (1 / 10 : ℚ) < 5 / 60 then 5 else ⌊60 * (1 / 10 : ℚ)⌋ + 1) ∧
      n ≥ 5 ∧ (1 / 10 : ℚ) < (n : ℚ) * (1 / 60) :=
  BulletStep_substeps_cover_dt (1 / 10 : ℚ) (by norm_num)

/-! ## The flag arrays of `InitializePhysics` -/

/-- The entry written by the first loop never selects the fatal branch of the second. -/
theorem secondPassBranch_firstPassEntry (K : PhysicsConstants) (so : sreObject)
    (entry : Bool × Bool) :
    secondPassBranch K so (firstPassEntry K so entry) ≠ PhysicsBranch.fatalError := by
  unfold secondPassBranch firstPassEntry
  by_cases h : so.flags &&& K.SRE_OBJECT_NO_PHYSICS ≠ 0
  · simp [h]
  · simp only [h, if_false]
    split_ifs <;> simp_all

/-- Claim C34: in `InitializePhysics`, for every scene object without
`SRE_OBJECT_NO_PHYSICS`, after the first loop `collision_shape_is_absolute[i]` implies
`collision_shape_is_static[i]`, whatever the arrays held before, and the second loop never
takes the branch that calls `sreFatalError`. -/
theorem InitializePhysics_fatal_branch_unreachable (K : PhysicsConstants)
    (object : List sreObject) (prior : List (Bool × Bool)) :
    (∀ (so : sreObject) (entry : Bool × Bool), so.flags &&& K.SRE_OBJECT_NO_PHYSICS = 0 →
      (firstPassEntry K so entry).2 = true → (firstPassEntry K so entry).1 = true) ∧
    (∀ b ∈ InitializePhysics K object prior, b ≠ PhysicsBranch.fatalError) ∧
    (prior.length = object.length →
      (InitializePhysics K object prior).length = object.length) := by
  refine ⟨?_, ?_, ?_⟩
  · intro so entry hno
    unfold firstPassEntry
    simp only [hno, ne_eq, not_true_eq_false, if_false]
    split_ifs <;> simp
  · unfold InitializePhysics
    simp only
    induction object generalizing prior with
    | nil => intro b hb; simp at hb
    | cons so rest ih =>
      cases prior with
      | nil => intro b hb; simp at hb
      | cons e es =>
        intro b hb
        simp only [List.zipWith_cons_cons, List.mem_cons] at hb
        rcases hb with rfl | hb
        · exact secondPassBranch_firstPassEntry K so e
        · exact ih es b hb
  · intro hlen
    unfold InitializePhysics
    simp [hlen]

/-! ## The three compare-and-swap steps -/

/-- Claim C32: the three compare-and-swap steps return a permutation of the input pairs
(`σ` maps each output position to the input position it came from) in non-increasing size
order, and the permutation is stable: output positions `i < j` holding equal sizes come
from input positions `σ i < σ j`; an input that is already non-increasing is returned
unchanged. -/
theorem PCAArray_sortDecreasing_stable {F : Type} [LinearOrderedField F] (p : PCAArray F) :
    (∃ σ : Fin 3 → Fin 3, Function.Bijective σ ∧
      (∀ i : Fin 3, p.sortDecreasing.get i = p.get (σ i)) ∧
      (∀ i j : Fin 3, i < j → (p.sortDecreasing.get i).size = (p.sortDecreasing.get j).size →
        σ i < σ j)) ∧
    (∀ i j : Fin 3, i < j → (p.sortDecreasing.get i).size ≥ (p.sortDecreasing.get j).size) ∧
    (p.c0.size ≥ p.c1.size → p.c1.size ≥ p.c2.size → p.sortDecreasing = p) := by
  obtain ⟨⟨v0, s0⟩, ⟨v1, s1⟩, ⟨v2, s2⟩⟩ := p
  refine ⟨?_, ?_, ?_⟩
  · by_cases h1 : s0 < s1
    · by_cases h2 : s0 < s2
      · by_cases h3 : s1 < s2
        · have e : (PCAArray.mk ⟨v0, s0⟩ ⟨v1, s1⟩ ⟨v2, s2⟩).sortDecreasing
              = ⟨⟨v2, s2⟩, ⟨v1, s1⟩, ⟨v0, s0⟩⟩ := by
            simp [PCAArray.sortDecreasing, PCAArray.swap01, PCAArray.swap12, h1, h2, h3]
          rw [e]
          refine ⟨![2, 1, 0], by decide, ?_, ?_⟩
          · intro i; fin_cases i <;> rfl
          · intro i j hij hs
            fin_cases i <;> fin_cases j <;> simp [PCAArray.get] at hij hs ⊢ <;>
              first | omega | linarith
        · have e : (PCAArray.mk ⟨v0, s0⟩ ⟨v1, s1⟩ ⟨v2, s2⟩).sortDecreasing
              = ⟨⟨v1, s1⟩, ⟨v2, s2⟩, ⟨v0, s0⟩⟩ := by
            simp [PCAArray.sortDecreasing, PCAArray.swap01, PCAArray.swap12, h1, h2, h3]
          rw [e]
          refine ⟨![1, 2, 0], by decide, ?_, ?_⟩
          · intro i; fin_cases i <;> rfl
          · intro i j hij hs
            fin_cases i <;> fin_cases j <;> simp [PCAArray.get] at hij hs ⊢ <;>
              first | omega | linarith
      · have e : (PCAArray.mk ⟨v0, s0⟩ ⟨v1, s1⟩ ⟨v2, s2⟩).sortDecreasing
            = ⟨⟨v1, s1⟩, ⟨v0, s0⟩, ⟨v2, s2⟩⟩ := by
          have h4 : ¬ s1 < s0 := not_lt.mpr h1.le
          simp [PCAArray.sortDecreasing, PCAArray.swap01, PCAArray.swap12, h1, h2, h4]
        rw [e]
        refine ⟨![1, 0, 2], by decide, ?_, ?_⟩
        · intro i; fin_cases i <;> rfl
        · intro i j hij hs
          fin_cases i <;> fin_cases j <;> simp [PCAArray.get] at hij hs ⊢ <;>
            first | omega | linarith
    · by_cases h2 : s1 < s2
      · by_cases h3 : s0 < s2
        · have e : (PCAArray.mk ⟨v0, s0⟩ ⟨v1, s1⟩ ⟨v2, s2⟩).sortDecreasing
              = ⟨⟨v2, s2⟩, ⟨v0, s0⟩, ⟨v1, s1⟩⟩ := by
            simp [PCAArray.sortDecreasing, PCAArray.swap01, PCAArray.swap12, h1, h2, h3]
          rw [e]
          refine ⟨![2, 0, 1], by decide, ?_, ?_⟩
          · intro i; fin_cases i <;> rfl
          · intro i j hij hs
            fin_cases i <;> fin_cases j <;> simp [PCAArray.get] at hij hs ⊢ <;>
              first | omega | linarith
        · have e : (PCAArray.mk ⟨v0, s0⟩ ⟨v1, s1⟩ ⟨v2, s2⟩).sortDecreasing
              = ⟨⟨v0, s0⟩, ⟨v2, s2⟩, ⟨v1, s1⟩⟩ := by
            simp [PCAArray.sortDecreasing, PCAArray.swap01, PCAArray.swap12, h1, h2, h3]
          rw [e]
          refine ⟨![0, 2, 1], by decide, ?_, ?_⟩
          · intro i; fin_cases i <;> rfl
          · intro i j hij hs
            fin_cases i <;> fin_cases j <;> simp [PCAArray.get] at hij hs ⊢ <;>
              first | omega | linarith
      · have e : (PCAArray.mk ⟨v0, s0⟩ ⟨v1, s1⟩ ⟨v2, s2⟩).sortDecreasing
            = ⟨⟨v0, s0⟩, ⟨v1, s1⟩, ⟨v2, s2⟩⟩ := by
          simp [PCAArray.sortDecreasing, PCAArray.swap01, PCAArray.swap12, h1, h2]
        rw [e]
        refine ⟨id, Function.bijective_id, fun i => rfl, fun i j hij _ => hij⟩
  · have hs := (PCAArray.mk ⟨v0, s0⟩ ⟨v1, s1⟩ ⟨v2, s2⟩).sortDecreasing_sorted
    intro i j hij
    fin_cases i <;> fin_cases j <;> simp [PCAArray.get] at hij ⊢ <;>
      first | omega | exact hs.1 | exact hs.2 | exact le_trans hs.2 hs.1
  · intro h1 h2
    simp only [ge_iff_le] at h1 h2
    simp [PCAArray.sortDecreasing, PCAArray.swap01, PCAArray.swap12, not_lt.mpr h1,
      not_lt.mpr h2]

/-- Example for C32: three pairs of size 2 are returned unchanged. -/
theorem PCAArray_sortDecreasing_equal_sizes :
    (PCAArray.mk ⟨⟨1, 0, 0⟩, 2⟩ ⟨⟨0, 1, 0⟩, 2⟩ ⟨⟨0, 0, 1⟩, (2 : ℚ)⟩).sortDecreasing
      = ⟨⟨⟨1, 0, 0⟩, 2⟩, ⟨⟨0, 1, 0⟩, 2⟩, ⟨⟨0, 0, 1⟩, 2⟩⟩ := by
  simp [PCAArray.sortDecreasing, PCAArray.swap01, PCAArray.swap12]

/-! ## Orthonormal directions -/

theorem Orthonormal3_of_sorted {F : Type} [LinearOrderedField F] (p : PCAArray F)
    (h : Orthonormal3 p.c0.vector p.c1.vector p.c2.vector) :
    Orthonormal3 p.sortDecreasing.c0.vector p.sortDecreasing.c1.vector
      p.sortDecreasing.c2.vector := by
  obtain ⟨u0, u1, u2, o01, o02, o12⟩ := h
  have o10 := (Dot_comm p.c1.vector p.c0.vector).trans o01
  have o20 := (Dot_comm p.c2.vector p.c0.vector).trans o02
  have o21 := (Dot_comm p.c2.vector p.c1.vector).trans o12
  rcases p.sortDecreasing_cases with e | e | e | e | e | e <;> rw [e]
  · exact ⟨u0, u1, u2, o01, o02, o12⟩
  · exact ⟨u0, u2, u1, o02, o01, o21⟩
  · exact ⟨u1, u0, u2, o10, o12, o02⟩
  · exact ⟨u1, u2, u0, o12, o10, o20⟩
  · exact ⟨u2, u0, u1, o20, o21, o01⟩
  · exact ⟨u2, u1, u0, o21, o20, o10⟩

/-- Claim C33: for a non-empty vertex sequence, in exact real arithmetic, the three
directions returned by `CalculatePrincipalComponents` have unit length and are mutually
orthogonal. -/
theorem CalculatePrincipalComponents_directions_orthonormal (position : List (Point3D ℝ))
    (_hne : position ≠ []) :
    Orthonormal3 (CalculatePrincipalComponents Real.sqrt position).1.c0.vector
      (CalculatePrincipalComponents Real.sqrt position).1.c1.vector
      (CalculatePrincipalComponents Real.sqrt position).1.c2.vector ∧
    (∀ i : Fin 3,
      Magnitude Real.sqrt (((CalculatePrincipalComponents Real.sqrt position).1).get i).vector
        = 1) := by
  have h := Orthonormal3_of_sorted (unsortedComponents Real.sqrt position)
    (principalDirections_orthonormal position)
  refine ⟨h, ?_⟩
  intro i
  have hu := sortedComponent_unit position i
  unfold Magnitude
  have : SquaredMag (((CalculatePrincipalComponents Real.sqrt position).1).get i).vector = 1 := hu
  rw [this, Real.sqrt_one]

/-- Witness for C33: two vertices. -/
theorem CalculatePrincipalComponents_directions_orthonormal_witness :
    Orthonormal3
      (CalculatePrincipalComponents Real.sqrt [(⟨0, 0, 0⟩ : Point3D ℝ), ⟨0, 2, 0⟩]).1.c0.vector
      (CalculatePrincipalComponents Real.sqrt [(⟨0, 0, 0⟩ : Point3D ℝ), ⟨0, 2, 0⟩]).1.c1.vector
      (CalculatePrincipalComponents Real.sqrt [(⟨0, 0, 0⟩ : Point3D ℝ), ⟨0, 2, 0⟩]).1.c2.vector :=
  (CalculatePrincipalComponents_directions_orthonormal [⟨0, 0, 0⟩, ⟨0, 2, 0⟩]
    (List.cons_ne_nil _ _)).1

/-! ## The special shape is the smaller of the two fits -/

/-- Claim C36: when `CalculateBounds` fits the special shapes (`PCA[2].size > EPSILON`),
`SRE_BOUNDS_PREFER_SPECIAL` is set if and only if `V* = min(volume_ellipsoid,
volume_cylinder)` satisfies `V* < 0.99·best` and `best - V* > 0.0001`; the stored shape is
then the ellipsoid when `volume_ellipsoid ≤ volume_cylinder` and the cylinder otherwise. -/
theorem CalculateBounds_special_is_smaller_fit {F : Type} [LinearOrderedField F]
    (sqrtf : F → F) (M_PI : F) (m : sreModel F)
    (hfit : (CalculateBounds sqrtf M_PI m).PCA.c2.size > EPSILON) :
    ((CalculateBounds sqrtf M_PI m).bounds_flags &&& SRE_BOUNDS_PREFER_SPECIAL ≠ 0 ↔
      (min (fittedEllipsoidVolume sqrtf M_PI (m.lod_model.headD []))
          (fittedCylinderVolume sqrtf M_PI (m.lod_model.headD []))
        < 99 / 100 * best_volume sqrtf M_PI (m.lod_model.headD []) ∧
       best_volume sqrtf M_PI (m.lod_model.headD [])
        - min (fittedEllipsoidVolume sqrtf M_PI (m.lod_model.headD []))
            (fittedCylinderVolume sqrtf M_PI (m.lod_model.headD []))
        > 1 / 10000)) ∧
    ((CalculateBounds sqrtf M_PI m).bounds_flags &&& SRE_BOUNDS_PREFER_SPECIAL ≠ 0 →
      fittedEllipsoidVolume sqrtf M_PI (m.lod_model.headD [])
        ≤ fittedCylinderVolume sqrtf M_PI (m.lod_model.headD []) →
      (CalculateBounds sqrtf M_PI m).bv_special
        = .ellipsoid (CalculatePCABoundingEllipsoid sqrtf (m.lod_model.headD [])
            (CalculateBounds sqrtf M_PI m).PCA)) ∧
    ((CalculateBounds sqrtf M_PI m).bounds_flags &&& SRE_BOUNDS_PREFER_SPECIAL ≠ 0 →
      fittedCylinderVolume sqrtf M_PI (m.lod_model.headD [])
        < fittedEllipsoidVolume sqrtf M_PI (m.lod_model.headD []) →
      (CalculateBounds sqrtf M_PI m).bv_special
        = .cylinder (CalculatePCABoundingCylinder sqrtf (m.lod_model.headD [])
            (CalculateBounds sqrtf M_PI m).PCA)) := by
  have hfit1 : (CalculatePrincipalComponents sqrtf (m.lod_model.headD [])).1.c2.size > EPSILON :=
    hfit
  have hflag : (CalculateBounds sqrtf M_PI m).bounds_flags &&& SRE_BOUNDS_PREFER_SPECIAL ≠ 0 ↔
      (specialSelection sqrtf M_PI (m.lod_model.headD [])).isSome = true :=
    boundsFlags_special_bit sqrtf M_PI (m.lod_model.headD [])
  have hbv : (CalculateBounds sqrtf M_PI m).bv_special
      = (match specialSelection sqrtf M_PI (m.lod_model.headD []) with
        | some s => s
        | none => m.bv_special) := rfl
  have hpca : (CalculateBounds sqrtf M_PI m).PCA
      = (CalculatePrincipalComponents sqrtf (m.lod_model.headD [])).1 := rfl
  rw [hflag, hbv, hpca]
  have hE : (1 : F) / 10000 = EPSILON2 := rfl
  rw [hE]
  unfold specialSelection fittedEllipsoidVolume fittedCylinderVolume
  simp only [hfit1, if_true]
  generalize volume_ellipsoid sqrtf M_PI (CalculatePCABoundingEllipsoid sqrtf
    (m.lod_model.headD []) (CalculatePrincipalComponents sqrtf (m.lod_model.headD [])).1) = ve
  generalize volume_cylinder M_PI (CalculatePCABoundingCylinder sqrtf
    (m.lod_model.headD []) (CalculatePrincipalComponents sqrtf (m.lod_model.headD [])).1) = vc
  generalize best_volume sqrtf M_PI (m.lod_model.headD []) = best
  generalize (EPSILON2 : F) = e2
  by_cases hle : ve ≤ vc
  · rw [min_eq_left hle]
    by_cases h1 : ve < 99 / 100 * best ∧ best - ve > e2
    · have h1c : ve < 99 / 100 * best ∧ best - ve > e2 ∧ ve ≤ vc := ⟨h1.1, h1.2, hle⟩
      rw [if_pos h1c]
      refine ⟨iff_of_true rfl h1, fun _ _ => rfl, fun _ hlt => absurd hle (not_le.mpr hlt)⟩
    · have h1c : ¬ (ve < 99 / 100 * best ∧ best - ve > e2 ∧ ve ≤ vc) :=
        fun h => h1 ⟨h.1, h.2.1⟩
      have h2c : ¬ (vc < 99 / 100 * best ∧ best - vc > e2) :=
        fun h => h1 ⟨lt_of_le_of_lt hle h.1, by linarith [h.2]⟩
      rw [if_neg h1c, if_neg h2c]
      refine ⟨iff_of_false (by simp) h1, fun h => absurd h (by simp),
        fun h => absurd h (by simp)⟩
  · have hlt : vc < ve := not_le.mp hle
    rw [min_eq_right hlt.le]
    have h1c : ¬ (ve < 99 / 100 * best ∧ best - ve > e2 ∧ ve ≤ vc) := fun h => hle h.2.2
    rw [if_neg h1c]
    by_cases h2 : vc < 99 / 100 * best ∧ best - vc > e2
    · rw [if_pos h2]
      refine ⟨iff_of_true rfl h2, fun _ h => absurd h hle, fun _ _ => rfl⟩
    · rw [if_neg h2]
      refine ⟨iff_of_false (by simp) h2, fun h => absurd h (by simp),
        fun h => absurd h (by simp)⟩

/-- Witness for C36: the sample rod, whose smallest size is 2. -/
theorem CalculateBounds_special_is_smaller_fit_witness :
    (CalculateBounds Real.sqrt Real.pi (modelOf rodVertices)).bounds_flags
        &&& SRE_BOUNDS_PREFER_SPECIAL ≠ 0 ↔
      (min (fittedEllipsoidVolume Real.sqrt Real.pi ((modelOf rodVertices).lod_model.headD []))
          (fittedCylinderVolume Real.sqrt Real.pi ((modelOf rodVertices).lod_model.headD []))
        < 99 / 100 * best_volume Real.sqrt Real.pi ((modelOf rodVertices).lod_model.headD []) ∧
       best_volume Real.sqrt Real.pi ((modelOf rodVertices).lod_model.headD [])
        - min (fittedEllipsoidVolume Real.sqrt Real.pi ((modelOf rodVertices).lod_model.headD []))
            (fittedCylinderVolume Real.sqrt Real.pi ((modelOf rodVertices).lod_model.headD []))
        > 1 / 10000) :=
  (CalculateBounds_special_is_smaller_fit Real.sqrt Real.pi (modelOf rodVertices)
    (by
      show (CalculatePrincipalComponents Real.sqrt (rodVertices : List (Point3D ℝ))).1.c2.size
        > EPSILON
      rw [rodVertices_components]
      norm_num [EPSILON])).1

/-! ## The fitted box is always axis-aligned -/

/-- With the coordinate axes as directions the centre of the fitted box is the midpoint of
the componentwise minimum and maximum. -/
theorem pcaCenter_axis_aligned (vertex : List (Point3D ℝ)) (lo hi : Point3D ℝ)
    (hlo : IsComponentwiseMin vertex lo) (hhi : IsComponentwiseMax vertex hi) :
    pcaCenter Real.sqrt vertex
      = ⟨(hi.x + lo.x) * (1 / 2), (hi.y + lo.y) * (1 / 2), (hi.z + lo.z) * (1 / 2)⟩ := by
  obtain ⟨lb, ⟨ux, hux, eux⟩, ⟨uy, huy, euy⟩, ⟨uz, huz, euz⟩⟩ := hlo
  obtain ⟨ub, ⟨wx, hwx, ewx⟩, ⟨wy, hwy, ewy⟩, ⟨wz, hwz, ewz⟩⟩ := hhi
  have hne : vertex ≠ [] := List.ne_nil_of_mem hux
  have hx : dstCalculateMinAndMaxDotProductNx1 vertex ⟨1, 0, 0⟩ = (lo.x, hi.x) := by
    have hs := dstCalculateMinAndMaxDotProductNx1_spec vertex ⟨1, 0, 0⟩ hne
    exact Prod.ext
      (IsMinDot_unique hs.1 ⟨fun v hv => by simpa [Dot] using (lb v hv).1,
        ux, hux, by simpa [Dot] using eux⟩)
      (IsMaxDot_unique hs.2 ⟨fun v hv => by simpa [Dot] using (ub v hv).1,
        wx, hwx, by simpa [Dot] using ewx⟩)
  have hy : dstCalculateMinAndMaxDotProductNx1 vertex ⟨0, 1, 0⟩ = (lo.y, hi.y) := by
    have hs := dstCalculateMinAndMaxDotProductNx1_spec vertex ⟨0, 1, 0⟩ hne
    exact Prod.ext
      (IsMinDot_unique hs.1 ⟨fun v hv => by simpa [Dot] using (lb v hv).2.1,
        uy, huy, by simpa [Dot] using euy⟩)
      (IsMaxDot_unique hs.2 ⟨fun v hv => by simpa [Dot] using (ub v hv).2.1,
        wy, hwy, by simpa [Dot] using ewy⟩)
  have hz : dstCalculateMinAndMaxDotProductNx1 vertex ⟨0, 0, 1⟩ = (lo.z, hi.z) := by
    have hs := dstCalculateMinAndMaxDotProductNx1_spec vertex ⟨0, 0, 1⟩ hne
    exact Prod.ext
      (IsMinDot_unique hs.1 ⟨fun v hv => by simpa [Dot] using (lb v hv).2.2,
        uz, huz, by simpa [Dot] using euz⟩)
      (IsMaxDot_unique hs.2 ⟨fun v hv => by simpa [Dot] using (ub v hv).2.2,
        wz, hwz, by simpa [Dot] using ewz⟩)
  unfold pcaCenter
  simp only [principalDirections_eq, dstCalculateMinAndMaxDotProductNx3, hx, hy, hz]
  rw [Vector3D.ext_iff3]
  simp

/-- Claim C35: because the code scales by the integer quotient `1 / nu_vertices`, for
every non-empty vertex sequence the matrix passed to `CalculateEigensystem` is the zero
matrix, the three directions returned by `CalculatePrincipalComponents` are the coordinate
unit vectors in some order, and the fitted box is axis-aligned: its centre is the midpoint
of the componentwise minimum `lo` and maximum `hi` of the vertices and each size is the
extent of `hi - lo` along its direction. -/
theorem CalculatePrincipalComponents_axes_are_coordinate_axes (position : List (Point3D ℝ))
    (hne : position ≠ []) :
    covarianceMatrix position = ⟨0, 0, 0, 0, 0, 0, 0, 0, 0⟩ ∧
    (∃ σ : Fin 3 → Fin 3, Function.Bijective σ ∧
      ∀ i : Fin 3, (((CalculatePrincipalComponents Real.sqrt position).1).get i).vector
        = (Matrix3D.identity : Matrix3D ℝ).GetRow (σ i)) ∧
    (∃ lo hi : Point3D ℝ, IsComponentwiseMin position lo ∧ IsComponentwiseMax position hi ∧
      (CalculatePrincipalComponents Real.sqrt position).2
        = ⟨(hi.x + lo.x) * (1 / 2), (hi.y + lo.y) * (1 / 2), (hi.z + lo.z) * (1 / 2)⟩ ∧
      ∀ i : Fin 3, (((CalculatePrincipalComponents Real.sqrt position).1).get i).size
        = Dot (hi - lo) (((CalculatePrincipalComponents Real.sqrt position).1).get i).vector) := by
  obtain ⟨lo, hi, _, hlo, hhi⟩ := CalculateAABB_spec position hne
  have hu := unsortedComponents_axis_aligned position lo hi hlo hhi
  have hs : (CalculatePrincipalComponents Real.sqrt position).1
      = (unsortedComponents Real.sqrt position).sortDecreasing := rfl
  have d0 : Dot (hi - lo) (⟨1, 0, 0⟩ : Vector3D ℝ) = hi.x - lo.x := by simp [Dot]
  have d1 : Dot (hi - lo) (⟨0, 1, 0⟩ : Vector3D ℝ) = hi.y - lo.y := by simp [Dot]
  have d2 : Dot (hi - lo) (⟨0, 0, 1⟩ : Vector3D ℝ) = hi.z - lo.z := by simp [Dot]
  refine ⟨covarianceMatrix_eq_zero position, ?_,
    ⟨lo, hi, hlo, hhi, pcaCenter_axis_aligned position lo hi hlo hhi, ?_⟩⟩
  · rw [hs]
    rcases (unsortedComponents Real.sqrt position).sortDecreasing_cases with e | e | e | e | e | e <;>
      rw [e, hu]
    · exact ⟨![0, 1, 2], by decide, fun i => by fin_cases i <;> rfl⟩
    · exact ⟨![0, 2, 1], by decide, fun i => by fin_cases i <;> rfl⟩
    · exact ⟨![1, 0, 2], by decide, fun i => by fin_cases i <;> rfl⟩
    · exact ⟨![1, 2, 0], by decide, fun i => by fin_cases i <;> rfl⟩
    · exact ⟨![2, 0, 1], by decide, fun i => by fin_cases i <;> rfl⟩
    · exact ⟨![2, 1, 0], by decide, fun i => by fin_cases i <;> rfl⟩
  · rw [hs]
    intro i
    rcases (unsortedComponents Real.sqrt position).sortDecreasing_cases with e | e | e | e | e | e <;>
      rw [e, hu] <;> fin_cases i <;> simp only [PCAArray.get] <;>
      first | exact d0.symm | exact d1.symm | exact d2.symm

/-- Witness for C35: two vertices along a diagonal. -/
theorem CalculatePrincipalComponents_axes_are_coordinate_axes_witness :
    covarianceMatrix [(⟨0, 0, 0⟩ : Point3D ℝ), ⟨2, 2, 0⟩] = ⟨0, 0, 0, 0, 0, 0, 0, 0, 0⟩ ∧
    (∃ σ : Fin 3 → Fin 3, Function.Bijective σ ∧
      ∀ i : Fin 3,
        (((CalculatePrincipalComponents Real.sqrt
            [(⟨0, 0, 0⟩ : Point3D ℝ), ⟨2, 2, 0⟩]).1).get i).vector
          = (Matrix3D.identity : Matrix3D ℝ).GetRow (σ i)) :=
  have h := CalculatePrincipalComponents_axes_are_coordinate_axes
    [(⟨0, 0, 0⟩ : Point3D ℝ), ⟨2, 2, 0⟩] (List.cons_ne_nil _ _)
  ⟨h.1, h.2.1⟩

/-! ## A vertex lies on the fitted sphere -/

section TouchLemmas

variable {F : Type} [LinearOrderedField F]

/-- The index search keeps the index of the minimum below the number of vertices seen. -/
theorem MinMaxIndex.run_i_min_lt (C : Vector3D F) (rest : List (Vector3D F)) :
    ∀ (i : Nat) (s : MinMaxIndex F), s.i_min < i →
      (MinMaxIndex.run C rest i s).i_min < i + rest.length := by
  induction rest with
  | nil => intro i s h; simpa [MinMaxIndex.run] using h
  | cons v rest ih =>
    intro i s h
    have hstep : (s.step i (Dot v C)).i_min < i + 1 := by
      unfold MinMaxIndex.step
      simp only
      split_ifs <;> first | exact Nat.lt_succ_self i | exact Nat.lt_succ_of_lt h
    have := ih (i + 1) _ hstep
    simp only [MinMaxIndex.run, List.length_cons]
    omega

/-- For a non-empty array the index `i_Pmin` names one of its vertices. -/
theorem vertexAt_i_Pmin_mem (vertex : List (Point3D F)) (C : Vector3D F) (hne : vertex ≠ []) :
    vertexAt vertex (dstGetIndicesWithMinAndMaxDotProductNx1 vertex C).1 ∈ vertex := by
  cases vertex with
  | nil => exact absurd rfl hne
  | cons v rest =>
    have h := MinMaxIndex.run_i_min_lt C rest 1 ⟨0, Dot v C, 0, Dot v C⟩ (by simp)
    have hlt : (dstGetIndicesWithMinAndMaxDotProductNx1 (v :: rest) C).1 < (v :: rest).length := by
      simp only [dstGetIndicesWithMinAndMaxDotProductNx1, List.length_cons]
      omega
    unfold vertexAt
    rw [List.getD_eq_getElem _ _ hlt]
    exact List.getElem_mem _

/-- A growth step leaves a vertex on the boundary: the old one if nothing changes, the
new vertex otherwise. -/
theorem SphereFit.foldl_touches (sqrtf : F → F) (all : List (Point3D F)) :
    ∀ (L : List (Point3D F)) (s : SphereFit F), (∀ v ∈ L, v ∈ all) →
      (∃ v ∈ all, SquaredMag (v - s.center) = s.r_squared) →
      ∃ v ∈ all, SquaredMag (v - (L.foldl (SphereFit.grow sqrtf) s).center)
        = (L.foldl (SphereFit.grow sqrtf) s).r_squared := by
  intro L
  induction L with
  | nil => intro s _ h; exact h
  | cons P rest ih =>
    intro s hsub h
    rw [List.foldl_cons]
    apply ih _ (fun v hv => hsub v (List.mem_cons_of_mem _ hv))
    unfold SphereFit.grow
    simp only
    split_ifs
    · exact ⟨P, hsub P (List.mem_cons_self _ _), rfl⟩
    · exact h

end TouchLemmas

/-- Claim C39: the point-in-sphere test is strict and the point-in-AABB test inclusive.
`Intersects(P, sphere)` is false for every point at distance exactly `radius` from the
centre; for a non-empty vertex set, in exact real arithmetic, some vertex `v` has
`Intersects(v, fitted sphere) = false` (for a single vertex, the vertex itself), while
`Intersects(v, computed AABB)` is true for every vertex. -/
theorem point_tests_strict_sphere_inclusive_AABB (vertex : List (Point3D ℝ))
    (_PCA : PCAArray ℝ) (hne : vertex ≠ []) :
    (∀ (P : Point3D ℝ) (sphere : sreBoundingVolumeSphere ℝ),
      Magnitude Real.sqrt (P - sphere.center) = sphere.radius →
        Intersects_Point_Sphere P sphere = false) ∧
    (∃ v ∈ vertex,
      Intersects_Point_Sphere v (CalculatePCABoundingSphere Real.sqrt vertex _PCA) = false) ∧
    (∀ p : Point3D ℝ,
      Intersects_Point_Sphere p (CalculatePCABoundingSphere Real.sqrt [p] _PCA) = false) ∧
    (∃ lo hi : Point3D ℝ, CalculateAABB vertex = ⟨lo.toExt, hi.toExt⟩ ∧
      ∀ v ∈ vertex, Intersects_Point_AABB v ⟨lo, hi⟩ = true) := by
  have hstrict : ∀ (P : Point3D ℝ) (sphere : sreBoundingVolumeSphere ℝ),
      Magnitude Real.sqrt (P - sphere.center) = sphere.radius →
        Intersects_Point_Sphere P sphere = false := by
    intro P sphere h
    unfold Intersects_Point_Sphere
    have hsq : SquaredMag (P - sphere.center) = sqrf sphere.radius := by
      rw [← h]
      unfold Magnitude sqrf
      exact (Real.mul_self_sqrt (SquaredMag_nonneg _)).symm
    rw [if_pos hsq.ge]
  have htouch : ∀ w : List (Point3D ℝ), w ≠ [] →
      ∃ v ∈ w, Intersects_Point_Sphere v (CalculatePCABoundingSphere Real.sqrt w _PCA) = false := by
    intro w hw
    obtain ⟨v, hv, hon⟩ := SphereFit.foldl_touches Real.sqrt w w
      { center := Vector3D.scale (1 / 2)
          (vertexAt w (dstGetIndicesWithMinAndMaxDotProductNx1 w _PCA.c0.vector).1
            + vertexAt w (dstGetIndicesWithMinAndMaxDotProductNx1 w _PCA.c0.vector).2)
        r_squared := SquaredMag
          (vertexAt w (dstGetIndicesWithMinAndMaxDotProductNx1 w _PCA.c0.vector).1
            - Vector3D.scale (1 / 2)
              (vertexAt w (dstGetIndicesWithMinAndMaxDotProductNx1 w _PCA.c0.vector).1
                + vertexAt w (dstGetIndicesWithMinAndMaxDotProductNx1 w _PCA.c0.vector).2)) }
      (fun v hv => hv)
      ⟨_, vertexAt_i_Pmin_mem w _PCA.c0.vector hw, rfl⟩
    refine ⟨v, hv, hstrict v _ ?_⟩
    unfold CalculatePCABoundingSphere Magnitude
    simp only
    rw [hon]
  refine ⟨hstrict, htouch vertex hne, ?_, ?_⟩
  · intro p
    obtain ⟨v, hv, h⟩ := htouch [p] (List.cons_ne_nil _ _)
    rw [List.mem_singleton] at hv
    subst hv
    exact h
  · obtain ⟨lo, hi, e, hlo, hhi⟩ := CalculateAABB_spec vertex hne
    refine ⟨lo, hi, e, ?_⟩
    intro v hv
    rw [Intersects_Point_AABB_true_iff]
    obtain ⟨a1, a2, a3⟩ := hlo.1 v hv
    obtain ⟨b1, b2, b3⟩ := hhi.1 v hv
    exact ⟨⟨a1, b1⟩, ⟨a2, b2⟩, ⟨a3, b3⟩⟩

/-- Witness for C39: two vertices. -/
theorem point_tests_strict_sphere_inclusive_AABB_witness :
    ∃ v ∈ [(⟨0, 0, 0⟩ : Point3D ℝ), ⟨0, 2, 0⟩],
      Intersects_Point_Sphere v
        (CalculatePCABoundingSphere Real.sqrt [(⟨0, 0, 0⟩ : Point3D ℝ), ⟨0, 2, 0⟩]
          ⟨⟨⟨0, 1, 0⟩, 2⟩, ⟨⟨1, 0, 0⟩, 0⟩, ⟨⟨0, 0, 1⟩, 0⟩⟩) = false :=
  (point_tests_strict_sphere_inclusive_AABB [⟨0, 0, 0⟩, ⟨0, 2, 0⟩]
    ⟨⟨⟨0, 1, 0⟩, 2⟩, ⟨⟨1, 0, 0⟩, 0⟩, ⟨⟨0, 0, 1⟩, 0⟩⟩ (List.cons_ne_nil _ _)).2.1

/-! ## `CalculateEigensystem` executes no undefined operation -/

section CheckedLemmas

theorem checkedDiv_of_ne {F : Type} [LinearOrderedField F] (a b : F) (h : b ≠ 0) :
    checkedDiv a b = some (a / b) := if_neg h

theorem checkedSqrt_of_le {F : Type} [LinearOrderedField F] (sqrtf : F → F) (x : F)
    (h : 1 ≤ x) : checkedSqrt sqrtf x = some (sqrtf x) := if_pos h

/-- Over the reals the fallback is never taken and the square root argument is at least 1. -/
theorem rotationT_checked_eq (u : ℝ) :
    rotationT_checked Real.sqrt u = some (rotationT Real.sqrt u) := by
  have hne : u * u + 1 ≠ u * u := by
    intro h
    linarith
  unfold rotationT_checked rotationT
  simp only [hne, ne_eq, not_false_eq_true, if_true]
  rw [checkedSqrt_of_le _ _ (by nlinarith [mul_self_nonneg u])]
  rfl

theorem rotationC_checked_eq (t : ℝ) :
    rotationC_checked Real.sqrt t = some (rotationC Real.sqrt t) := by
  have hpos : 0 < t * t + 1 := by nlinarith [mul_self_nonneg t]
  unfold rotationC_checked rotationC
  rw [checkedSqrt_of_le _ _ (by nlinarith [mul_self_nonneg t]), Option.some_bind,
    checkedDiv_of_ne _ _ (Real.sqrt_pos.mpr hpos).ne']

theorem EigenState.annihilate12_checked_eq (e : EigenState ℝ) :
    e.annihilate12_checked Real.sqrt = some (e.annihilate12 Real.sqrt) := by
  unfold EigenState.annihilate12_checked EigenState.annihilate12
  by_cases h : e.m12 ≠ 0
  · rw [if_pos h, if_pos h, checkedDiv_of_ne _ _ h]
    simp only [Option.some_bind, rotationT_checked_eq, rotationC_checked_eq]
  · rw [if_neg h, if_neg h]

theorem EigenState.annihilate13_checked_eq (e : EigenState ℝ) :
    e.annihilate13_checked Real.sqrt = some (e.annihilate13 Real.sqrt) := by
  unfold EigenState.annihilate13_checked EigenState.annihilate13
  by_cases h : e.m13 ≠ 0
  · rw [if_pos h, if_pos h, checkedDiv_of_ne _ _ h]
    simp only [Option.some_bind, rotationT_checked_eq, rotationC_checked_eq]
  · rw [if_neg h, if_neg h]

theorem EigenState.annihilate23_checked_eq (e : EigenState ℝ) :
    e.annihilate23_checked Real.sqrt = some (e.annihilate23 Real.sqrt) := by
  unfold EigenState.annihilate23_checked EigenState.annihilate23
  by_cases h : e.m23 ≠ 0
  · rw [if_pos h, if_pos h, checkedDiv_of_ne _ _ h]
    simp only [Option.some_bind, rotationT_checked_eq, rotationC_checked_eq]
  · rw [if_neg h, if_neg h]

theorem EigenState.sweep_checked_eq (e : EigenState ℝ) :
    e.sweep_checked Real.sqrt = some (e.sweep Real.sqrt) := by
  unfold EigenState.sweep_checked EigenState.sweep
  simp only [EigenState.annihilate12_checked_eq, EigenState.annihilate13_checked_eq,
    EigenState.annihilate23_checked_eq, Option.some_bind]

theorem eigenLoop_checked_eq (n : Nat) :
    ∀ e : EigenState ℝ, eigenLoop_checked Real.sqrt n e = some (eigenLoop Real.sqrt n e) := by
  induction n with
  | zero => intro e; rfl
  | succ n ih =>
    intro e
    unfold eigenLoop_checked eigenLoop
    by_cases h : e.offDiagonalSmall = true
    · rw [if_pos h, if_pos h]
    · rw [if_neg h, if_neg h, EigenState.sweep_checked_eq, Option.some_bind, ih]

/-- The loop leaves the state reached after some number of sweeps, at most the bound. -/
theorem eigenLoop_iterate {F : Type} [LinearOrderedField F] (sqrtf : F → F) (n : Nat) :
    ∀ e : EigenState F, ∃ k : Nat, k ≤ n ∧
      (eigenLoop sqrtf n e).1 = (EigenState.sweep sqrtf)^[k] e := by
  induction n with
  | zero => intro e; exact ⟨0, le_rfl, rfl⟩
  | succ n ih =>
    intro e
    unfold eigenLoop
    by_cases h : e.offDiagonalSmall = true
    · rw [if_pos h]
      exact ⟨0, Nat.zero_le _, rfl⟩
    · rw [if_neg h]
      obtain ⟨k, hk, he⟩ := ih (e.sweep sqrtf)
      exact ⟨k + 1, Nat.succ_le_succ hk, by rw [he, Function.iterate_succ_apply]⟩

end CheckedLemmas

/-- Claim C31: on every symmetric real input `CalculateEigensystem` runs to its end without
an undefined operation: the checked run, in which a division by zero or a square root of
an argument below 1 gives `none`, returns the result; the final state is reached after at
most 32 sweeps; a block whose off-diagonal entry is zero is skipped; and the fallback
`t = 0.5/u` is never taken, because `u² + 1 ≠ u²`. -/
theorem CalculateEigensystem_total_and_safe (m : Matrix3D ℝ) (_hsym : m.IsSymmetric) :
    CalculateEigensystem_checked Real.sqrt m = some (CalculateEigensystem Real.sqrt m) ∧
    (∃ k : Nat, k ≤ 32 ∧
      eigenFinalState Real.sqrt m = (EigenState.sweep Real.sqrt)^[k] (EigenState.init m)) ∧
    (∀ e : EigenState ℝ,
      (e.m12 = 0 → e.annihilate12 Real.sqrt = e) ∧
      (e.m13 = 0 → e.annihilate13 Real.sqrt = e) ∧
      (e.m23 = 0 → e.annihilate23 Real.sqrt = e)) ∧
    (∀ u : ℝ, u * u + 1 ≠ u * u ∧ 1 ≤ u * u + 1 ∧
      rotationT Real.sqrt u = (if u < 0 then -1 else 1) * (Real.sqrt (u * u + 1) - |u|)) := by
  refine ⟨?_, eigenLoop_iterate Real.sqrt maxSweeps (EigenState.init m), ?_, ?_⟩
  · unfold CalculateEigensystem_checked CalculateEigensystem eigenFinalState
    rw [eigenLoop_checked_eq]
    rfl
  · intro e
    refine ⟨fun h => ?_, fun h => ?_, fun h => ?_⟩
    · unfold EigenState.annihilate12
      rw [if_neg (not_not.mpr h)]
    · unfold EigenState.annihilate13
      rw [if_neg (not_not.mpr h)]
    · unfold EigenState.annihilate23
      rw [if_neg (not_not.mpr h)]
  · intro u
    have hne : u * u + 1 ≠ u * u := by
      intro h
      linarith
    refine ⟨hne, by nlinarith [mul_self_nonneg u], ?_⟩
    unfold rotationT
    simp only [hne, ne_eq, not_false_eq_true, if_true]

/-- Witness for C31: a symmetric matrix with a non-zero off-diagonal entry. -/
theorem CalculateEigensystem_total_and_safe_witness :
    CalculateEigensystem_checked Real.sqrt (Matrix3D.symmetric 2 2 3 1 0 0)
      = some (CalculateEigensystem Real.sqrt (Matrix3D.symmetric 2 2 3 1 0 0)) :=
  (CalculateEigensystem_total_and_safe (Matrix3D.symmetric 2 2 3 1 0 0) ⟨rfl, rfl, rfl⟩).1

/-! ## The divisions of the shape fitters are guarded -/

section GuardLemmas

/-- When the growth branch is entered from a sphere with `r_squared ≥ 0`, the divisor
`Magnitude(P - center)` is positive. -/
theorem grow_divisor_pos (s : SphereFit ℝ) (P : Point3D ℝ) (h0 : 0 ≤ s.r_squared)
    (hgt : SquaredMag (P - s.center) > s.r_squared) :
    0 < Magnitude Real.sqrt (P - s.center) :=
  Real.sqrt_pos.mpr (lt_of_le_of_lt h0 hgt)

theorem SphereFit.grow_checked_eq (s : SphereFit ℝ) (P : Point3D ℝ) (h0 : 0 ≤ s.r_squared) :
    s.grow_checked Real.sqrt P = some (s.grow Real.sqrt P) := by
  unfold SphereFit.grow_checked SphereFit.grow
  simp only
  by_cases hgt : SquaredMag (P - s.center) > s.r_squared
  · rw [if_pos hgt, if_pos hgt]
    unfold Vector3D.checkedDivScalar
    rw [if_neg (grow_divisor_pos s P h0 hgt).ne']
    rfl
  · rw [if_neg hgt, if_neg hgt]

theorem SphereFit.run_checked_eq (vertex : List (Point3D ℝ)) :
    ∀ s : SphereFit ℝ, 0 ≤ s.r_squared →
      SphereFit.run_checked Real.sqrt vertex s
        = some (vertex.foldl (SphereFit.grow Real.sqrt) s) := by
  induction vertex with
  | nil => intro s _; rfl
  | cons P rest ih =>
    intro s h0
    unfold SphereFit.run_checked
    rw [SphereFit.grow_checked_eq s P h0, Option.some_bind, List.foldl_cons]
    exact ih _ (SphereFit.grow_spec s P h0).1

theorem CalculatePCABoundingSphere_checked_eq (vertex : List (Point3D ℝ)) (_PCA : PCAArray ℝ) :
    CalculatePCABoundingSphere_checked Real.sqrt vertex _PCA
      = some (CalculatePCABoundingSphere Real.sqrt vertex _PCA) := by
  unfold CalculatePCABoundingSphere_checked CalculatePCABoundingSphere
  simp only
  rw [SphereFit.run_checked_eq _ _ (SquaredMag_nonneg _)]
  rfl

theorem CalculatePCABoundingCylinder_checked_eq (vertex : List (Point3D ℝ))
    (_PCA : PCAArray ℝ) :
    CalculatePCABoundingCylinder_checked Real.sqrt vertex _PCA
      = some (CalculatePCABoundingCylinder Real.sqrt vertex _PCA) := by
  unfold CalculatePCABoundingCylinder_checked CalculatePCABoundingCylinder
  simp only
  rw [SphereFit.run_checked_eq _ _ (SquaredMag_nonneg _)]
  rfl

theorem CalculatePCABoundingEllipsoid_checked_eq (vertex : List (Point3D ℝ))
    (_PCA : PCAArray ℝ) (h0 : _PCA.c0.size ≠ 0) (h1 : _PCA.c1.size ≠ 0)
    (h2 : _PCA.c2.size ≠ 0) :
    CalculatePCABoundingEllipsoid_checked Real.sqrt vertex _PCA
      = some (CalculatePCABoundingEllipsoid Real.sqrt vertex _PCA) := by
  unfold CalculatePCABoundingEllipsoid_checked CalculatePCABoundingEllipsoid
  simp only
  rw [checkedDiv_of_ne _ _ h0, Option.some_bind, checkedDiv_of_ne _ _ h1, Option.some_bind,
    checkedDiv_of_ne _ _ h2, Option.some_bind, CalculatePCABoundingSphere_checked_eq]
  rfl

end GuardLemmas

/-- Claim C38: inside `CalculateBounds`, over the reals, every division of the shape
fitters is guarded.  The sphere fit runs without a zero divisor; the ellipsoid and the
cylinder are fitted exactly when `PCA[2].size > EPSILON`, and then all three sizes exceed
`EPSILON > 0` and both fits run without a zero divisor; in the sphere and circle fits the
divisor `Magnitude(P - center)` is positive whenever the growth branch is entered. -/
theorem CalculateBounds_fitter_divisions_guarded (m : sreModel ℝ)
    (hne : m.lod_model.headD [] ≠ []) :
    CalculatePCABoundingSphere_checked Real.sqrt (m.lod_model.headD [])
        (CalculateBounds Real.sqrt Real.pi m).PCA
      = some (CalculatePCABoundingSphere Real.sqrt (m.lod_model.headD [])
          (CalculateBounds Real.sqrt Real.pi m).PCA) ∧
    ((fittedEllipsoid Real.sqrt (m.lod_model.headD [])).isSome = true ↔
      (CalculateBounds Real.sqrt Real.pi m).PCA.c2.size > EPSILON) ∧
    ((fittedCylinder Real.sqrt (m.lod_model.headD [])).isSome = true ↔
      (CalculateBounds Real.sqrt Real.pi m).PCA.c2.size > EPSILON) ∧
    ((CalculateBounds Real.sqrt Real.pi m).PCA.c2.size > EPSILON →
      (0 : ℝ) < EPSILON ∧
      (CalculateBounds Real.sqrt Real.pi m).PCA.c0.size > EPSILON ∧
      (CalculateBounds Real.sqrt Real.pi m).PCA.c1.size > EPSILON ∧
      CalculatePCABoundingEllipsoid_checked Real.sqrt (m.lod_model.headD [])
          (CalculateBounds Real.sqrt Real.pi m).PCA
        = some (CalculatePCABoundingEllipsoid Real.sqrt (m.lod_model.headD [])
            (CalculateBounds Real.sqrt Real.pi m).PCA) ∧
      CalculatePCABoundingCylinder_checked Real.sqrt (m.lod_model.headD [])
          (CalculateBounds Real.sqrt Real.pi m).PCA
        = some (CalculatePCABoundingCylinder Real.sqrt (m.lod_model.headD [])
            (CalculateBounds Real.sqrt Real.pi m).PCA)) ∧
    (∀ (s : SphereFit ℝ) (P : Point3D ℝ), 0 ≤ s.r_squared →
      SquaredMag (P - s.center) > s.r_squared → 0 < Magnitude Real.sqrt (P - s.center)) := by
  have hpca : (CalculateBounds Real.sqrt Real.pi m).PCA
      = (CalculatePrincipalComponents Real.sqrt (m.lod_model.headD [])).1 := rfl
  have hE : (0 : ℝ) < EPSILON := by
    unfold EPSILON
    norm_num
  refine ⟨CalculatePCABoundingSphere_checked_eq _ _, ?_, ?_, ?_, grow_divisor_pos⟩
  · rw [hpca]
    unfold fittedEllipsoid
    split_ifs with h
    · exact iff_of_true rfl h
    · exact iff_of_false (by simp) h
  · rw [hpca]
    unfold fittedCylinder
    split_ifs with h
    · exact iff_of_true rfl h
    · exact iff_of_false (by simp) h
  · intro h2
    rw [hpca] at h2 ⊢
    obtain ⟨_, h21, h10⟩ := sortedSizes_nonneg Real.sqrt (m.lod_model.headD []) hne
    have g1 : (CalculatePrincipalComponents Real.sqrt (m.lod_model.headD [])).1.c1.size
        > EPSILON := lt_of_lt_of_le h2 h21
    have g0 : (CalculatePrincipalComponents Real.sqrt (m.lod_model.headD [])).1.c0.size
        > EPSILON := lt_of_lt_of_le g1 h10
    exact ⟨hE, g0, g1,
      CalculatePCABoundingEllipsoid_checked_eq _ _ (lt_trans hE g0).ne' (lt_trans hE g1).ne'
        (lt_trans hE h2).ne',
      CalculatePCABoundingCylinder_checked_eq _ _⟩

/-- Witness for C38: the sample rod. -/
theorem CalculateBounds_fitter_divisions_guarded_witness :
    CalculatePCABoundingSphere_checked Real.sqrt ((modelOf rodVertices).lod_model.headD [])
        (CalculateBounds Real.sqrt Real.pi (modelOf rodVertices)).PCA
      = some (CalculatePCABoundingSphere Real.sqrt ((modelOf rodVertices).lod_model.headD [])
          (CalculateBounds Real.sqrt Real.pi (modelOf rodVertices)).PCA) :=
  (CalculateBounds_fitter_divisions_guarded (modelOf rodVertices) (List.cons_ne_nil _ _)).1

/-! ## The fitted ellipsoid contains the vertices -/

section EllipsoidContainment

variable {F : Type} [LinearOrderedField F]

/-- A conjugate `R·diag(d)·transpose(R)` with orthonormal columns `a_i` scales the
component along `a_i` by `d_i`. -/
theorem conjugate_diagonal_dot {a0 a1 a2 : Vector3D F} (h : Orthonormal3 a0 a1 a2)
    (d0 d1 d2 : F) (x : Vector3D F) :
    Dot (((Matrix3D.ofColumns a0 a1 a2).mul
        ((Matrix3D.diagonal d0 d1 d2).mul (Matrix3D.ofColumns a0 a1 a2).transpose)).mulVec x) a0
      = d0 * Dot x a0 ∧
    Dot (((Matrix3D.ofColumns a0 a1 a2).mul
        ((Matrix3D.diagonal d0 d1 d2).mul (Matrix3D.ofColumns a0 a1 a2).transpose)).mulVec x) a1
      = d1 * Dot x a1 ∧
    Dot (((Matrix3D.ofColumns a0 a1 a2).mul
        ((Matrix3D.diagonal d0 d1 d2).mul (Matrix3D.ofColumns a0 a1 a2).transpose)).mulVec x) a2
      = d2 * Dot x a2 := by
  obtain ⟨u0, u1, u2, o01, o02, o12⟩ := h
  simp only [Matrix3D.mulVec, Matrix3D.mul, Matrix3D.transpose, Matrix3D.ofColumns,
    Matrix3D.diagonal, Matrix3D.GetRow, Matrix3D.GetColumn, Dot] at u0 u1 u2 o01 o02 o12 ⊢
  refine ⟨?_, ?_, ?_⟩
  · linear_combination
      (d0 * (x.x * a0.x + x.y * a0.y + x.z * a0.z)) * u0
        + (d1 * (x.x * a1.x + x.y * a1.y + x.z * a1.z)) * o01
        + (d2 * (x.x * a2.x + x.y * a2.y + x.z * a2.z)) * o02
  · linear_combination
      (d0 * (x.x * a0.x + x.y * a0.y + x.z * a0.z)) * o01
        + (d1 * (x.x * a1.x + x.y * a1.y + x.z * a1.z)) * u1
        + (d2 * (x.x * a2.x + x.y * a2.y + x.z * a2.z)) * o12
  · linear_combination
      (d0 * (x.x * a0.x + x.y * a0.y + x.z * a0.z)) * o02
        + (d1 * (x.x * a1.x + x.y * a1.y + x.z * a1.z)) * o12
        + (d2 * (x.x * a2.x + x.y * a2.y + x.z * a2.z)) * u2

/-- The squared length is the sum of the squared components along orthonormal vectors. -/
theorem orthonormal_parseval {a0 a1 a2 : Vector3D F} (h : Orthonormal3 a0 a1 a2)
    (x : Vector3D F) :
    SquaredMag x = Dot x a0 ^ 2 + Dot x a1 ^ 2 + Dot x a2 ^ 2 := by
  have hR := Matrix3D.ofColumns_orthonormal h
  have horth : ((Matrix3D.ofColumns a0 a1 a2).transpose).IsOrthogonal :=
    (Matrix3D.isOrthogonal_iff _).mpr ⟨hR.1, hR.2⟩
  exact orthogonal_parseval _ horth x

theorem Dot_sub_left (v w a : Vector3D F) : Dot (v - w) a = Dot v a - Dot w a := by
  simp only [Dot, Vector3D.sub_x, Vector3D.sub_y, Vector3D.sub_z]
  ring

theorem SquaredMag_scale (k : F) (a : Vector3D F) :
    SquaredMag (Vector3D.scale k a) = k ^ 2 * Dot a a := by
  simp only [SquaredMag, Dot, Vector3D.scale_x, Vector3D.scale_y, Vector3D.scale_z]
  ring

end EllipsoidContainment

/-- Claim C37: for a non-empty vertex set, orthonormal directions `a_i` and positive sizes
`e_i`, in exact real arithmetic, every vertex `v` satisfies
`Σ_i (((v - ellipsoid.center)·a_i) / e_i)² ≤ r²`, where `r` is the radius of the sphere
fitted in normalized space and `e_i·r` is the length of `ellipsoid.PCA[i].vector`. -/
theorem CalculatePCABoundingEllipsoid_contains_vertices (vertex : List (Point3D ℝ))
    (_PCA : PCAArray ℝ) (_hne : vertex ≠ [])
    (horth : Orthonormal3 _PCA.c0.vector _PCA.c1.vector _PCA.c2.vector)
    (h0 : 0 < _PCA.c0.size) (h1 : 0 < _PCA.c1.size) (h2 : 0 < _PCA.c2.size) :
    (∀ v ∈ vertex,
      (Dot (v - (CalculatePCABoundingEllipsoid Real.sqrt vertex _PCA).center) _PCA.c0.vector
          / _PCA.c0.size) ^ 2
        + (Dot (v - (CalculatePCABoundingEllipsoid Real.sqrt vertex _PCA).center) _PCA.c1.vector
          / _PCA.c1.size) ^ 2
        + (Dot (v - (CalculatePCABoundingEllipsoid Real.sqrt vertex _PCA).center) _PCA.c2.vector
          / _PCA.c2.size) ^ 2
        ≤ (CalculatePCABoundingSphere Real.sqrt
            (vertex.map (fun v => _PCA.scalingMatrix.mulVec v)) _PCA).radius ^ 2) ∧
    Magnitude Real.sqrt (CalculatePCABoundingEllipsoid Real.sqrt vertex _PCA).PCA0
      = _PCA.c0.size * (CalculatePCABoundingSphere Real.sqrt
          (vertex.map (fun v => _PCA.scalingMatrix.mulVec v)) _PCA).radius ∧
    Magnitude Real.sqrt (CalculatePCABoundingEllipsoid Real.sqrt vertex _PCA).PCA1
      = _PCA.c1.size * (CalculatePCABoundingSphere Real.sqrt
          (vertex.map (fun v => _PCA.scalingMatrix.mulVec v)) _PCA).radius ∧
    Magnitude Real.sqrt (CalculatePCABoundingEllipsoid Real.sqrt vertex _PCA).PCA2
      = _PCA.c2.size * (CalculatePCABoundingSphere Real.sqrt
          (vertex.map (fun v => _PCA.scalingMatrix.mulVec v)) _PCA).radius := by
  have hr0 : 0 ≤ (CalculatePCABoundingSphere Real.sqrt
      (vertex.map (fun v => _PCA.scalingMatrix.mulVec v)) _PCA).radius := Real.sqrt_nonneg _
  have hmag : ∀ (e : ℝ) (a : Vector3D ℝ), 0 < e → Dot a a = 1 →
      Magnitude Real.sqrt (Vector3D.scale
        (CalculatePCABoundingSphere Real.sqrt
          (vertex.map (fun v => _PCA.scalingMatrix.mulVec v)) _PCA).radius
        (Vector3D.scale e a))
      = e * (CalculatePCABoundingSphere Real.sqrt
          (vertex.map (fun v => _PCA.scalingMatrix.mulVec v)) _PCA).radius := by
    intro e a he ha
    unfold Magnitude
    rw [Vector3D.scale_scale, SquaredMag_scale, ha, mul_one]
    exact Real.sqrt_sq (mul_nonneg he.le hr0)
  refine ⟨?_, hmag _ _ h0 horth.1, hmag _ _ h1 horth.2.1, hmag _ _ h2 horth.2.2.1⟩
  intro v hv
  have hcenter : (CalculatePCABoundingEllipsoid Real.sqrt vertex _PCA).center
      = _PCA.unscalingMatrix.mulVec
          (CalculatePCABoundingSphere Real.sqrt
            (vertex.map (fun v => _PCA.scalingMatrix.mulVec v)) _PCA).center := rfl
  have hmem : _PCA.scalingMatrix.mulVec v
      ∈ vertex.map (fun v => _PCA.scalingMatrix.mulVec v) := List.mem_map_of_mem _ hv
  have henc := sphere_encloses (vertex.map (fun v => _PCA.scalingMatrix.mulVec v)) _PCA _ hmem
  have hsq : SquaredMag (_PCA.scalingMatrix.mulVec v
      - (CalculatePCABoundingSphere Real.sqrt
          (vertex.map (fun v => _PCA.scalingMatrix.mulVec v)) _PCA).center)
      ≤ (CalculatePCABoundingSphere Real.sqrt
          (vertex.map (fun v => _PCA.scalingMatrix.mulVec v)) _PCA).radius ^ 2 := by
    have hm0 : 0 ≤ Magnitude Real.sqrt (_PCA.scalingMatrix.mulVec v
        - (CalculatePCABoundingSphere Real.sqrt
            (vertex.map (fun v => _PCA.scalingMatrix.mulVec v)) _PCA).center) :=
      Real.sqrt_nonneg _
    have hm2 : Magnitude Real.sqrt (_PCA.scalingMatrix.mulVec v
        - (CalculatePCABoundingSphere Real.sqrt
            (vertex.map (fun v => _PCA.scalingMatrix.mulVec v)) _PCA).center) ^ 2
        = SquaredMag (_PCA.scalingMatrix.mulVec v
        - (CalculatePCABoundingSphere Real.sqrt
            (vertex.map (fun v => _PCA.scalingMatrix.mulVec v)) _PCA).center) :=
      Real.sq_sqrt (SquaredMag_nonneg _)
    rw [← hm2]
    exact pow_le_pow_left hm0 henc 2
  rw [hcenter]
  generalize (CalculatePCABoundingSphere Real.sqrt
    (vertex.map (fun v => _PCA.scalingMatrix.mulVec v)) _PCA).center = c at hsq ⊢
  generalize (CalculatePCABoundingSphere Real.sqrt
    (vertex.map (fun v => _PCA.scalingMatrix.mulVec v)) _PCA).radius = r at hsq ⊢
  obtain ⟨m0, m1, m2⟩ := conjugate_diagonal_dot horth (1 / _PCA.c0.size) (1 / _PCA.c1.size)
    (1 / _PCA.c2.size) v
  obtain ⟨n0, n1, n2⟩ := conjugate_diagonal_dot horth _PCA.c0.size _PCA.c1.size
    _PCA.c2.size c
  have k0 : Dot (v - _PCA.unscalingMatrix.mulVec c) _PCA.c0.vector / _PCA.c0.size
      = Dot (_PCA.scalingMatrix.mulVec v - c) _PCA.c0.vector := by
    rw [Dot_sub_left, Dot_sub_left]
    unfold PCAArray.unscalingMatrix PCAArray.scalingMatrix
    rw [m0, n0]
    field_simp
  have k1 : Dot (v - _PCA.unscalingMatrix.mulVec c) _PCA.c1.vector / _PCA.c1.size
      = Dot (_PCA.scalingMatrix.mulVec v - c) _PCA.c1.vector := by
    rw [Dot_sub_left, Dot_sub_left]
    unfold PCAArray.unscalingMatrix PCAArray.scalingMatrix
    rw [m1, n1]
    field_simp
  have k2 : Dot (v - _PCA.unscalingMatrix.mulVec c) _PCA.c2.vector / _PCA.c2.size
      = Dot (_PCA.scalingMatrix.mulVec v - c) _PCA.c2.vector := by
    rw [Dot_sub_left, Dot_sub_left]
    unfold PCAArray.unscalingMatrix PCAArray.scalingMatrix
    rw [m2, n2]
    field_simp
  rw [k0, k1, k2, ← orthonormal_parseval horth]
  exact hsq

/-- Witness for C37: two vertices, the coordinate axes as directions and the sizes
`4, 2, 1`; the inequality for the vertex `(4, 2, 1)`. -/
theorem CalculatePCABoundingEllipsoid_contains_vertices_witness :
    (Dot ((⟨4, 2, 1⟩ : Point3D ℝ) - (CalculatePCABoundingEllipsoid Real.sqrt
          [(⟨0, 0, 0⟩ : Point3D ℝ), ⟨4, 2, 1⟩]
          ⟨⟨⟨1, 0, 0⟩, 4⟩, ⟨⟨0, 1, 0⟩, 2⟩, ⟨⟨0, 0, 1⟩, 1⟩⟩).center)
          (⟨⟨⟨1, 0, 0⟩, 4⟩, ⟨⟨0, 1, 0⟩, 2⟩, ⟨⟨0, 0, 1⟩, 1⟩⟩ : PCAArray ℝ).c0.vector
        / (⟨⟨⟨1, 0, 0⟩, 4⟩, ⟨⟨0, 1, 0⟩, 2⟩, ⟨⟨0, 0, 1⟩, 1⟩⟩ : PCAArray ℝ).c0.size) ^ 2
      + (Dot ((⟨4, 2, 1⟩ : Point3D ℝ) - (CalculatePCABoundingEllipsoid Real.sqrt
          [(⟨0, 0, 0⟩ : Point3D ℝ), ⟨4, 2, 1⟩]
          ⟨⟨⟨1, 0, 0⟩, 4⟩, ⟨⟨0, 1, 0⟩, 2⟩, ⟨⟨0, 0, 1⟩, 1⟩⟩).center)
          (⟨⟨⟨1, 0, 0⟩, 4⟩, ⟨⟨0, 1, 0⟩, 2⟩, ⟨⟨0, 0, 1⟩, 1⟩⟩ : PCAArray ℝ).c1.vector
        / (⟨⟨⟨1, 0, 0⟩, 4⟩, ⟨⟨0, 1, 0⟩, 2⟩, ⟨⟨0, 0, 1⟩, 1⟩⟩ : PCAArray ℝ).c1.size) ^ 2
      + (Dot ((⟨4, 2, 1⟩ : Point3D ℝ) - (CalculatePCABoundingEllipsoid Real.sqrt
          [(⟨0, 0, 0⟩ : Point3D ℝ), ⟨4, 2, 1⟩]
          ⟨⟨⟨1, 0, 0⟩, 4⟩, ⟨⟨0, 1, 0⟩, 2⟩, ⟨⟨0, 0, 1⟩, 1⟩⟩).center)
          (⟨⟨⟨1, 0, 0⟩, 4⟩, ⟨⟨0, 1, 0⟩, 2⟩, ⟨⟨0, 0, 1⟩, 1⟩⟩ : PCAArray ℝ).c2.vector
        / (⟨⟨⟨1, 0, 0⟩, 4⟩, ⟨⟨0, 1, 0⟩, 2⟩, ⟨⟨0, 0, 1⟩, 1⟩⟩ : PCAArray ℝ).c2.size) ^ 2
      ≤ (CalculatePCABoundingSphere Real.sqrt
          ([(⟨0, 0, 0⟩ : Point3D ℝ), ⟨4, 2, 1⟩].map
            (fun v => (PCAArray.scalingMatrix
              (⟨⟨⟨1, 0, 0⟩, 4⟩, ⟨⟨0, 1, 0⟩, 2⟩, ⟨⟨0, 0, 1⟩, 1⟩⟩ : PCAArray ℝ)).mulVec v))
          ⟨⟨⟨1, 0, 0⟩, 4⟩, ⟨⟨0, 1, 0⟩, 2⟩, ⟨⟨0, 0, 1⟩, 1⟩⟩).radius ^ 2 :=
  (CalculatePCABoundingEllipsoid_contains_vertices [(⟨0, 0, 0⟩ : Point3D ℝ), ⟨4, 2, 1⟩]
    ⟨⟨⟨1, 0, 0⟩, 4⟩, ⟨⟨0, 1, 0⟩, 2⟩, ⟨⟨0, 0, 1⟩, 1⟩⟩ (List.cons_ne_nil _ _)
    (by norm_num [Orthonormal3, Dot]) (by norm_num) (by norm_num) (by norm_num)).1
    ⟨4, 2, 1⟩ (by simp)

end SRE
